import Mathlib

/-!
KozaTakip (Wemos D1 R32 firmware): rule engine and actuator controller.

A shallow embedding of `RuleEngine.cpp`, `Controller.cpp`, `Actuators.cpp`,
`Types.h` and `Config.h`, followed by theorems about the embedded functions.

Modelling conventions.

* `float` is IEEE binary32.  A value is `F32`: not-a-number, one of the two
  infinities, or a finite value carried as a rational.  Arithmetic results go
  through `roundF` (round to nearest, ties to even, 24-bit significand, minimum
  exponent -126, overflow to infinity).  The sign of zero is not tracked: the
  embedded code only compares floats and never divides by zero, so the two zeros
  are indistinguishable to it.
* `unsigned long` is 32 bits wide on the ESP32; subtraction wraps modulo `2^32`.
* `int` is 32 bits wide on the ESP32.  A value is an integer; comparisons are
  exact, and the sums and differences that `Controller::applyAutoControl` forms
  go through `wrapInt`, the two's-complement result of the 32-bit add.  (The C++
  standard leaves signed overflow undefined; the wrap is what the add
  instruction of the target delivers.)  Division by 2 truncates toward zero.
* `const char*` is `Option String` (`none` is the null pointer); Arduino `String`
  is `String`.
* Pins and the network are outside the model: `RelayActuator::set` keeps the
  `_stateOn` bookkeeping, and `ApiClient::postActuatorAudit` appends its
  arguments to a log.
-/

namespace KozaTakip

/-! ## binary32 model -/

/-- Round a rational to the nearest integer, ties going to the even neighbour. -/
def roundHalfEven (x : ℚ) : ℤ :=
  if x - ⌊x⌋ < 1 / 2 then ⌊x⌋
  else if 1 / 2 < x - ⌊x⌋ then ⌊x⌋ + 1
  else if ⌊x⌋ % 2 = 0 then ⌊x⌋ else ⌊x⌋ + 1

/-- Exponent of the unit in the last place that binary32 uses around `q`
(the binade of `q`, clamped at the subnormal range, less the 23 fraction bits). -/
def ulpExp (q : ℚ) : ℤ := max (Int.log 2 |q|) (-126) - 23

/-- Value of a binary32 float. -/
inductive F32 where
  | nan
  | ninf
  | pinf
  | fin (q : ℚ)
deriving DecidableEq

/-- Rounding to the binary32 grid around `q`, before the overflow test: the
nearest multiple of the unit in the last place, ties to the even multiple. -/
def roundV (q : ℚ) : ℚ := (roundHalfEven (q / (2 : ℚ) ^ ulpExp q) : ℚ) * (2 : ℚ) ^ ulpExp q

/-- Rounding of an exact rational result to binary32 (round to nearest even);
a rounded magnitude of `2^128` or more overflows to infinity. -/
def roundF (q : ℚ) : F32 :=
  if (2 : ℚ) ^ (128 : ℕ) ≤ roundV q then F32.pinf
  else if roundV q ≤ -(2 : ℚ) ^ (128 : ℕ) then F32.ninf
  else F32.fin (roundV q)

namespace F32

/-- The C `isnan`. -/
def isnan : F32 → Bool
  | nan => true
  | _ => false

/-- The C `a < b` on floats: false as soon as one side is not a number. -/
def lt : F32 → F32 → Bool
  | fin a, fin b => decide (a < b)
  | ninf, fin _ => true
  | ninf, pinf => true
  | fin _, pinf => true
  | _, _ => false

/-- The C `a <= b` on floats. -/
def le : F32 → F32 → Bool
  | fin a, fin b => decide (a ≤ b)
  | ninf, ninf => true
  | ninf, fin _ => true
  | ninf, pinf => true
  | fin _, pinf => true
  | pinf, pinf => true
  | _, _ => false

/-- The C `a > b` on floats. -/
def gt (a b : F32) : Bool := lt b a

/-- The C `a >= b` on floats. -/
def ge (a b : F32) : Bool := le b a

/-- Unary minus. -/
def neg : F32 → F32
  | nan => nan
  | ninf => pinf
  | pinf => ninf
  | fin q => fin (-q)

/-- The C `a + b` on floats. -/
def add : F32 → F32 → F32
  | fin a, fin b => roundF (a + b)
  | fin _, pinf => pinf
  | fin _, ninf => ninf
  | pinf, fin _ => pinf
  | ninf, fin _ => ninf
  | pinf, pinf => pinf
  | ninf, ninf => ninf
  | _, _ => nan

/-- The C `a - b` on floats. -/
def sub (a b : F32) : F32 := add a (neg b)

/-- The C `a / 2.0f`. -/
def half : F32 → F32
  | fin a => roundF (a / 2)
  | x => x

/-- The C `fabsf`. -/
def fabs : F32 → F32
  | nan => nan
  | ninf => pinf
  | pinf => pinf
  | fin q => fin |q|

/-- A literal, or an `int` promoted to `float`; every constant of the sources
that is written through `lit` is exactly representable in binary32. -/
def lit (q : ℚ) : F32 := fin q

end F32

/-! ## Types.h -/

/-- The enum `ControlMode`. -/
inductive ControlMode where
  | MODE_AUTO
  | MODE_MANUAL
deriving DecidableEq

/-- The struct `EnvReading`; an unknown float is `nan`, an unknown CO2 is `<= 0`. -/
structure EnvReading where
  temperatureC : F32 := F32.nan
  humidityPct : F32 := F32.nan
  co2ppm : ℤ := -1
  lux : F32 := F32.nan
  tsMs : ℕ := 0
deriving DecidableEq

/-- The struct `Thresholds`. -/
structure Thresholds where
  tMin : F32 := F32.nan
  tOpt : F32 := F32.nan
  tMax : F32 := F32.nan
  hMin : F32 := F32.nan
  hOpt : F32 := F32.nan
  hMax : F32 := F32.nan
  co2Min : ℤ := -1
  co2Opt : ℤ := -1
  co2Max : ℤ := -1
deriving DecidableEq

/-! ## Config.h -/

/-- Constant `T_OK_MIN = 24.0`. -/
def T_OK_MIN : F32 := F32.lit 24

/-- Constant `T_OK_MAX = 28.0`. -/
def T_OK_MAX : F32 := F32.lit 28

/-- Constant `H_OK_MIN = 75.0`. -/
def H_OK_MIN : F32 := F32.lit 75

/-- Constant `H_OK_MAX = 85.0`. -/
def H_OK_MAX : F32 := F32.lit 85

/-- Constant `CO2_OK_MAX = 1200`. -/
def CO2_OK_MAX : ℤ := 1200

/-- Constant `static const float T_HYST = 0.3;`: the binary32 nearest to 0.3,
`10066330 * 2^-25 = 0.300000011920928955078125`. -/
def T_HYST : F32 := F32.fin (5033165 / 16777216)

/-- Constant `H_HYST = 1.0`. -/
def H_HYST : F32 := F32.lit 1

/-- Constant `CO2_HYST = 50`. -/
def CO2_HYST : ℤ := 50

/-! ## RuleEngine.h / RuleEngine.cpp -/

/-- The enum `AlarmLevel`. -/
inductive AlarmLevel where
  | ALARM_NORMAL
  | ALARM_WARNING
  | ALARM_RISK
  | ALARM_CRITICAL
deriving DecidableEq

open AlarmLevel ControlMode

/-- Integer value of an `AlarmLevel` enumerator. -/
def AlarmLevel.toNat : AlarmLevel → ℕ
  | ALARM_NORMAL => 0
  | ALARM_WARNING => 1
  | ALARM_RISK => 2
  | ALARM_CRITICAL => 3

/-- Function `maxLevel`: `(a > b) ? a : b`. -/
def maxLevel (a b : AlarmLevel) : AlarmLevel :=
  if a.toNat > b.toNat then a else b

/-- The struct `RuleOutput`. -/
structure RuleOutput where
  level : AlarmLevel := ALARM_NORMAL
  increaseVentilation : Bool := false
  increaseHumidity : Bool := false
  decreaseHumidity : Bool := false
  increaseTemperature : Bool := false
  decreaseTemperature : Bool := false
  flacherieRisk : Bool := false
  muscardineRisk : Bool := false
  cocoonQualityRisk : Bool := false
  rapidTempChange : Bool := false
deriving DecidableEq

/-- Some action flag or some risk flag of the output is set. -/
def RuleOutput.anyFlag (o : RuleOutput) : Bool :=
  o.increaseVentilation || o.increaseHumidity || o.decreaseHumidity || o.increaseTemperature ||
    o.decreaseTemperature || o.flacherieRisk || o.muscardineRisk || o.cocoonQualityRisk ||
    o.rapidTempChange

/-- The private fields of the class `RuleEngine` (the trend state). -/
structure RuleEngine where
  lastTempC : F32 := F32.nan
  lastTempMs : ℕ := 0
deriving DecidableEq

/-- Modulus of `unsigned long` arithmetic. -/
def ULONG_MOD : ℕ := 4294967296

/-- The `unsigned long` difference `a - b`. -/
def usub (a b : ℕ) : ℕ := (a % ULONG_MOD + ULONG_MOD - b % ULONG_MOD) % ULONG_MOD

/-- Method `RuleEngine::reset`. -/
def RuleEngine.reset (_e : RuleEngine) : RuleEngine :=
  { lastTempC := F32.nan, lastTempMs := 0 }

/-- Method `RuleEngine::toStressLevel`. -/
def RuleEngine.toStressLevel (lvl : AlarmLevel) : String :=
  if lvl = ALARM_CRITICAL then "high"
  else if lvl = ALARM_RISK then "medium"
  else if lvl = ALARM_WARNING then "medium"
  else "low"

/-- The lambda `mark` of `RuleEngine::evaluate`. -/
def mark (out : RuleOutput) (lvl : AlarmLevel) : RuleOutput :=
  { out with level := maxLevel out.level lvl }

/-- Local `hasT`: the temperature is present. -/
def hasT (r : EnvReading) : Bool := !r.temperatureC.isnan

/-- Local `hasH`: the humidity is present. -/
def hasH (r : EnvReading) : Bool := !r.humidityPct.isnan

/-- Local `hasCO2`: the CO2 value is present. -/
def hasCO2 (r : EnvReading) : Bool := decide (r.co2ppm > 0)

/-- Rapid temperature change block of `RuleEngine::evaluate` (RuleEngine.cpp 28-38). -/
def rapidBlock (e : RuleEngine) (stage : String) (r : EnvReading) (nowMs : ℕ)
    (out : RuleOutput) : RuleOutput :=
  if hasT r && !e.lastTempC.isnan && decide (e.lastTempMs > 0) then
    if usub nowMs e.lastTempMs ≤ 60 * 60 * 1000 then
      if (F32.fabs (F32.sub r.temperatureC e.lastTempC)).ge (F32.lit 2) && decide (stage = "larva_5") then
        mark { out with rapidTempChange := true } ALARM_CRITICAL
      else out
    else out
  else out

/-- Branch `stage == "egg_incubation"` (RuleEngine.cpp 41-58). -/
def eggIncubationBlock (r : EnvReading) (out : RuleOutput) : RuleOutput :=
  let out := if hasT r then
    let out := if r.temperatureC.lt (F32.lit 24) || r.temperatureC.gt (F32.lit 27) then mark out ALARM_CRITICAL
      else if r.temperatureC.lt (F32.lit 25) || r.temperatureC.gt (F32.lit 26) then mark out ALARM_WARNING else out
    let out := if r.temperatureC.lt (F32.lit 25) then { out with increaseTemperature := true } else out
    let out := if r.temperatureC.gt (F32.lit 26) then { out with decreaseTemperature := true } else out
    out else out
  let out := if hasH r then
    let out := if r.humidityPct.lt (F32.lit 80) || r.humidityPct.gt (F32.lit 90) then mark out ALARM_CRITICAL
      else if r.humidityPct.lt (F32.lit 82) || r.humidityPct.gt (F32.lit 88) then mark out ALARM_WARNING else out
    let out := if r.humidityPct.lt (F32.lit 82) then { out with increaseHumidity := true } else out
    let out := if r.humidityPct.gt (F32.lit 88) then { out with decreaseHumidity := true } else out
    out else out
  let out := if hasCO2 r then
    let out := if r.co2ppm > 1000 then mark out ALARM_CRITICAL
      else if r.co2ppm > 900 then mark out ALARM_RISK else out
    let out := if r.co2ppm > 900 then { out with increaseVentilation := true } else out
    out else out
  out

/-- Branch `stage == "adaptation_0_1"` (RuleEngine.cpp 59-76). -/
def adaptationBlock (r : EnvReading) (out : RuleOutput) : RuleOutput :=
  let out := if hasT r then
    let out := if r.temperatureC.lt (F32.lit 27) || r.temperatureC.gt (F32.lit 29) then mark out ALARM_CRITICAL
      else if r.temperatureC.lt (F32.lit (55 / 2)) || r.temperatureC.gt (F32.lit (57 / 2)) then mark out ALARM_WARNING else out
    let out := if r.temperatureC.lt (F32.lit (55 / 2)) then { out with increaseTemperature := true } else out
    let out := if r.temperatureC.gt (F32.lit (57 / 2)) then { out with decreaseTemperature := true } else out
    out else out
  let out := if hasH r then
    let out := if r.humidityPct.lt (F32.lit 86) || r.humidityPct.gt (F32.lit 92) then mark out ALARM_CRITICAL
      else if r.humidityPct.lt (F32.lit 88) || r.humidityPct.gt (F32.lit 91) then mark out ALARM_WARNING else out
    let out := if r.humidityPct.lt (F32.lit 88) then { out with increaseHumidity := true } else out
    let out := if r.humidityPct.gt (F32.lit 91) then { out with decreaseHumidity := true } else out
    out else out
  let out := if hasCO2 r then
    let out := if r.co2ppm > 800 then mark out ALARM_CRITICAL
      else if r.co2ppm > 700 then mark out ALARM_RISK else out
    let out := if r.co2ppm > 700 then { out with increaseVentilation := true } else out
    out else out
  out

/-- Branch `stage == "larva_1"` (RuleEngine.cpp 77-93). -/
def larva1Block (r : EnvReading) (out : RuleOutput) : RuleOutput :=
  let out := if hasT r then
    let out := if r.temperatureC.lt (F32.lit (53 / 2)) || r.temperatureC.gt (F32.lit (55 / 2)) then mark out ALARM_WARNING else out
    let out := if r.temperatureC.lt (F32.lit (53 / 2)) then { out with increaseTemperature := true } else out
    let out := if r.temperatureC.gt (F32.lit (55 / 2)) then { out with decreaseTemperature := true } else out
    out else out
  let out := if hasH r then
    let out := if r.humidityPct.gt (F32.lit 90) then { mark out ALARM_CRITICAL with muscardineRisk := true }
      else if r.humidityPct.lt (F32.lit 86) || r.humidityPct.gt (F32.lit 89) then mark out ALARM_WARNING else out
    let out := if r.humidityPct.lt (F32.lit 86) then { out with increaseHumidity := true } else out
    let out := if r.humidityPct.gt (F32.lit 89) then { out with decreaseHumidity := true } else out
    out else out
  let out := if hasCO2 r then
    let out := if r.co2ppm > 900 then mark out ALARM_CRITICAL
      else if r.co2ppm > 800 then mark out ALARM_RISK else out
    let out := if r.co2ppm > 800 then { out with increaseVentilation := true } else out
    out else out
  out

/-- Branch `stage == "larva_2"` (RuleEngine.cpp 94-110). -/
def larva2Block (r : EnvReading) (out : RuleOutput) : RuleOutput :=
  let out := if hasT r then
    let out := if r.temperatureC.lt (F32.lit (51 / 2)) || r.temperatureC.gt (F32.lit (53 / 2)) then mark out ALARM_WARNING else out
    let out := if r.temperatureC.lt (F32.lit (51 / 2)) then { out with increaseTemperature := true } else out
    let out := if r.temperatureC.gt (F32.lit (53 / 2)) then { out with decreaseTemperature := true } else out
    out else out
  let out := if hasH r then
    let out := if r.humidityPct.gt (F32.lit 85) then mark out ALARM_CRITICAL
      else if r.humidityPct.lt (F32.lit 81) || r.humidityPct.gt (F32.lit 84) then mark out ALARM_WARNING else out
    let out := if r.humidityPct.lt (F32.lit 81) then { out with increaseHumidity := true } else out
    let out := if r.humidityPct.gt (F32.lit 84) then { out with decreaseHumidity := true } else out
    out else out
  let out := if hasCO2 r then
    let out := if r.co2ppm > 1000 then mark out ALARM_CRITICAL
      else if r.co2ppm > 900 then mark out ALARM_RISK else out
    let out := if r.co2ppm > 900 then { out with increaseVentilation := true } else out
    out else out
  out

/-- Branch `stage == "larva_3"` (RuleEngine.cpp 111-127). -/
def larva3Block (r : EnvReading) (out : RuleOutput) : RuleOutput :=
  let out := if hasT r then
    let out := if r.temperatureC.lt (F32.lit (49 / 2)) || r.temperatureC.gt (F32.lit (51 / 2)) then mark out ALARM_WARNING else out
    let out := if r.temperatureC.lt (F32.lit (49 / 2)) then { out with increaseTemperature := true } else out
    let out := if r.temperatureC.gt (F32.lit (51 / 2)) then { out with decreaseTemperature := true } else out
    out else out
  let out := if hasH r then
    let out := if r.humidityPct.gt (F32.lit 80) then { mark out ALARM_CRITICAL with muscardineRisk := true }
      else if r.humidityPct.lt (F32.lit 76) || r.humidityPct.gt (F32.lit 79) then mark out ALARM_WARNING else out
    let out := if r.humidityPct.lt (F32.lit 76) then { out with increaseHumidity := true } else out
    let out := if r.humidityPct.gt (F32.lit 79) then { out with decreaseHumidity := true } else out
    out else out
  let out := if hasCO2 r then
    let out := if r.co2ppm > 1100 then mark out ALARM_CRITICAL
      else if r.co2ppm > 1000 then mark out ALARM_RISK else out
    let out := if r.co2ppm > 1000 then { out with increaseVentilation := true } else out
    out else out
  out

/-- Branch `stage == "larva_4"` (RuleEngine.cpp 128-142). -/
def larva4Block (r : EnvReading) (out : RuleOutput) : RuleOutput :=
  let out := if hasH r then
    let out := if r.humidityPct.gt (F32.lit 75) then { mark out ALARM_CRITICAL with muscardineRisk := true }
      else if r.humidityPct.gt (F32.lit 74) then mark out ALARM_WARNING else out
    let out := if r.humidityPct.gt (F32.lit 74) then { out with decreaseHumidity := true } else out
    out else out
  let out := if hasCO2 r then
    let out := if r.co2ppm > 1200 then mark out ALARM_CRITICAL
      else if r.co2ppm > 1100 then mark out ALARM_RISK else out
    let out := if r.co2ppm > 1100 then { out with increaseVentilation := true } else out
    out else out
  let out := if hasCO2 r && hasH r && decide (r.co2ppm > 1200) && r.humidityPct.gt (F32.lit 75) then
    mark { out with flacherieRisk := true } ALARM_CRITICAL else out
  out

/-- Branch `stage == "larva_5"` (RuleEngine.cpp 143-153). -/
def larva5Block (r : EnvReading) (out : RuleOutput) : RuleOutput :=
  let out := if hasH r then
    let out := if r.humidityPct.gt (F32.lit 70) then { mark out ALARM_CRITICAL with muscardineRisk := true }
      else if r.humidityPct.gt (F32.lit 69) then mark out ALARM_WARNING else out
    let out := if r.humidityPct.gt (F32.lit 69) then { out with decreaseHumidity := true } else out
    out else out
  let out := if hasCO2 r then
    let out := if r.co2ppm > 1200 then mark out ALARM_CRITICAL
      else if r.co2ppm > 1100 then mark out ALARM_RISK else out
    let out := if r.co2ppm > 1100 then { out with increaseVentilation := true } else out
    out else out
  out

/-- Branch `stage == "cocoon"` (RuleEngine.cpp 154-165). -/
def cocoonBlock (r : EnvReading) (out : RuleOutput) : RuleOutput :=
  let out := if hasH r then
    let out := if r.humidityPct.gt (F32.lit 70) then { mark out ALARM_CRITICAL with cocoonQualityRisk := true }
      else if r.humidityPct.lt (F32.lit 63) || r.humidityPct.gt (F32.lit 68) then mark out ALARM_WARNING else out
    let out := if r.humidityPct.lt (F32.lit 63) then { out with increaseHumidity := true } else out
    let out := if r.humidityPct.gt (F32.lit 68) then { out with decreaseHumidity := true } else out
    out else out
  let out := if hasCO2 r then
    let out := if r.co2ppm > 1000 then mark out ALARM_CRITICAL
      else if r.co2ppm > 900 then mark out ALARM_RISK else out
    let out := if r.co2ppm > 900 then { out with increaseVentilation := true } else out
    out else out
  out

/-- The stage dispatch of `RuleEngine::evaluate` (RuleEngine.cpp 40-166). -/
def stageBlock (stage : String) (r : EnvReading) (out : RuleOutput) : RuleOutput :=
  if stage = "egg_incubation" then eggIncubationBlock r out
  else if stage = "adaptation_0_1" then adaptationBlock r out
  else if stage = "larva_1" then larva1Block r out
  else if stage = "larva_2" then larva2Block r out
  else if stage = "larva_3" then larva3Block r out
  else if stage = "larva_4" then larva4Block r out
  else if stage = "larva_5" then larva5Block r out
  else if stage = "cocoon" then cocoonBlock r out
  else out

/-- Trend update of `RuleEngine::evaluate` (RuleEngine.cpp 168-172). -/
def trendUpdate (e : RuleEngine) (r : EnvReading) (nowMs : ℕ) : RuleEngine :=
  if hasT r then { lastTempC := r.temperatureC, lastTempMs := nowMs } else e

/-- Compound derivation of `RuleEngine::evaluate` (RuleEngine.cpp 174-177). -/
def compound (out : RuleOutput) : RuleOutput :=
  if out.decreaseTemperature || out.decreaseHumidity then
    { out with increaseVentilation := true }
  else out

/-- Method `RuleEngine::evaluate(stage, r, nowMs)`: the returned `RuleOutput` and the
engine after the call. -/
def RuleEngine.evaluate (e : RuleEngine) (stage : String) (r : EnvReading) (nowMs : ℕ) :
    RuleOutput × RuleEngine :=
  (compound (stageBlock stage r (rapidBlock e stage r nowMs {})), trendUpdate e r nowMs)

/-- The eight stage identifiers that `RuleEngine::evaluate` has a branch for. -/
def knownStages : List String :=
  ["egg_incubation", "adaptation_0_1", "larva_1", "larva_2", "larva_3", "larva_4",
   "larva_5", "cocoon"]

/-! ### Rule shapes

The stage branches of `RuleEngine::evaluate` repeat four shapes of float rule and
one shape of CO2 rule with different constants.  The shapes are stated once
here; each branch above is, by unfolding, a composition of them
(`eggIncubationBlock_eq` and its siblings). -/

/-- Two-tier rule on a float `v`: critical outside `[cl, ch]`, else warning outside
`[wl, wh]`; `incr` below `wl`, `decr` above `wh`. -/
def bandRule2 (v : F32) (incr decr : RuleOutput → RuleOutput) (cl wl wh ch : ℚ)
    (out : RuleOutput) : RuleOutput :=
  let out := if !v.isnan then
    let out := if v.lt (F32.lit cl) || v.gt (F32.lit ch) then mark out ALARM_CRITICAL
      else if v.lt (F32.lit wl) || v.gt (F32.lit wh) then mark out ALARM_WARNING else out
    let out := if v.lt (F32.lit wl) then incr out else out
    let out := if v.gt (F32.lit wh) then decr out else out
    out else out
  out

/-- Warning-only rule on a float `v`: warning outside `[wl, wh]`. -/
def bandRule1 (v : F32) (incr decr : RuleOutput → RuleOutput) (wl wh : ℚ)
    (out : RuleOutput) : RuleOutput :=
  let out := if !v.isnan then
    let out := if v.lt (F32.lit wl) || v.gt (F32.lit wh) then mark out ALARM_WARNING else out
    let out := if v.lt (F32.lit wl) then incr out else out
    let out := if v.gt (F32.lit wh) then decr out else out
    out else out
  out

/-- Rule on a float `v` that is critical (with `risk`) above `ch`, else warning
outside `[wl, wh]`. -/
def bandRuleHi (v : F32) (risk incr decr : RuleOutput → RuleOutput) (wl wh ch : ℚ)
    (out : RuleOutput) : RuleOutput :=
  let out := if !v.isnan then
    let out := if v.gt (F32.lit ch) then risk (mark out ALARM_CRITICAL)
      else if v.lt (F32.lit wl) || v.gt (F32.lit wh) then mark out ALARM_WARNING else out
    let out := if v.lt (F32.lit wl) then incr out else out
    let out := if v.gt (F32.lit wh) then decr out else out
    out else out
  out

/-- Upper-side rule on a float `v`: critical (with `risk`) above `ch`, else warning
above `wh`. -/
def upperRule (v : F32) (risk decr : RuleOutput → RuleOutput) (wh ch : ℚ)
    (out : RuleOutput) : RuleOutput :=
  let out := if !v.isnan then
    let out := if v.gt (F32.lit ch) then risk (mark out ALARM_CRITICAL)
      else if v.gt (F32.lit wh) then mark out ALARM_WARNING else out
    let out := if v.gt (F32.lit wh) then decr out else out
    out else out
  out

/-- CO2 rule: critical above `crit`, else risk above `risk`; ventilation above `risk`. -/
def co2Rule (co2 : ℤ) (crit risk : ℤ) (out : RuleOutput) : RuleOutput :=
  let out := if decide (co2 > 0) then
    let out := if co2 > crit then mark out ALARM_CRITICAL
      else if co2 > risk then mark out ALARM_RISK else out
    let out := if co2 > risk then { out with increaseVentilation := true } else out
    out else out
  out

/-- Level that `bandRule2` marks for `v`. -/
def bandLevel2 (v : F32) (cl wl wh ch : ℚ) : AlarmLevel :=
  if !v.isnan then
    if v.lt (F32.lit cl) || v.gt (F32.lit ch) then ALARM_CRITICAL
    else if v.lt (F32.lit wl) || v.gt (F32.lit wh) then ALARM_WARNING else ALARM_NORMAL
  else ALARM_NORMAL

/-- Level that `bandRule1` marks for `v`. -/
def bandLevel1 (v : F32) (wl wh : ℚ) : AlarmLevel :=
  if !v.isnan then
    if v.lt (F32.lit wl) || v.gt (F32.lit wh) then ALARM_WARNING else ALARM_NORMAL
  else ALARM_NORMAL

/-- Level that `bandRuleHi` marks for `v`. -/
def bandLevelHi (v : F32) (wl wh ch : ℚ) : AlarmLevel :=
  if !v.isnan then
    if v.gt (F32.lit ch) then ALARM_CRITICAL
    else if v.lt (F32.lit wl) || v.gt (F32.lit wh) then ALARM_WARNING else ALARM_NORMAL
  else ALARM_NORMAL

/-- Level that `upperRule` marks for `v`. -/
def upperLevel (v : F32) (wh ch : ℚ) : AlarmLevel :=
  if !v.isnan then
    if v.gt (F32.lit ch) then ALARM_CRITICAL
    else if v.gt (F32.lit wh) then ALARM_WARNING else ALARM_NORMAL
  else ALARM_NORMAL

/-- Level that `co2Rule` marks. -/
def co2Level (co2 : ℤ) (crit risk : ℤ) : AlarmLevel :=
  if decide (co2 > 0) then
    if co2 > crit then ALARM_CRITICAL else if co2 > risk then ALARM_RISK else ALARM_NORMAL
  else ALARM_NORMAL

/-- The combined CO2 and humidity rule of the "larva_4" branch (RuleEngine.cpp 139-142). -/
def flacherieRule (r : EnvReading) (out : RuleOutput) : RuleOutput :=
  let out := if hasCO2 r && hasH r && decide (r.co2ppm > 1200) && r.humidityPct.gt (F32.lit 75) then
    mark { out with flacherieRisk := true } ALARM_CRITICAL else out
  out

/-- Level that `flacherieRule` marks. -/
def flacherieLevel (r : EnvReading) : AlarmLevel :=
  if hasCO2 r && hasH r && decide (r.co2ppm > 1200) && r.humidityPct.gt (F32.lit 75) then
    ALARM_CRITICAL else ALARM_NORMAL

/-- Level that the temperature rule of a stage marks for the temperature `v`. -/
def tempLevel (stage : String) (v : F32) : AlarmLevel :=
  if stage = "egg_incubation" then bandLevel2 v 24 25 26 27
  else if stage = "adaptation_0_1" then bandLevel2 v 27 (55 / 2) (57 / 2) 29
  else if stage = "larva_1" then bandLevel1 v (53 / 2) (55 / 2)
  else if stage = "larva_2" then bandLevel1 v (51 / 2) (53 / 2)
  else if stage = "larva_3" then bandLevel1 v (49 / 2) (51 / 2)
  else ALARM_NORMAL

/-- Level that the humidity rule of a stage marks for the humidity `v`. -/
def humLevel (stage : String) (v : F32) : AlarmLevel :=
  if stage = "egg_incubation" then bandLevel2 v 80 82 88 90
  else if stage = "adaptation_0_1" then bandLevel2 v 86 88 91 92
  else if stage = "larva_1" then bandLevelHi v 86 89 90
  else if stage = "larva_2" then bandLevelHi v 81 84 85
  else if stage = "larva_3" then bandLevelHi v 76 79 80
  else if stage = "larva_4" then upperLevel v 74 75
  else if stage = "larva_5" then upperLevel v 69 70
  else if stage = "cocoon" then bandLevelHi v 63 68 70
  else ALARM_NORMAL

/-- Level that the CO2 rule of a stage marks for the CO2 value `v`. -/
def co2StageLevel (stage : String) (v : ℤ) : AlarmLevel :=
  if stage = "egg_incubation" then co2Level v 1000 900
  else if stage = "adaptation_0_1" then co2Level v 800 700
  else if stage = "larva_1" then co2Level v 900 800
  else if stage = "larva_2" then co2Level v 1000 900
  else if stage = "larva_3" then co2Level v 1100 1000
  else if stage = "larva_4" then co2Level v 1200 1100
  else if stage = "larva_5" then co2Level v 1200 1100
  else if stage = "cocoon" then co2Level v 1000 900
  else ALARM_NORMAL

/-- Level that the combined rule marks at a stage (only "larva_4" has one). -/
def comboLevel (stage : String) (r : EnvReading) : AlarmLevel :=
  if stage = "larva_4" then flacherieLevel r else ALARM_NORMAL

/-! ### Normal bands -/

/-- Bounds of a normal band of a float variable; `none` is a side without bound. -/
structure Band where
  lo : Option ℚ := none
  hi : Option ℚ := none
deriving DecidableEq

/-- The normal temperature band of a stage: the bounds beyond which the stage's
temperature rule marks an alarm.  The last three stages have no temperature rule. -/
def tempBand (stage : String) : Band :=
  if stage = "egg_incubation" then { lo := some 25, hi := some 26 }
  else if stage = "adaptation_0_1" then { lo := some (55 / 2), hi := some (57 / 2) }
  else if stage = "larva_1" then { lo := some (53 / 2), hi := some (55 / 2) }
  else if stage = "larva_2" then { lo := some (51 / 2), hi := some (53 / 2) }
  else if stage = "larva_3" then { lo := some (49 / 2), hi := some (51 / 2) }
  else {}

/-- The normal humidity band of a stage: the bounds beyond which the stage's
humidity rule marks an alarm. -/
def humBand (stage : String) : Band :=
  if stage = "egg_incubation" then { lo := some 82, hi := some 88 }
  else if stage = "adaptation_0_1" then { lo := some 88, hi := some 91 }
  else if stage = "larva_1" then { lo := some 86, hi := some 89 }
  else if stage = "larva_2" then { lo := some 81, hi := some 84 }
  else if stage = "larva_3" then { lo := some 76, hi := some 79 }
  else if stage = "larva_4" then { hi := some 74 }
  else if stage = "larva_5" then { hi := some 69 }
  else if stage = "cocoon" then { lo := some 63, hi := some 68 }
  else {}

/-- The upper end of the normal CO2 range of a stage: the value above which the
stage's CO2 rule marks an alarm. -/
def co2Band (stage : String) : Option ℤ :=
  if stage = "egg_incubation" then some 900
  else if stage = "adaptation_0_1" then some 700
  else if stage = "larva_1" then some 800
  else if stage = "larva_2" then some 900
  else if stage = "larva_3" then some 1000
  else if stage = "larva_4" then some 1100
  else if stage = "larva_5" then some 1100
  else if stage = "cocoon" then some 900
  else none

/-- The float `v` lies outside the band: below its lower bound or above its upper
bound (never so for not-a-number). -/
def Band.outside (b : Band) (v : F32) : Bool :=
  (match b.lo with
    | some lo => v.lt (F32.lit lo)
    | none => false) ||
  (match b.hi with
    | some hi => v.gt (F32.lit hi)
    | none => false)

/-- The float `w` lies further outside the band than `v`, on the same side:
`v` is below the lower bound and `w <= v`, or `v` is above the upper bound and
`v <= w`. -/
def Band.furtherOut (b : Band) (v w : F32) : Bool :=
  (match b.lo with
    | some lo => v.lt (F32.lit lo) && w.le v
    | none => false) ||
  (match b.hi with
    | some hi => v.gt (F32.lit hi) && v.le w
    | none => false)

/-- The CO2 value `w` lies further above the upper end `hi` than `v`. -/
def co2FurtherOut (hi : Option ℤ) (v w : ℤ) : Bool :=
  match hi with
  | some h => decide (v > h) && decide (v ≤ w)
  | none => false

/-- The critical temperature band of a stage: the bounds beyond which the stage's
temperature rule marks `ALARM_CRITICAL`.  Only the first two stages have one. -/
def tempCritBand (stage : String) : Band :=
  if stage = "egg_incubation" then { lo := some 24, hi := some 27 }
  else if stage = "adaptation_0_1" then { lo := some 27, hi := some 29 }
  else {}

/-- The critical humidity band of a stage: the bounds beyond which the stage's
humidity rule marks `ALARM_CRITICAL`.  The larval and cocoon stages have an upper
bound only. -/
def humCritBand (stage : String) : Band :=
  if stage = "egg_incubation" then { lo := some 80, hi := some 90 }
  else if stage = "adaptation_0_1" then { lo := some 86, hi := some 92 }
  else if stage = "larva_1" then { hi := some 90 }
  else if stage = "larva_2" then { hi := some 85 }
  else if stage = "larva_3" then { hi := some 80 }
  else if stage = "larva_4" then { hi := some 75 }
  else if stage = "larva_5" then { hi := some 70 }
  else if stage = "cocoon" then { hi := some 70 }
  else {}

/-- Position of a stress-level string in the order low < medium < high. -/
def stressRank (s : String) : ℕ :=
  if s = "high" then 2 else if s = "medium" then 1 else 0

/-! ## Actuators.h / Actuators.cpp -/

/-- The class `RelayActuator`; `stateOn` is the field `_stateOn`. -/
structure RelayActuator where
  id : String
  pin : ℤ
  activeLow : Bool := true
  stateOn : Bool := false
deriving DecidableEq

/-- Method `RelayActuator::state`. -/
def RelayActuator.state (a : RelayActuator) : Bool := a.stateOn

/-- Method `RelayActuator::set`; the `digitalWrite` on the pin is outside the model. -/
def RelayActuator.set (a : RelayActuator) (isOn : Bool) : RelayActuator :=
  { a with stateOn := isOn }

/-- The struct `ActuatorSet`; the four pointers are taken to point to four
distinct relay objects, held here by value. -/
structure ActuatorSet where
  fan : RelayActuator
  heater : RelayActuator
  humidifier : RelayActuator
  lighting : RelayActuator
deriving DecidableEq

/-- The four relays on the pins of `Config.h` (`PIN_RELAY_FAN` .. `PIN_RELAY_LIGHT`),
all off, as after `begin()`; used as a concrete starting point in examples. -/
def boardRelays : ActuatorSet :=
  { fan := { id := "ventilation", pin := 25 }
    heater := { id := "heater", pin := 26 }
    humidifier := { id := "humidifier", pin := 27 }
    lighting := { id := "lighting", pin := 14 } }

/-- The relays of `boardRelays` with the heater switched on. -/
def boardRelaysHeaterOn : ActuatorSet :=
  { boardRelays with heater := boardRelays.heater.set true }

/-! ## Controller.h / Controller.cpp -/

/-- The struct `ControlModes`. -/
structure ControlModes where
  fan : ControlMode := MODE_AUTO
  heater : ControlMode := MODE_AUTO
  humidifier : ControlMode := MODE_AUTO
  lighting : ControlMode := MODE_AUTO
deriving DecidableEq

/-- The arguments of one call of `ApiClient::postActuatorAudit`. -/
structure AuditRecord where
  actuator : String
  modeStr : String
  state : Bool
  reading : EnvReading
deriving DecidableEq

/-- The class `Controller` together with what its pointers reach: the relays,
the mode registry, the threshold set (`none` is a null `thresholds` pointer) and
the audit records posted through `api` so far, oldest first. -/
structure Controller where
  actuators : ActuatorSet
  modes : ControlModes := {}
  thresholds : Option Thresholds := none
  audits : List AuditRecord := []
deriving DecidableEq

/-- Effect of `api->postActuatorAudit(actuator, modeStr, state, r)` on the model;
the returned success flag is ignored by every caller in `Controller.cpp`. -/
def Controller.postActuatorAudit (c : Controller) (actuator modeStr : String) (state : Bool)
    (r : EnvReading) : Controller :=
  { c with audits := c.audits ++ [{ actuator := actuator, modeStr := modeStr, state := state, reading := r }] }

/-- Function `strEq`: false when either pointer is null. -/
def strEq (a b : Option String) : Bool :=
  match a, b with
  | some x, some y => decide (x = y)
  | _, _ => false

/-- Method `Controller::setMode`. -/
def Controller.setMode (c : Controller) (actuatorId : Option String) (mode : ControlMode) :
    Controller :=
  if strEq actuatorId (some "ventilation") then { c with modes := { c.modes with fan := mode } }
  else if strEq actuatorId (some "heater") then { c with modes := { c.modes with heater := mode } }
  else if strEq actuatorId (some "humidifier") then
    { c with modes := { c.modes with humidifier := mode } }
  else if strEq actuatorId (some "lighting") then
    { c with modes := { c.modes with lighting := mode } }
  else c

/-- Method `Controller::applyManual`. -/
def Controller.applyManual (c : Controller) (actuatorId : Option String) (state : Bool)
    (r : EnvReading) : Controller :=
  if strEq actuatorId (some "ventilation") then
    if c.modes.fan ≠ MODE_MANUAL then c
    else if state ≠ c.actuators.fan.state then
      ({ c with actuators := { c.actuators with fan := c.actuators.fan.set state } }).postActuatorAudit
        "ventilation" "manual" state r
    else c
  else if strEq actuatorId (some "heater") then
    if c.modes.heater ≠ MODE_MANUAL then c
    else if state ≠ c.actuators.heater.state then
      ({ c with actuators := { c.actuators with heater := c.actuators.heater.set state } }).postActuatorAudit
        "heater" "manual" state r
    else c
  else if strEq actuatorId (some "humidifier") then
    if c.modes.humidifier ≠ MODE_MANUAL then c
    else if state ≠ c.actuators.humidifier.state then
      ({ c with actuators := { c.actuators with humidifier := c.actuators.humidifier.set state } }).postActuatorAudit
        "humidifier" "manual" state r
    else c
  else if strEq actuatorId (some "lighting") then
    if c.modes.lighting ≠ MODE_MANUAL then c
    else if state ≠ c.actuators.lighting.state then
      ({ c with actuators := { c.actuators with lighting := c.actuators.lighting.set state } }).postActuatorAudit
        "lighting" "manual" state r
    else c
  else c

/-- The mode registered for an actuator identifier, `none` when the identifier
names no actuator; the identifiers are matched as `setMode` and `applyManual`
match them. -/
def Controller.modeOf (c : Controller) (actuatorId : Option String) : Option ControlMode :=
  if strEq actuatorId (some "ventilation") then some c.modes.fan
  else if strEq actuatorId (some "heater") then some c.modes.heater
  else if strEq actuatorId (some "humidifier") then some c.modes.humidifier
  else if strEq actuatorId (some "lighting") then some c.modes.lighting
  else none

/-- The relay an actuator identifier names, `none` when the identifier names no
actuator; the identifiers are matched as `setMode` and `applyManual` match them. -/
def Controller.relayOf (c : Controller) (actuatorId : Option String) : Option RelayActuator :=
  if strEq actuatorId (some "ventilation") then some c.actuators.fan
  else if strEq actuatorId (some "heater") then some c.actuators.heater
  else if strEq actuatorId (some "humidifier") then some c.actuators.humidifier
  else if strEq actuatorId (some "lighting") then some c.actuators.lighting
  else none

/-- The four actuator identifiers that `setMode` and `applyManual` have a branch for. -/
def knownActuators : List String := ["ventilation", "heater", "humidifier", "lighting"]

/-- The audit records of a log that name the given actuator. -/
def auditsOf (actuator : String) (log : List AuditRecord) : List AuditRecord :=
  log.filter (fun a => a.actuator = actuator)

/-- Example controller: every actuator Automatic, heater on, thresholds whose
optimal temperature equals the maximum (min 24, optimal 28, max 28). -/
def heaterOnTightMax : Controller :=
  { actuators := boardRelaysHeaterOn
    thresholds := some { tMin := F32.lit 24, tOpt := F32.lit 28, tMax := F32.lit 28 } }

/-- Example controller: every actuator Automatic, heater on, thresholds with only
the optimal temperature 26 given. -/
def heaterOnOpt26 : Controller :=
  { actuators := boardRelaysHeaterOn
    thresholds := some { tOpt := F32.lit 26 } }

/-- Example controller: every actuator Automatic, heater on, no threshold set. -/
def heaterOnDefault : Controller :=
  { actuators := boardRelaysHeaterOn }

/-- Example controller: relays off, the heater in Manual mode, the rest Automatic. -/
def heaterManual : Controller :=
  { actuators := boardRelays
    modes := { heater := MODE_MANUAL } }

/-- Example controller: relays off, every actuator Automatic, thresholds with only
the minimum temperature 30 given. -/
def autoMinOnly30 : Controller :=
  { actuators := boardRelays
    thresholds := some { tMin := F32.lit 30 } }

/-- Example controller: relays off, every actuator Automatic, no threshold set. -/
def autoDefault : Controller :=
  { actuators := boardRelays }

/-- Example controller: relays off, every actuator Automatic, thresholds with only
the optimal CO2 given, at the largest `int` value 2147483647. -/
def autoCo2OptIntMax : Controller :=
  { actuators := boardRelays
    thresholds := some { co2Opt := 2147483647 } }

/-- The Schmitt trigger of the specification, for a value `v`, bounds `lo`, `opt`,
`hi`, margin `hyst` and previous state `wasOn`: an unknown value gives off; a
value below `lo` forces on; a value above `hi` forces off; otherwise an off
device turns on below `opt - hyst`, an on device turns off above `opt + hyst`,
and the previous state is held in between. -/
def schmittTrigger (v lo opt hi hyst : F32) (wasOn : Bool) : Bool :=
  if v.isnan then false
  else if v.lt lo then true
  else if v.gt hi then false
  else
    match wasOn with
    | false => v.lt (F32.sub opt hyst)
    | true => !v.gt (F32.add opt hyst)

/-- The audit records an Automatic pass owes one actuator: the record
`(name, "auto", new state, reading)` when the actuator is in Automatic mode and
its state changed, nothing otherwise. -/
def autoAudit (name : String) (mode : ControlMode) (before after : RelayActuator)
    (r : EnvReading) : List AuditRecord :=
  if mode = MODE_AUTO ∧ after.stateOn ≠ before.stateOn then
    [{ actuator := name, modeStr := "auto", state := after.stateOn, reading := r }]
  else []

/-- The nine locals `tMin .. co2Max` of `Controller::applyAutoControl`. -/
structure Resolved where
  tMin : F32
  tOpt : F32
  tMax : F32
  hMin : F32
  hOpt : F32
  hMax : F32
  co2Min : ℤ
  co2Opt : ℤ
  co2Max : ℤ
deriving DecidableEq

/-- Largest value of the 32-bit `int`. -/
def INT_MAX : ℤ := 2147483647

/-- Smallest value of the 32-bit `int`. -/
def INT_MIN : ℤ := -2147483648

/-- The 32-bit `int` left by a sum or difference whose exact value is `x`: the
integer in `INT_MIN .. INT_MAX` congruent to `x` modulo `2^32`. -/
def wrapInt (x : ℤ) : ℤ := (x - INT_MIN) % 4294967296 + INT_MIN

/-- The expression `(thresholds && !isnan(thresholds->f)) ? thresholds->f : dflt`. -/
def pickF (th : Option Thresholds) (f : Thresholds → F32) (dflt : F32) : F32 :=
  match th with
  | some t => if !(f t).isnan then f t else dflt
  | none => dflt

/-- The expression `(thresholds && thresholds->f > 0) ? thresholds->f : dflt`. -/
def pickPos (th : Option Thresholds) (f : Thresholds → ℤ) (dflt : ℤ) : ℤ :=
  match th with
  | some t => if f t > 0 then f t else dflt
  | none => dflt

/-- The expression `(thresholds && thresholds->co2Min >= 0) ? thresholds->co2Min : 0`. -/
def pickCo2Min (th : Option Thresholds) : ℤ :=
  match th with
  | some t => if t.co2Min ≥ 0 then t.co2Min else 0
  | none => 0

/-- Threshold resolution of `Controller::applyAutoControl` (Controller.cpp 61-69);
the CO2 midpoint is the `int` expression `(co2Min + co2Max) / 2`. -/
def resolve (th : Option Thresholds) : Resolved :=
  { tMin := pickF th (fun t => t.tMin) T_OK_MIN
    tOpt := pickF th (fun t => t.tOpt)
      (F32.half (F32.add (pickF th (fun t => t.tMin) T_OK_MIN) (pickF th (fun t => t.tMax) T_OK_MAX)))
    tMax := pickF th (fun t => t.tMax) T_OK_MAX
    hMin := pickF th (fun t => t.hMin) H_OK_MIN
    hOpt := pickF th (fun t => t.hOpt)
      (F32.half (F32.add (pickF th (fun t => t.hMin) H_OK_MIN) (pickF th (fun t => t.hMax) H_OK_MAX)))
    hMax := pickF th (fun t => t.hMax) H_OK_MAX
    co2Min := pickCo2Min th
    co2Opt := pickPos th (fun t => t.co2Opt)
      (Int.tdiv (wrapInt (pickCo2Min th + pickPos th (fun t => t.co2Max) CO2_OK_MAX)) 2)
    co2Max := pickPos th (fun t => t.co2Max) CO2_OK_MAX }

/-- The value of `need` computed for the fan (Controller.cpp 72-87);
`co2Opt + CO2_HYST` and `co2Opt - CO2_HYST` are `int` expressions. -/
def fanNeed (k : Resolved) (r : EnvReading) : Bool :=
  let need := false
  let need := if r.co2ppm > 0 then
      if r.co2ppm > k.co2Max then true
      else if r.co2ppm > wrapInt (k.co2Opt + CO2_HYST) then true
      else if r.co2ppm < wrapInt (k.co2Opt - CO2_HYST) then false
      else need
    else need
  let need := if !r.temperatureC.isnan then
      if r.temperatureC.gt k.tMax then true
      else if r.temperatureC.gt (F32.add k.tOpt T_HYST) then true
      else need
    else need
  let need := if !r.humidityPct.isnan then
      if r.humidityPct.gt k.hMax then true
      else if r.humidityPct.gt (F32.add k.hOpt H_HYST) then true
      else need
    else need
  need

/-- The value of `need` computed for the heater (Controller.cpp 96-106);
`state` is what `actuators.heater->state()` returns. -/
def heaterNeed (k : Resolved) (r : EnvReading) (state : Bool) : Bool :=
  let need := false
  if !r.temperatureC.isnan then
    if r.temperatureC.lt k.tMin then true
    else if r.temperatureC.gt k.tMax then false
    else
      let wasOn := state
      if !wasOn && r.temperatureC.lt (F32.sub k.tOpt T_HYST) then true
      else if wasOn && r.temperatureC.gt (F32.add k.tOpt T_HYST) then false
      else wasOn
  else need

/-- The value of `need` computed for the humidifier (Controller.cpp 114-124). -/
def humidifierNeed (k : Resolved) (r : EnvReading) (state : Bool) : Bool :=
  let need := false
  if !r.humidityPct.isnan then
    if r.humidityPct.lt k.hMin then true
    else if r.humidityPct.gt k.hMax then false
    else
      let wasOn := state
      if !wasOn && r.humidityPct.lt (F32.sub k.hOpt H_HYST) then true
      else if wasOn && r.humidityPct.gt (F32.add k.hOpt H_HYST) then false
      else wasOn
  else need

/-- The value of `need` computed for the lighting (Controller.cpp 132);
the comparison with the `double` 50.0 is exact. -/
def lightingNeed (r : EnvReading) : Bool :=
  !r.lux.isnan && r.lux.lt (F32.lit 50)

/-- Fan block of `Controller::applyAutoControl` (Controller.cpp 71-93). -/
def fanBlock (k : Resolved) (r : EnvReading) (c : Controller) : Controller :=
  if c.modes.fan = MODE_AUTO then
    if fanNeed k r ≠ c.actuators.fan.state then
      ({ c with actuators := { c.actuators with fan := c.actuators.fan.set (fanNeed k r) } }).postActuatorAudit
        "ventilation" "auto" (fanNeed k r) r
    else c
  else c

/-- Heater block of `Controller::applyAutoControl` (Controller.cpp 95-111). -/
def heaterBlock (k : Resolved) (r : EnvReading) (c : Controller) : Controller :=
  if c.modes.heater = MODE_AUTO then
    if heaterNeed k r c.actuators.heater.state ≠ c.actuators.heater.state then
      ({ c with actuators := { c.actuators with
            heater := c.actuators.heater.set (heaterNeed k r c.actuators.heater.state) } }).postActuatorAudit
        "heater" "auto" (heaterNeed k r c.actuators.heater.state) r
    else c
  else c

/-- Humidifier block of `Controller::applyAutoControl` (Controller.cpp 113-129). -/
def humidifierBlock (k : Resolved) (r : EnvReading) (c : Controller) : Controller :=
  if c.modes.humidifier = MODE_AUTO then
    if humidifierNeed k r c.actuators.humidifier.state ≠ c.actuators.humidifier.state then
      ({ c with actuators := { c.actuators with
            humidifier := c.actuators.humidifier.set
              (humidifierNeed k r c.actuators.humidifier.state) } }).postActuatorAudit
        "humidifier" "auto" (humidifierNeed k r c.actuators.humidifier.state) r
    else c
  else c

/-- Lighting block of `Controller::applyAutoControl` (Controller.cpp 131-137). -/
def lightingBlock (r : EnvReading) (c : Controller) : Controller :=
  if c.modes.lighting = MODE_AUTO then
    if lightingNeed r ≠ c.actuators.lighting.state then
      ({ c with actuators := { c.actuators with
            lighting := c.actuators.lighting.set (lightingNeed r) } }).postActuatorAudit
        "lighting" "auto" (lightingNeed r) r
    else c
  else c

/-- Method `Controller::applyAutoControl`. -/
def Controller.applyAutoControl (c : Controller) (r : EnvReading) : Controller :=
  lightingBlock r (humidifierBlock (resolve c.thresholds) r
    (heaterBlock (resolve c.thresholds) r (fanBlock (resolve c.thresholds) r c)))

/-! ## Properties of the binary32 model -/

/-- An integer rounds to itself. -/
theorem roundHalfEven_intCast (m : ℤ) : roundHalfEven (m : ℚ) = m := by
  simp [roundHalfEven]

/-- Rounding to even never goes below the floor. -/
theorem floor_le_roundHalfEven (x : ℚ) : ⌊x⌋ ≤ roundHalfEven x := by
  unfold roundHalfEven
  split_ifs <;> omega

/-- Rounding to even never goes above the floor plus one. -/
theorem roundHalfEven_le_floor_add_one (x : ℚ) : roundHalfEven x ≤ ⌊x⌋ + 1 := by
  unfold roundHalfEven
  split_ifs <;> omega

/-- Rounding to even is monotone. -/
theorem roundHalfEven_mono {x y : ℚ} (h : x ≤ y) : roundHalfEven x ≤ roundHalfEven y := by
  rcases lt_or_eq_of_le (Int.floor_mono h) with hf | hf
  · calc roundHalfEven x ≤ ⌊x⌋ + 1 := roundHalfEven_le_floor_add_one x
      _ ≤ ⌊y⌋ := hf
      _ ≤ roundHalfEven y := floor_le_roundHalfEven y
  · unfold roundHalfEven
    rw [hf]
    have hxy : x - (⌊y⌋ : ℚ) ≤ y - (⌊y⌋ : ℚ) := by linarith
    split_ifs <;> first | omega | (exfalso; linarith)

/-- Rounding to even commutes with negation. -/
theorem roundHalfEven_neg (x : ℚ) : roundHalfEven (-x) = -roundHalfEven x := by
  by_cases hx : (⌊x⌋ : ℚ) = x
  · rw [← hx, ← Int.cast_neg, roundHalfEven_intCast, roundHalfEven_intCast]
  · have h1 : (⌊x⌋ : ℚ) < x := lt_of_le_of_ne (Int.floor_le x) hx
    have h2 : x < (⌊x⌋ : ℚ) + 1 := Int.lt_floor_add_one x
    have hf : ⌊-x⌋ = -⌊x⌋ - 1 := by
      rw [Int.floor_eq_iff]
      push_cast
      constructor <;> linarith
    unfold roundHalfEven
    rw [hf]
    push_cast
    split_ifs <;> first | omega | (exfalso; linarith)

/-- The unit in the last place depends on the magnitude only. -/
theorem ulpExp_neg (q : ℚ) : ulpExp (-q) = ulpExp q := by
  simp [ulpExp]

/-- Rounding to the binary32 grid commutes with negation. -/
theorem roundV_neg (q : ℚ) : roundV (-q) = -roundV q := by
  simp [roundV, ulpExp_neg, neg_div, roundHalfEven_neg]

/-- Powers of two are positive. -/
theorem two_zpow_pos (k : ℤ) : (0 : ℚ) < (2 : ℚ) ^ k := by positivity

/-- A non-negative value rounds to a non-negative value. -/
theorem roundV_nonneg {q : ℚ} (h : 0 ≤ q) : 0 ≤ roundV q := by
  unfold roundV
  have h0 : roundHalfEven ((0 : ℤ) : ℚ) ≤ roundHalfEven (q / (2 : ℚ) ^ ulpExp q) :=
    roundHalfEven_mono (by simpa using div_nonneg h (two_zpow_pos _).le)
  rw [roundHalfEven_intCast] at h0
  exact mul_nonneg (by exact_mod_cast h0) (two_zpow_pos _).le

/-- The unit in the last place grows with the magnitude. -/
theorem ulpExp_mono_of_pos {x y : ℚ} (hx : 0 < x) (h : x ≤ y) : ulpExp x ≤ ulpExp y := by
  unfold ulpExp
  have : Int.log 2 |x| ≤ Int.log 2 |y| := by
    rw [abs_of_pos hx, abs_of_pos (lt_of_lt_of_le hx h)]
    exact Int.log_mono_right hx h
  omega

/-- A rounded positive value stays at or below the upper boundary of its binade. -/
theorem roundV_le_binade {x : ℚ} (hx : 0 < x) : roundV x ≤ (2 : ℚ) ^ (ulpExp x + 24) := by
  unfold roundV
  have hlt : x < (2 : ℚ) ^ (Int.log 2 x + 1) := by
    simpa using Int.lt_zpow_succ_log_self (R := ℚ) (b := 2) (by norm_num) x
  have hle : (2 : ℚ) ^ (Int.log 2 x + 1) ≤ (2 : ℚ) ^ (ulpExp x + 24) := by
    apply zpow_le_zpow_right₀ (by norm_num)
    unfold ulpExp
    rw [abs_of_pos hx]
    omega
  have hq : x / (2 : ℚ) ^ ulpExp x ≤ (((2 : ℤ) ^ (24 : ℕ) : ℤ) : ℚ) := by
    rw [div_le_iff₀ (two_zpow_pos _)]
    push_cast
    have : (2 : ℚ) ^ (ulpExp x + 24) = 2 ^ (24 : ℕ) * 2 ^ ulpExp x := by
      rw [zpow_add₀ (by norm_num)]
      rw [mul_comm]
      norm_cast
    linarith
  have hm := roundHalfEven_mono hq
  rw [roundHalfEven_intCast] at hm
  have : (roundHalfEven (x / (2 : ℚ) ^ ulpExp x) : ℚ) ≤ 2 ^ (24 : ℕ) := by exact_mod_cast hm
  calc (roundHalfEven (x / (2 : ℚ) ^ ulpExp x) : ℚ) * 2 ^ ulpExp x
      ≤ 2 ^ (24 : ℕ) * 2 ^ ulpExp x := mul_le_mul_of_nonneg_right this (two_zpow_pos _).le
    _ = (2 : ℚ) ^ (ulpExp x + 24) := by
      rw [zpow_add₀ (by norm_num)]
      rw [mul_comm]
      norm_cast

/-- In a normal binade a rounded value stays at or above the lower boundary. -/
theorem binade_le_roundV {y : ℚ} (hy : 0 < y) (hn : -126 < Int.log 2 y) :
    (2 : ℚ) ^ (ulpExp y + 23) ≤ roundV y := by
  unfold roundV
  have he : ulpExp y + 23 = Int.log 2 y := by
    unfold ulpExp
    rw [abs_of_pos hy]
    omega
  have hle : (2 : ℚ) ^ (ulpExp y + 23) ≤ y := by
    rw [he]
    simpa using Int.zpow_log_le_self (R := ℚ) (b := 2) (by norm_num) hy
  have hq : (((2 : ℤ) ^ (23 : ℕ) : ℤ) : ℚ) ≤ y / (2 : ℚ) ^ ulpExp y := by
    rw [le_div_iff₀ (two_zpow_pos _)]
    push_cast
    have : (2 : ℚ) ^ (ulpExp y + 23) = 2 ^ (23 : ℕ) * 2 ^ ulpExp y := by
      rw [zpow_add₀ (by norm_num)]
      rw [mul_comm]
      norm_cast
    linarith
  have hm := roundHalfEven_mono hq
  rw [roundHalfEven_intCast] at hm
  have : (2 : ℚ) ^ (23 : ℕ) ≤ (roundHalfEven (y / (2 : ℚ) ^ ulpExp y) : ℚ) := by exact_mod_cast hm
  calc (2 : ℚ) ^ (ulpExp y + 23) = 2 ^ (23 : ℕ) * 2 ^ ulpExp y := by
        rw [zpow_add₀ (by norm_num)]
        rw [mul_comm]
        norm_cast
    _ ≤ (roundHalfEven (y / (2 : ℚ) ^ ulpExp y) : ℚ) * 2 ^ ulpExp y :=
        mul_le_mul_of_nonneg_right this (two_zpow_pos _).le

/-- Rounding to the binary32 grid is monotone on positive values. -/
theorem roundV_mono_of_pos {x y : ℚ} (hx : 0 < x) (h : x ≤ y) : roundV x ≤ roundV y := by
  have hy : 0 < y := lt_of_lt_of_le hx h
  rcases lt_or_eq_of_le (ulpExp_mono_of_pos hx h) with he | he
  · have hn : -126 < Int.log 2 y := by
      unfold ulpExp at he
      rw [abs_of_pos hy] at he
      omega
    calc roundV x ≤ (2 : ℚ) ^ (ulpExp x + 24) := roundV_le_binade hx
      _ ≤ (2 : ℚ) ^ (ulpExp y + 23) := zpow_le_zpow_right₀ (by norm_num) (by omega)
      _ ≤ roundV y := binade_le_roundV hy hn
  · unfold roundV
    rw [he]
    have : x / (2 : ℚ) ^ ulpExp y ≤ y / (2 : ℚ) ^ ulpExp y :=
      div_le_div_of_nonneg_right h (two_zpow_pos _).le
    have hm := roundHalfEven_mono this
    exact mul_le_mul_of_nonneg_right (by exact_mod_cast hm) (two_zpow_pos _).le

/-- Rounding to the binary32 grid is monotone. -/
theorem roundV_mono {x y : ℚ} (h : x ≤ y) : roundV x ≤ roundV y := by
  rcases lt_trichotomy 0 x with hx | hx | hx
  · exact roundV_mono_of_pos hx h
  · subst hx
    have := roundV_nonneg h
    have h0 : roundV 0 = 0 := by simp [roundV, roundHalfEven]
    linarith
  · rcases le_or_lt 0 y with hy | hy
    · have h1 := roundV_nonneg hy
      have h2 := roundV_nonneg (q := -x) (by linarith)
      rw [roundV_neg] at h2
      linarith
    · have := roundV_mono_of_pos (x := -y) (y := -x) (by linarith) (by linarith)
      rw [roundV_neg, roundV_neg] at this
      linarith

/-- Rounding to binary32 is monotone, overflow to infinity included. -/
theorem roundF_mono {x y : ℚ} (h : x ≤ y) : (roundF x).le (roundF y) = true := by
  have hm := roundV_mono h
  have hp : (0 : ℚ) < 2 ^ (128 : ℕ) := by positivity
  unfold roundF
  split_ifs <;> simp [F32.le] <;> linarith

/-- A normal binary32 value `m * 2^(e-23)` with a 24-bit significand `m`
rounds to itself. -/
theorem roundF_of_grid (q : ℚ) (m e : ℤ) (he1 : -126 ≤ e) (he2 : e ≤ 127)
    (hm1 : 2 ^ 23 ≤ |m|) (hm2 : |m| < 2 ^ 24) (hq : q = (m : ℚ) * (2 : ℚ) ^ (e - 23)) :
    roundF q = F32.fin q := by
  have habs : |q| = (|m| : ℚ) * (2 : ℚ) ^ (e - 23) := by
    rw [hq, abs_mul, abs_of_pos (two_zpow_pos _)]
  have hm1q : (2 : ℚ) ^ (23 : ℕ) ≤ (|m| : ℚ) := by exact_mod_cast hm1
  have hm2q : (|m| : ℚ) < (2 : ℚ) ^ (24 : ℕ) := by exact_mod_cast hm2
  have hpos : 0 < |q| := by
    rw [habs]
    exact mul_pos (lt_of_lt_of_le (by positivity) hm1q) (two_zpow_pos _)
  have e23 : (2 : ℚ) ^ e = 2 ^ (23 : ℕ) * 2 ^ (e - 23) := by
    rw [← zpow_natCast, ← zpow_add₀ (by norm_num)]
    congr 1
    omega
  have e24 : (2 : ℚ) ^ (e + 1) = 2 ^ (24 : ℕ) * 2 ^ (e - 23) := by
    rw [← zpow_natCast, ← zpow_add₀ (by norm_num)]
    congr 1
    omega
  have hlog : Int.log 2 |q| = e := by
    apply le_antisymm
    · have : Int.log 2 |q| < e + 1 := by
        rw [← Int.lt_zpow_iff_log_lt (by norm_num) hpos]
        push_cast
        rw [e24, habs]
        exact mul_lt_mul_of_pos_right hm2q (two_zpow_pos _)
      omega
    · rw [← Int.zpow_le_iff_le_log (by norm_num) hpos]
      push_cast
      rw [e23, habs]
      exact mul_le_mul_of_nonneg_right hm1q (two_zpow_pos _).le
  have hulp : ulpExp q = e - 23 := by
    unfold ulpExp
    rw [hlog]
    omega
  have hV : roundV q = q := by
    unfold roundV
    rw [hulp]
    have : q / (2 : ℚ) ^ (e - 23) = (m : ℚ) := by
      rw [hq]
      field_simp
    rw [this, roundHalfEven_intCast, ← hq]
  have hbound : |q| < (2 : ℚ) ^ (128 : ℕ) := by
    have h1 : |q| < (2 : ℚ) ^ (e + 1) := by
      rw [e24, habs]
      exact mul_lt_mul_of_pos_right hm2q (two_zpow_pos _)
    have h2 : (2 : ℚ) ^ (e + 1) ≤ (2 : ℚ) ^ ((128 : ℕ) : ℤ) :=
      zpow_le_zpow_right₀ (by norm_num) (by omega)
    rw [zpow_natCast] at h2
    linarith
  rw [abs_lt] at hbound
  unfold roundF
  rw [hV]
  rw [if_neg (by linarith), if_neg (by linarith)]

/-- Rounding of a value in a normal binade, given the rounded significand. -/
theorem roundF_of_binade (q : ℚ) (m e : ℤ) (he1 : -126 ≤ e) (he2 : e ≤ 127)
    (hlo : (2 : ℚ) ^ e ≤ |q|) (hhi : |q| < (2 : ℚ) ^ (e + 1))
    (hm : roundHalfEven (q / (2 : ℚ) ^ (e - 23)) = m)
    (hb : |(m : ℚ) * (2 : ℚ) ^ (e - 23)| < (2 : ℚ) ^ (128 : ℕ)) :
    roundF q = F32.fin ((m : ℚ) * (2 : ℚ) ^ (e - 23)) := by
  have hpos : 0 < |q| := lt_of_lt_of_le (two_zpow_pos e) hlo
  have hlog : Int.log 2 |q| = e := by
    apply le_antisymm
    · have : Int.log 2 |q| < e + 1 := by
        rw [← Int.lt_zpow_iff_log_lt (by norm_num) hpos]
        exact_mod_cast hhi
      omega
    · rw [← Int.zpow_le_iff_le_log (by norm_num) hpos]
      exact_mod_cast hlo
  have hulp : ulpExp q = e - 23 := by
    unfold ulpExp
    rw [hlog]
    omega
  have hV : roundV q = (m : ℚ) * (2 : ℚ) ^ (e - 23) := by
    unfold roundV
    rw [hulp, hm]
  rw [abs_lt] at hb
  unfold roundF
  rw [hV, if_neg (by linarith), if_neg (by linarith)]

/-- The constant `T_HYST` is the binary32 rounding of 0.3. -/
theorem T_HYST_eq : T_HYST = roundF (3 / 10) := by
  have hm : roundHalfEven ((3 / 10 : ℚ) / (2 : ℚ) ^ ((-2 : ℤ) - 23)) = 10066330 := by
    have hf : ⌊(3 / 10 : ℚ) / (2 : ℚ) ^ ((-2 : ℤ) - 23)⌋ = 10066329 := by
      rw [Int.floor_eq_iff]
      norm_num
    unfold roundHalfEven
    rw [hf]
    norm_num
  rw [roundF_of_binade (3 / 10) 10066330 (-2) (by decide) (by decide) (by norm_num [abs_of_pos])
    (by norm_num [abs_of_pos]) hm (by norm_num [abs_of_pos])]
  unfold T_HYST
  norm_num

/-- Without wrap-around the `unsigned long` difference is the ordinary one. -/
theorem usub_eq_sub (a b : ℕ) (hb : b ≤ a) (ha : a < ULONG_MOD) : usub a b = a - b := by
  unfold usub ULONG_MOD at *
  omega

/-- C1: on a reading whose temperature, humidity and CO2 are all unknown (NaN, NaN,
`co2ppm <= 0`), `evaluate` returns `ALARM_NORMAL` with no action flag and no risk
flag set, for every stage (the eight known ones included), every trend state and
every `nowMs`. -/
theorem evaluate_all_unknown (e : RuleEngine) (stage : String) (r : EnvReading) (nowMs : ℕ)
    (hT : r.temperatureC = F32.nan) (hH : r.humidityPct = F32.nan) (hC : r.co2ppm ≤ 0) :
    (e.evaluate stage r nowMs).1.level = ALARM_NORMAL ∧
      (e.evaluate stage r nowMs).1.anyFlag = false := by
  have h1 : hasT r = false := by simp [hasT, hT, F32.isnan]
  have h2 : hasH r = false := by simp [hasH, hH, F32.isnan]
  have h3 : hasCO2 r = false := by simp [hasCO2, hC]
  simp [RuleEngine.evaluate, rapidBlock, stageBlock, eggIncubationBlock, adaptationBlock,
    larva1Block, larva2Block, larva3Block, larva4Block, larva5Block, cocoonBlock, h1, h2, h3,
    compound, RuleOutput.anyFlag]

/-- Instance of `evaluate_all_unknown`: final instar, a stored sample, all unknown. -/
theorem evaluate_all_unknown_witness :
    (-1 : ℤ) ≤ 0 ∧
    (RuleEngine.evaluate { lastTempC := F32.lit 24, lastTempMs := 5 } "larva_5"
        { temperatureC := F32.nan, humidityPct := F32.nan, co2ppm := -1 } 7).1.level = ALARM_NORMAL ∧
    (RuleEngine.evaluate { lastTempC := F32.lit 24, lastTempMs := 5 } "larva_5"
        { temperatureC := F32.nan, humidityPct := F32.nan, co2ppm := -1 } 7).1.anyFlag = false :=
  ⟨by decide, evaluate_all_unknown { lastTempC := F32.lit 24, lastTempMs := 5 } "larva_5"
    { temperatureC := F32.nan, humidityPct := F32.nan, co2ppm := -1 } 7 rfl rfl (by decide)⟩

/-- Marking a level takes the maximum with the current level. -/
theorem level_mark (o : RuleOutput) (l : AlarmLevel) : (mark o l).level = maxLevel o.level l := rfl

/-- Nothing exceeds `ALARM_CRITICAL` (left argument). -/
theorem maxLevel_critical_left (l : AlarmLevel) : maxLevel ALARM_CRITICAL l = ALARM_CRITICAL := by
  cases l <;> rfl

/-- Nothing exceeds `ALARM_CRITICAL` (right argument). -/
theorem maxLevel_critical_right (l : AlarmLevel) : maxLevel l ALARM_CRITICAL = ALARM_CRITICAL := by
  cases l <;> rfl

/-- In binary32, 26.5 - 24.0 is exactly 2.5. -/
theorem sub_265_24 : F32.sub (F32.lit (53 / 2)) (F32.lit 24) = F32.fin (5 / 2) := by
  have h : (53 / 2 + -24 : ℚ) = 5 / 2 := by norm_num
  simp only [F32.sub, F32.lit, F32.neg, F32.add, h]
  exact roundF_of_grid (5 / 2) 10485760 1 (by decide) (by decide) (by decide) (by decide)
    (by norm_num)

/-- C2 fails at `t = 0`: the sample stored at timestamp 0 does not pass the
`lastTempMs > 0` test of the rapid-change block, so the 24.0 -> 26.5 step one
minute later is not flagged at the final instar. -/
theorem rapid_change_missed_at_zero :
    ((RuleEngine.evaluate (RuleEngine.reset {}) "larva_5" { temperatureC := F32.lit 24 } 0).2.evaluate
        "larva_5" { temperatureC := F32.lit (53 / 2) } ((0 + 60000) % ULONG_MOD)).1.rapidTempChange
      = false ∧
    ((RuleEngine.evaluate (RuleEngine.reset {}) "larva_5" { temperatureC := F32.lit 24 } 0).2.evaluate
        "larva_5" { temperatureC := F32.lit (53 / 2) } ((0 + 60000) % ULONG_MOD)).1.level
      = ALARM_NORMAL := by
  simp [RuleEngine.evaluate, RuleEngine.reset, trendUpdate, rapidBlock, hasT, F32.lit, F32.isnan,
    stageBlock, larva5Block, hasH, hasCO2, compound]

/-- A literal is a number. -/
theorem isnan_lit (q : ℚ) : (F32.lit q).isnan = false := rfl

/-- With a present temperature the trend state becomes the current sample. -/
theorem trend_after_present (e : RuleEngine) (stage : String) (r : EnvReading) (nowMs : ℕ)
    (h : r.temperatureC.isnan = false) :
    (e.evaluate stage r nowMs).2 = { lastTempC := r.temperatureC, lastTempMs := nowMs } := by
  simp [RuleEngine.evaluate, trendUpdate, hasT, h]

/-- The stage rules keep a level that is already `ALARM_CRITICAL`. -/
theorem stageBlock_keeps_critical (stage : String) (r : EnvReading) (o : RuleOutput)
    (h : o.level = ALARM_CRITICAL) : (stageBlock stage r o).level = ALARM_CRITICAL := by
  simp only [stageBlock, eggIncubationBlock, adaptationBlock, larva1Block, larva2Block,
    larva3Block, larva4Block, larva5Block, cocoonBlock, mark, apply_ite RuleOutput.level, h,
    maxLevel_critical_left, ite_self]

/-- The stage rules do not touch `rapidTempChange`. -/
theorem stageBlock_rapid (stage : String) (r : EnvReading) (o : RuleOutput) :
    (stageBlock stage r o).rapidTempChange = o.rapidTempChange := by
  simp only [stageBlock, eggIncubationBlock, adaptationBlock, larva1Block, larva2Block,
    larva3Block, larva4Block, larva5Block, cocoonBlock, mark,
    apply_ite RuleOutput.rapidTempChange, ite_self]

/-- The compound derivation does not touch the level. -/
theorem compound_level (o : RuleOutput) : (compound o).level = o.level := by
  unfold compound
  split_ifs <;> rfl

/-- The compound derivation does not touch `rapidTempChange`. -/
theorem compound_rapid (o : RuleOutput) : (compound o).rapidTempChange = o.rapidTempChange := by
  unfold compound
  split_ifs <;> rfl

/-- C2 (amended): for every timestamp `t > 0`, starting from a reset engine, after
`evaluate(stage, reading with temperature 24.0, t)` the call
`evaluate("larva_5", reading with temperature 26.5, t + 60000)` (the sum taken in
`unsigned long`) returns `rapidTempChange = true` and level `ALARM_CRITICAL`. -/
theorem rapid_change_scenario (e0 : RuleEngine) (stage : String) (r1 r2 : EnvReading) (t : ℕ)
    (ht0 : 0 < t)
    (h1 : r1.temperatureC = F32.lit 24) (h2 : r2.temperatureC = F32.lit (53 / 2)) :
    ((e0.reset.evaluate stage r1 t).2.evaluate "larva_5" r2
        ((t + 60000) % ULONG_MOD)).1.rapidTempChange = true ∧
    ((e0.reset.evaluate stage r1 t).2.evaluate "larva_5" r2
        ((t + 60000) % ULONG_MOD)).1.level = ALARM_CRITICAL := by
  have hu : usub ((t + 60000) % ULONG_MOD) t = 60000 := by
    unfold usub ULONG_MOD at *
    omega
  rw [trend_after_present _ _ _ _ (by rw [h1]; rfl)]
  have hr : rapidBlock { lastTempC := r1.temperatureC, lastTempMs := t } "larva_5" r2
      ((t + 60000) % ULONG_MOD) {} = { level := ALARM_CRITICAL, rapidTempChange := true } := by
    simp [rapidBlock, hasT, h1, h2, hu, sub_265_24, isnan_lit, ht0]
    simp [F32.fabs, F32.ge, F32.le, F32.lit, mark, maxLevel, AlarmLevel.toNat]
    rw [abs_of_pos (by norm_num)]
    norm_num
  simp only [RuleEngine.evaluate, hr, compound_level, compound_rapid, stageBlock_rapid]
  exact ⟨trivial, stageBlock_keeps_critical _ _ _ rfl⟩

/-- Instance of `rapid_change_scenario` at `t = 1000`. -/
theorem rapid_change_scenario_witness :
    0 < 1000 ∧
    ((RuleEngine.evaluate (RuleEngine.reset {}) "larva_3" { temperatureC := F32.lit 24 } 1000).2.evaluate
        "larva_5" { temperatureC := F32.lit (53 / 2) } ((1000 + 60000) % ULONG_MOD)).1.rapidTempChange = true ∧
    ((RuleEngine.evaluate (RuleEngine.reset {}) "larva_3" { temperatureC := F32.lit 24 } 1000).2.evaluate
        "larva_5" { temperatureC := F32.lit (53 / 2) } ((1000 + 60000) % ULONG_MOD)).1.level = ALARM_CRITICAL :=
  ⟨by decide, rapid_change_scenario {} "larva_3" { temperatureC := F32.lit 24 }
    { temperatureC := F32.lit (53 / 2) } 1000 (by decide) rfl rfl⟩

/-- C3 fails for a sample stored at timestamp 0. The call
`evaluate("larva_5", 24.0, 0)` on a fresh engine leaves the trend state
`(24.0, 0)`; at that state, for the reading 26.5 at `nowMs = 60000`, the current
temperature is present, the stored temperature is a number, the elapsed time
60000 is within the hour, the difference 2.5 is at least 2.0 and the stage is
"larva_5", yet `rapidTempChange` stays false: the block also requires
`lastTempMs > 0`. -/
theorem rapid_flag_missed_after_timestamp_zero :
    (RuleEngine.evaluate {} "larva_5" { temperatureC := F32.lit 24 } 0).2
      = { lastTempC := F32.lit 24, lastTempMs := 0 } ∧
    ({ temperatureC := F32.lit (53 / 2) } : EnvReading).temperatureC.isnan = false ∧
    (F32.lit 24).isnan = false ∧
    usub 60000 0 ≤ 3600000 ∧
    (F32.fabs (F32.sub (F32.lit (53 / 2)) (F32.lit 24))).ge (F32.lit 2) = true ∧
    (RuleEngine.evaluate { lastTempC := F32.lit 24, lastTempMs := 0 } "larva_5"
        { temperatureC := F32.lit (53 / 2) } 60000).1.rapidTempChange = false := by
  refine ⟨?_, rfl, rfl, by decide, ?_, ?_⟩
  · simp [RuleEngine.evaluate, trendUpdate, hasT, F32.lit, F32.isnan]
  · rw [sub_265_24]
    simp [F32.fabs, F32.ge, F32.le, F32.lit]
    rw [abs_of_pos (by norm_num)]
    norm_num
  · simp [RuleEngine.evaluate, trendUpdate, rapidBlock, hasT, F32.lit, F32.isnan,
      stageBlock, larva5Block, hasH, hasCO2, compound]

/-- C3 (amended): `evaluate` sets `rapidTempChange` exactly when the current
temperature is present, the trend state holds a previous sample with a non-zero
timestamp (`lastTempC` is a number and `lastTempMs > 0`), the `unsigned long`
difference `nowMs - lastTempMs` is at most 3600000, the computed
`fabsf(temperatureC - lastTempC)` is at least 2.0, and the stage is "larva_5"; so
for every other stage the flag is false whatever the history. -/
theorem rapid_flag_iff (e : RuleEngine) (stage : String) (r : EnvReading) (nowMs : ℕ) :
    ((e.evaluate stage r nowMs).1.rapidTempChange = true ↔
      (r.temperatureC.isnan = false ∧
        (e.lastTempC.isnan = false ∧ 0 < e.lastTempMs) ∧
        usub nowMs e.lastTempMs ≤ 3600000 ∧
        (F32.fabs (F32.sub r.temperatureC e.lastTempC)).ge (F32.lit 2) = true ∧
        stage = "larva_5")) ∧
    (stage ≠ "larva_5" → (e.evaluate stage r nowMs).1.rapidTempChange = false) := by
  have hiff : (e.evaluate stage r nowMs).1.rapidTempChange = true ↔
      (r.temperatureC.isnan = false ∧
        (e.lastTempC.isnan = false ∧ 0 < e.lastTempMs) ∧
        usub nowMs e.lastTempMs ≤ 3600000 ∧
        (F32.fabs (F32.sub r.temperatureC e.lastTempC)).ge (F32.lit 2) = true ∧
        stage = "larva_5") := by
    simp only [RuleEngine.evaluate, compound_rapid, stageBlock_rapid]
    unfold rapidBlock
    split_ifs with h1 h2 h3 <;> simp_all [hasT, mark]
  refine ⟨hiff, fun hne => ?_⟩
  cases hflag : (e.evaluate stage r nowMs).1.rapidTempChange
  · rfl
  · exact absurd (hiff.mp hflag).2.2.2.2 hne

/-- C4: at stage "larva_4", every reading with humidity above 75 and CO2 above 1200,
whatever its temperature and the trend state, gives level `ALARM_CRITICAL` with
`flacherieRisk`, `decreaseHumidity` and `increaseVentilation` all set. -/
theorem larva4_flacherie (e : RuleEngine) (r : EnvReading) (nowMs : ℕ)
    (hH : r.humidityPct.gt (F32.lit 75) = true) (hC : r.co2ppm > 1200) :
    (e.evaluate "larva_4" r nowMs).1.level = ALARM_CRITICAL ∧
    (e.evaluate "larva_4" r nowMs).1.flacherieRisk = true ∧
    (e.evaluate "larva_4" r nowMs).1.decreaseHumidity = true ∧
    (e.evaluate "larva_4" r nowMs).1.increaseVentilation = true := by
  have h1 : hasH r = true := by
    unfold hasH
    cases hh : r.humidityPct <;> simp_all [F32.gt, F32.lt, F32.lit, F32.isnan]
  have h2 : r.humidityPct.gt (F32.lit 74) = true := by
    cases hh : r.humidityPct <;> simp_all [F32.gt, F32.lt, F32.lit]
    linarith
  have h3 : hasCO2 r = true := by simp [hasCO2]; omega
  have h4 : r.co2ppm > 1100 := by omega
  simp [RuleEngine.evaluate, stageBlock, larva4Block, h1, h2, h3, h4, hH, hC, compound, mark,
    maxLevel_critical_right]

/-- Instance of `larva4_flacherie`: humidity 76, CO2 1300, temperature unknown. -/
theorem larva4_flacherie_witness :
    (F32.lit 76).gt (F32.lit 75) = true ∧ (1300 : ℤ) > 1200 ∧
    (RuleEngine.evaluate {} "larva_4" { humidityPct := F32.lit 76, co2ppm := 1300 } 0).1.level
        = ALARM_CRITICAL ∧
    (RuleEngine.evaluate {} "larva_4" { humidityPct := F32.lit 76, co2ppm := 1300 } 0).1.flacherieRisk
        = true ∧
    (RuleEngine.evaluate {} "larva_4" { humidityPct := F32.lit 76, co2ppm := 1300 } 0).1.decreaseHumidity
        = true ∧
    (RuleEngine.evaluate {} "larva_4" { humidityPct := F32.lit 76, co2ppm := 1300 } 0).1.increaseVentilation
        = true :=
  ⟨by simp [F32.gt, F32.lt, F32.lit]; norm_num, by decide,
    larva4_flacherie {} { humidityPct := F32.lit 76, co2ppm := 1300 } 0
      (by simp [F32.gt, F32.lt, F32.lit]; norm_num) (by decide)⟩

/-- C5: for a stage string outside the eight known identifiers, `evaluate` returns
`ALARM_NORMAL` with no action flag and no risk flag, for every reading, trend
state and `nowMs`. -/
theorem evaluate_unknown_stage (e : RuleEngine) (stage : String) (r : EnvReading) (nowMs : ℕ)
    (hs : stage ∉ knownStages) :
    (e.evaluate stage r nowMs).1.level = ALARM_NORMAL ∧
      (e.evaluate stage r nowMs).1.anyFlag = false := by
  simp [knownStages] at hs
  obtain ⟨a1, a2, a3, a4, a5, a6, a7, a8⟩ := hs
  simp [RuleEngine.evaluate, rapidBlock, stageBlock, compound, RuleOutput.anyFlag, *]
/-- Instance of `evaluate_unknown_stage`: the stage "pupa" with every variable far
outside any band. -/
theorem evaluate_unknown_stage_witness :
    "pupa" ∉ knownStages ∧
    (RuleEngine.evaluate {} "pupa"
        { temperatureC := F32.lit 40, humidityPct := F32.lit 99, co2ppm := 5000 } 0).1.level
        = ALARM_NORMAL ∧
    (RuleEngine.evaluate {} "pupa"
        { temperatureC := F32.lit 40, humidityPct := F32.lit 99, co2ppm := 5000 } 0).1.anyFlag
        = false :=
  ⟨by decide, evaluate_unknown_stage {} "pupa"
    { temperatureC := F32.lit 40, humidityPct := F32.lit 99, co2ppm := 5000 } 0 (by decide)⟩

/-! ## Controller -/

/-- The float order has no cycle `t < a <= b < t`. -/
theorem F32.lt_le_lt_false (t a b : F32) (h1 : t.lt a = true) (h2 : a.le b = true)
    (h3 : b.lt t = true) : False := by
  cases t <;> cases a <;> cases b <;> simp_all [F32.lt, F32.le]
  linarith

/-- Hysteresis margins are ordered: no value is both below `x - h` and above `x + h`
when `h` is a non-negative finite float. -/
theorem hyst_exclusive (x t : F32) (q : ℚ) (hq : 0 ≤ q)
    (h1 : t.lt (F32.sub x (F32.fin q)) = true) (h2 : t.gt (F32.add x (F32.fin q)) = true) :
    False := by
  cases x with
  | nan => cases t <;> simp_all [F32.sub, F32.add, F32.neg, F32.lt]
  | ninf => cases t <;> simp_all [F32.sub, F32.add, F32.neg, F32.lt]
  | pinf => cases t <;> simp_all [F32.sub, F32.add, F32.neg, F32.lt, F32.gt]
  | fin a =>
    have hm : (roundF (a + -q)).le (roundF (a + q)) = true := roundF_mono (by linarith)
    exact F32.lt_le_lt_false t _ _ h1 hm h2

/-- The temperature hysteresis margin is a non-negative finite float. -/
theorem T_HYST_nonneg : T_HYST = F32.fin (5033165 / 16777216) ∧ (0 : ℚ) ≤ 5033165 / 16777216 :=
  ⟨rfl, by norm_num⟩

/-- Feeding the heater decision its own result gives the same result. -/
theorem heaterNeed_idem (k : Resolved) (r : EnvReading) (s : Bool) :
    heaterNeed k r (heaterNeed k r s) = heaterNeed k r s := by
  unfold heaterNeed
  by_cases h0 : r.temperatureC.isnan = true
  · simp [h0]
  · by_cases h1 : r.temperatureC.lt k.tMin = true
    · simp [h0, h1]
    · by_cases h2 : r.temperatureC.gt k.tMax = true
      · simp [h0, h1, h2]
      · by_cases h3 : r.temperatureC.lt (F32.sub k.tOpt T_HYST) = true
        · have h4 : ¬ r.temperatureC.gt (F32.add k.tOpt T_HYST) = true := fun h4 =>
            hyst_exclusive k.tOpt r.temperatureC _ T_HYST_nonneg.2 h3 h4
          cases s <;> simp [h0, h1, h2, h3, h4]
        · cases s <;> simp [h0, h1, h2, h3]

/-- Feeding the humidifier decision its own result gives the same result. -/
theorem humidifierNeed_idem (k : Resolved) (r : EnvReading) (s : Bool) :
    humidifierNeed k r (humidifierNeed k r s) = humidifierNeed k r s := by
  unfold humidifierNeed
  by_cases h0 : r.humidityPct.isnan = true
  · simp [h0]
  · by_cases h1 : r.humidityPct.lt k.hMin = true
    · simp [h0, h1]
    · by_cases h2 : r.humidityPct.gt k.hMax = true
      · simp [h0, h1, h2]
      · by_cases h3 : r.humidityPct.lt (F32.sub k.hOpt H_HYST) = true
        · have h4 : ¬ r.humidityPct.gt (F32.add k.hOpt H_HYST) = true := fun h4 =>
            hyst_exclusive k.hOpt r.humidityPct 1 (by norm_num) h3 h4
          cases s <;> simp [h0, h1, h2, h3, h4]
        · cases s <;> simp [h0, h1, h2, h3]

/-- What the fan block leaves alone. -/
theorem fanBlock_frame (k : Resolved) (r : EnvReading) (c : Controller) :
    (fanBlock k r c).modes = c.modes ∧ (fanBlock k r c).thresholds = c.thresholds ∧
    (fanBlock k r c).actuators.heater = c.actuators.heater ∧
    (fanBlock k r c).actuators.humidifier = c.actuators.humidifier ∧
    (fanBlock k r c).actuators.lighting = c.actuators.lighting := by
  unfold fanBlock
  split_ifs <;> simp [Controller.postActuatorAudit]

/-- What the heater block leaves alone. -/
theorem heaterBlock_frame (k : Resolved) (r : EnvReading) (c : Controller) :
    (heaterBlock k r c).modes = c.modes ∧ (heaterBlock k r c).thresholds = c.thresholds ∧
    (heaterBlock k r c).actuators.fan = c.actuators.fan ∧
    (heaterBlock k r c).actuators.humidifier = c.actuators.humidifier ∧
    (heaterBlock k r c).actuators.lighting = c.actuators.lighting := by
  unfold heaterBlock
  split_ifs <;> simp [Controller.postActuatorAudit]

/-- What the humidifier block leaves alone. -/
theorem humidifierBlock_frame (k : Resolved) (r : EnvReading) (c : Controller) :
    (humidifierBlock k r c).modes = c.modes ∧ (humidifierBlock k r c).thresholds = c.thresholds ∧
    (humidifierBlock k r c).actuators.fan = c.actuators.fan ∧
    (humidifierBlock k r c).actuators.heater = c.actuators.heater ∧
    (humidifierBlock k r c).actuators.lighting = c.actuators.lighting := by
  unfold humidifierBlock
  split_ifs <;> simp [Controller.postActuatorAudit]

/-- What the lighting block leaves alone. -/
theorem lightingBlock_frame (r : EnvReading) (c : Controller) :
    (lightingBlock r c).modes = c.modes ∧ (lightingBlock r c).thresholds = c.thresholds ∧
    (lightingBlock r c).actuators.fan = c.actuators.fan ∧
    (lightingBlock r c).actuators.heater = c.actuators.heater ∧
    (lightingBlock r c).actuators.humidifier = c.actuators.humidifier := by
  unfold lightingBlock
  split_ifs <;> simp [Controller.postActuatorAudit]

/-- The fan block does nothing when the fan already has the computed state. -/
theorem fanBlock_settled (k : Resolved) (r : EnvReading) (c : Controller)
    (h : c.modes.fan = MODE_AUTO → fanNeed k r = c.actuators.fan.stateOn) :
    fanBlock k r c = c := by
  unfold fanBlock
  split_ifs with h1 h2
  · exact absurd (h h1) h2
  · rfl
  · rfl

/-- The heater block does nothing when the heater already has the computed state. -/
theorem heaterBlock_settled (k : Resolved) (r : EnvReading) (c : Controller)
    (h : c.modes.heater = MODE_AUTO →
      heaterNeed k r c.actuators.heater.stateOn = c.actuators.heater.stateOn) :
    heaterBlock k r c = c := by
  unfold heaterBlock
  split_ifs with h1 h2
  · exact absurd (h h1) h2
  · rfl
  · rfl

/-- The humidifier block does nothing when the humidifier already has the computed state. -/
theorem humidifierBlock_settled (k : Resolved) (r : EnvReading) (c : Controller)
    (h : c.modes.humidifier = MODE_AUTO →
      humidifierNeed k r c.actuators.humidifier.stateOn = c.actuators.humidifier.stateOn) :
    humidifierBlock k r c = c := by
  unfold humidifierBlock
  split_ifs with h1 h2
  · exact absurd (h h1) h2
  · rfl
  · rfl

/-- The lighting block does nothing when the lighting already has the computed state. -/
theorem lightingBlock_settled (r : EnvReading) (c : Controller)
    (h : c.modes.lighting = MODE_AUTO → lightingNeed r = c.actuators.lighting.stateOn) :
    lightingBlock r c = c := by
  unfold lightingBlock
  split_ifs with h1 h2
  · exact absurd (h h1) h2
  · rfl
  · rfl

/-- After the fan block an Automatic fan has the computed state. -/
theorem fanBlock_state (k : Resolved) (r : EnvReading) (c : Controller)
    (h : c.modes.fan = MODE_AUTO) : (fanBlock k r c).actuators.fan.stateOn = fanNeed k r := by
  unfold fanBlock
  split_ifs with h2
  · simp [Controller.postActuatorAudit, RelayActuator.set]
  · exact (not_not.mp h2).symm

/-- After the heater block an Automatic heater has the computed state. -/
theorem heaterBlock_state (k : Resolved) (r : EnvReading) (c : Controller)
    (h : c.modes.heater = MODE_AUTO) :
    (heaterBlock k r c).actuators.heater.stateOn = heaterNeed k r c.actuators.heater.stateOn := by
  unfold heaterBlock
  split_ifs with h2
  · simp [Controller.postActuatorAudit, RelayActuator.set, RelayActuator.state]
  · exact (not_not.mp h2).symm

/-- After the humidifier block an Automatic humidifier has the computed state. -/
theorem humidifierBlock_state (k : Resolved) (r : EnvReading) (c : Controller)
    (h : c.modes.humidifier = MODE_AUTO) :
    (humidifierBlock k r c).actuators.humidifier.stateOn
      = humidifierNeed k r c.actuators.humidifier.stateOn := by
  unfold humidifierBlock
  split_ifs with h2
  · simp [Controller.postActuatorAudit, RelayActuator.set, RelayActuator.state]
  · exact (not_not.mp h2).symm

/-- After the lighting block an Automatic lighting relay has the computed state. -/
theorem lightingBlock_state (r : EnvReading) (c : Controller)
    (h : c.modes.lighting = MODE_AUTO) :
    (lightingBlock r c).actuators.lighting.stateOn = lightingNeed r := by
  unfold lightingBlock
  split_ifs with h2
  · simp [Controller.postActuatorAudit, RelayActuator.set]
  · exact (not_not.mp h2).symm

/-- C7: `applyAutoControl` is idempotent. Running it a second time with the same
reading and thresholds returns the controller unchanged: no actuator state
changes and the audit log gains no record, for every reading, threshold set,
mode registry and initial actuator states. -/
theorem applyAutoControl_idempotent (c : Controller) (r : EnvReading) :
    (c.applyAutoControl r).applyAutoControl r = c.applyAutoControl r := by
  obtain ⟨f1, f2, f3, f4, f5⟩ := fanBlock_frame (resolve c.thresholds) r c
  obtain ⟨g1, g2, g3, g4, g5⟩ := heaterBlock_frame (resolve c.thresholds) r
    (fanBlock (resolve c.thresholds) r c)
  obtain ⟨u1, u2, u3, u4, u5⟩ := humidifierBlock_frame (resolve c.thresholds) r
    (heaterBlock (resolve c.thresholds) r (fanBlock (resolve c.thresholds) r c))
  obtain ⟨l1, l2, l3, l4, l5⟩ := lightingBlock_frame r
    (humidifierBlock (resolve c.thresholds) r
      (heaterBlock (resolve c.thresholds) r (fanBlock (resolve c.thresholds) r c)))
  have hth : (c.applyAutoControl r).thresholds = c.thresholds := by
    unfold Controller.applyAutoControl
    rw [l2, u2, g2, f2]
  unfold Controller.applyAutoControl at hth ⊢
  rw [hth]
  set k := resolve c.thresholds
  set c1 := fanBlock k r c
  set c2 := heaterBlock k r c1
  set c3 := humidifierBlock k r c2
  set c4 := lightingBlock r c3
  have e1 : fanBlock k r c4 = c4 := by
    apply fanBlock_settled
    intro hm
    rw [l3, u3, g3]
    rw [l1, u1, g1, f1] at hm
    exact (fanBlock_state k r c hm).symm
  have e2 : heaterBlock k r c4 = c4 := by
    apply heaterBlock_settled
    intro hm
    rw [l4, u4]
    rw [l1, u1, g1] at hm
    rw [heaterBlock_state k r c1 hm, heaterNeed_idem]
  have e3 : humidifierBlock k r c4 = c4 := by
    apply humidifierBlock_settled
    intro hm
    rw [l5]
    rw [l1, u1] at hm
    rw [humidifierBlock_state k r c2 hm, humidifierNeed_idem]
  have e4 : lightingBlock r c4 = c4 := by
    apply lightingBlock_settled
    intro hm
    rw [l1] at hm
    exact (lightingBlock_state r c3 hm).symm
  rw [e1, e2, e3, e4]

/-- The fan block posts no heater record. -/
theorem fanBlock_heater_audits (k : Resolved) (r : EnvReading) (c : Controller) :
    auditsOf "heater" (fanBlock k r c).audits = auditsOf "heater" c.audits := by
  unfold fanBlock auditsOf
  split_ifs <;> simp [Controller.postActuatorAudit, List.filter_append]

/-- The humidifier block posts no heater record. -/
theorem humidifierBlock_heater_audits (k : Resolved) (r : EnvReading) (c : Controller) :
    auditsOf "heater" (humidifierBlock k r c).audits = auditsOf "heater" c.audits := by
  unfold humidifierBlock auditsOf
  split_ifs <;> simp [Controller.postActuatorAudit, List.filter_append]

/-- The lighting block posts no heater record. -/
theorem lightingBlock_heater_audits (r : EnvReading) (c : Controller) :
    auditsOf "heater" (lightingBlock r c).audits = auditsOf "heater" c.audits := by
  unfold lightingBlock auditsOf
  split_ifs <;> simp [Controller.postActuatorAudit, List.filter_append]

/-- Not-a-number exceeds nothing. -/
theorem F32.gt_nan_left (x : F32) : F32.gt F32.nan x = false := by
  cases x <;> rfl

/-- A float that compares `<=` is a number (left side). -/
theorem F32.isnan_eq_false_of_le_left {a b : F32} (h : a.le b = true) : a.isnan = false := by
  cases a <;> simp_all [F32.le, F32.isnan]

/-- A float that compares `<=` is a number (right side). -/
theorem F32.isnan_eq_false_of_le_right {a b : F32} (h : a.le b = true) : b.isnan = false := by
  cases a <;> cases b <;> simp_all [F32.le, F32.isnan]

/-- Having `a <= b` excludes `a > b`. -/
theorem F32.gt_eq_false_of_le {a b : F32} (h : a.le b = true) : a.gt b = false := by
  cases a <;> cases b <;> simp_all [F32.le, F32.gt, F32.lt]

/-- The heater of the controller after `applyAutoControl` is the heater after the
heater block. -/
theorem applyAutoControl_heater (c : Controller) (r : EnvReading) :
    (c.applyAutoControl r).actuators.heater
      = (heaterBlock (resolve c.thresholds) r (fanBlock (resolve c.thresholds) r c)).actuators.heater := by
  unfold Controller.applyAutoControl
  rw [(lightingBlock_frame _ _).2.2.2.1, (humidifierBlock_frame _ _ _).2.2.2.1]

/-- The heater records of `applyAutoControl` are those of the heater block. -/
theorem applyAutoControl_heater_audits (c : Controller) (r : EnvReading) :
    auditsOf "heater" (c.applyAutoControl r).audits
      = auditsOf "heater"
          (heaterBlock (resolve c.thresholds) r (fanBlock (resolve c.thresholds) r c)).audits := by
  unfold Controller.applyAutoControl
  rw [lightingBlock_heater_audits, humidifierBlock_heater_audits]

/-- C8 (amended): heater no-chatter. With the heater in Automatic mode and on,
`applyAutoControl` with a reading whose temperature lies in
`[tOpt - T_HYST, tOpt + T_HYST]` (both ends as the code computes them in binary32,
`tOpt` the resolved optimal) and does not exceed the resolved `tMax` leaves the
heater on and posts no heater audit record, for every threshold set. -/
theorem heater_no_chatter (c : Controller) (r : EnvReading)
    (_hm : c.modes.heater = MODE_AUTO) (hon : c.actuators.heater.stateOn = true)
    (_hlo : (F32.sub (resolve c.thresholds).tOpt T_HYST).le r.temperatureC = true)
    (hhi : r.temperatureC.le (F32.add (resolve c.thresholds).tOpt T_HYST) = true)
    (hmax : r.temperatureC.gt (resolve c.thresholds).tMax = false) :
    (c.applyAutoControl r).actuators.heater.stateOn = true ∧
    auditsOf "heater" (c.applyAutoControl r).audits = auditsOf "heater" c.audits := by
  have hn : heaterNeed (resolve c.thresholds) r true = true := by
    unfold heaterNeed
    simp [F32.isnan_eq_false_of_le_left hhi, hmax, F32.gt_eq_false_of_le hhi]
  have hs : (fanBlock (resolve c.thresholds) r c).actuators.heater.stateOn = true := by
    rw [(fanBlock_frame _ _ _).2.2.1, hon]
  have hb : heaterBlock (resolve c.thresholds) r (fanBlock (resolve c.thresholds) r c)
      = fanBlock (resolve c.thresholds) r c := by
    apply heaterBlock_settled
    intro _
    rw [hs, hn]
  rw [applyAutoControl_heater, applyAutoControl_heater_audits, hb, fanBlock_heater_audits]
  exact ⟨hs, rfl⟩

/-- C9 (amended): if the heater is in Automatic mode, on before `applyAutoControl`
and off after it, then the reading's temperature is unknown, or exceeds
`tOpt + T_HYST`, or exceeds the resolved `tMax`. -/
theorem heater_off_causes (c : Controller) (r : EnvReading)
    (hm : c.modes.heater = MODE_AUTO) (hon : c.actuators.heater.stateOn = true)
    (hoff : (c.applyAutoControl r).actuators.heater.stateOn = false) :
    r.temperatureC.isnan = true ∨
    r.temperatureC.gt (F32.add (resolve c.thresholds).tOpt T_HYST) = true ∨
    r.temperatureC.gt (resolve c.thresholds).tMax = true := by
  have hs : (fanBlock (resolve c.thresholds) r c).actuators.heater.stateOn = true := by
    rw [(fanBlock_frame _ _ _).2.2.1, hon]
  have hm1 : (fanBlock (resolve c.thresholds) r c).modes.heater = MODE_AUTO := by
    rw [(fanBlock_frame _ _ _).1, hm]
  rw [applyAutoControl_heater, heaterBlock_state _ _ _ hm1, hs] at hoff
  unfold heaterNeed at hoff
  by_cases h0 : r.temperatureC.isnan = true
  · exact Or.inl h0
  · by_cases h1 : r.temperatureC.gt (resolve c.thresholds).tMax = true
    · exact Or.inr (Or.inr h1)
    · by_cases h2 : r.temperatureC.gt (F32.add (resolve c.thresholds).tOpt T_HYST) = true
      · exact Or.inr (Or.inl h2)
      · simp [h0, h1, h2] at hoff

/-- C10: manual-mode isolation. For every actuator identifier, requested state and
reading, if the mode registered for that actuator is `MODE_AUTO` then
`applyManual` returns the controller unchanged: no actuator state, no mode and
no audit record changes. -/
theorem applyManual_auto_noop (c : Controller) (actuatorId : Option String) (state : Bool)
    (r : EnvReading) (h : c.modeOf actuatorId = some MODE_AUTO) :
    c.applyManual actuatorId state r = c := by
  unfold Controller.modeOf at h
  unfold Controller.applyManual
  split_ifs at h ⊢ <;> simp_all

/-- A rounded value is at most any representable value above the exact one. -/
theorem roundF_le_fin {x y : ℚ} (h : x ≤ y) (hy : roundF y = F32.fin y) :
    (roundF x).le (F32.fin y) = true := by
  have := roundF_mono h
  rwa [hy] at this

/-- A rounded value is at least any representable value below the exact one. -/
theorem fin_le_roundF {x y : ℚ} (h : x ≤ y) (hx : roundF x = F32.fin x) :
    (F32.fin x).le (roundF y) = true := by
  have := roundF_mono h
  rwa [hx] at this

/-- The number 26 is a binary32 value. -/
theorem roundF_26 : roundF 26 = F32.fin 26 :=
  roundF_of_grid 26 13631488 4 (by decide) (by decide) (by decide) (by decide) (by norm_num)

/-- The number 28.25 is a binary32 value. -/
theorem roundF_28_25 : roundF (113 / 4) = F32.fin (113 / 4) :=
  roundF_of_grid (113 / 4) 14811136 4 (by decide) (by decide) (by decide) (by decide)
    (by norm_num)

/-- C8 fails when the resolved `tMax` lies inside the hysteresis band: with
thresholds (24, 28, 28) and the heater on in Automatic mode, the reading 28.25
lies in `[tOpt - T_HYST, tOpt + T_HYST]`, yet `applyAutoControl` switches the
heater off (28.25 > tMax) and posts a heater audit record. -/
theorem heater_chatter_above_max :
    heaterOnTightMax.modes.heater = MODE_AUTO ∧
    heaterOnTightMax.actuators.heater.stateOn = true ∧
    (F32.sub (resolve heaterOnTightMax.thresholds).tOpt T_HYST).le (F32.lit (113 / 4)) = true ∧
    (F32.lit (113 / 4)).le (F32.add (resolve heaterOnTightMax.thresholds).tOpt T_HYST) = true ∧
    (heaterOnTightMax.applyAutoControl { temperatureC := F32.lit (113 / 4) }).actuators.heater.stateOn
      = false ∧
    auditsOf "heater" (heaterOnTightMax.applyAutoControl { temperatureC := F32.lit (113 / 4) }).audits
      = [{ actuator := "heater", modeStr := "auto", state := false,
           reading := { temperatureC := F32.lit (113 / 4) } }] := by
  have hk : (resolve heaterOnTightMax.thresholds).tOpt = F32.fin 28 := by
    simp [heaterOnTightMax, resolve, pickF, F32.lit, F32.isnan]
  refine ⟨rfl, rfl, ?_, ?_, ?_, ?_⟩
  · rw [hk]
    exact roundF_le_fin (by norm_num) roundF_28_25
  · rw [hk]
    exact fin_le_roundF (by norm_num) roundF_28_25
  · simp [heaterOnTightMax, Controller.applyAutoControl, fanBlock, heaterBlock, humidifierBlock,
      lightingBlock, fanNeed, heaterNeed, humidifierNeed, lightingNeed, resolve, pickF, F32.lit,
      F32.isnan, F32.gt, F32.lt, boardRelaysHeaterOn, boardRelays, RelayActuator.set,
      RelayActuator.state, Controller.postActuatorAudit]
    norm_num
  · simp [heaterOnTightMax, Controller.applyAutoControl, fanBlock, heaterBlock, humidifierBlock,
      lightingBlock, fanNeed, heaterNeed, humidifierNeed, lightingNeed, resolve, pickF, F32.lit,
      F32.isnan, F32.gt, F32.lt, boardRelaysHeaterOn, boardRelays, RelayActuator.set,
      RelayActuator.state, Controller.postActuatorAudit, auditsOf]
    norm_num
    simp [List.filter]

/-- Instance of `heater_no_chatter`: optimal 26, default max 28, reading 26. -/
theorem heater_no_chatter_witness :
    heaterOnOpt26.modes.heater = MODE_AUTO ∧
    heaterOnOpt26.actuators.heater.stateOn = true ∧
    (F32.sub (resolve heaterOnOpt26.thresholds).tOpt T_HYST).le (F32.lit 26) = true ∧
    (F32.lit 26).le (F32.add (resolve heaterOnOpt26.thresholds).tOpt T_HYST) = true ∧
    (F32.lit 26).gt (resolve heaterOnOpt26.thresholds).tMax = false ∧
    (heaterOnOpt26.applyAutoControl { temperatureC := F32.lit 26 }).actuators.heater.stateOn = true ∧
    auditsOf "heater" (heaterOnOpt26.applyAutoControl { temperatureC := F32.lit 26 }).audits
      = auditsOf "heater" heaterOnOpt26.audits :=
  have hk : (resolve heaterOnOpt26.thresholds).tOpt = F32.fin 26 := by
    simp [heaterOnOpt26, resolve, pickF, F32.lit, F32.isnan]
  have hlo : (F32.sub (resolve heaterOnOpt26.thresholds).tOpt T_HYST).le (F32.lit 26) = true := by
    rw [hk]
    exact roundF_le_fin (by norm_num) roundF_26
  have hhi : (F32.lit 26).le (F32.add (resolve heaterOnOpt26.thresholds).tOpt T_HYST) = true := by
    rw [hk]
    exact fin_le_roundF (by norm_num) roundF_26
  have hmax : (F32.lit 26).gt (resolve heaterOnOpt26.thresholds).tMax = false := by
    simp [heaterOnOpt26, resolve, pickF, F32.lit, F32.isnan, F32.gt, F32.lt, T_OK_MAX]
    norm_num
  ⟨rfl, rfl, hlo, hhi, hmax,
    heater_no_chatter heaterOnOpt26 { temperatureC := F32.lit 26 } rfl rfl hlo hhi hmax⟩

/-- C9 fails for a reading with unknown temperature: `need` keeps its initial
`false`, so an Automatic heater that was on is switched off although the
temperature exceeds neither `tOpt + T_HYST` nor `tMax`. -/
theorem heater_off_on_unknown_temperature :
    heaterOnDefault.modes.heater = MODE_AUTO ∧
    heaterOnDefault.actuators.heater.stateOn = true ∧
    (heaterOnDefault.applyAutoControl {}).actuators.heater.stateOn = false ∧
    ¬ (({} : EnvReading).temperatureC.gt (F32.add (resolve heaterOnDefault.thresholds).tOpt T_HYST)
          = true ∨
       ({} : EnvReading).temperatureC.gt (resolve heaterOnDefault.thresholds).tMax = true) := by
  refine ⟨rfl, rfl, ?_, ?_⟩
  · rw [applyAutoControl_heater, heaterBlock_state _ _ _ (by rw [(fanBlock_frame _ _ _).1]; rfl)]
    simp [heaterNeed, F32.isnan]
  · simp [F32.gt_nan_left]

/-- Instance of `heater_off_causes`: default thresholds, reading 30 above `tMax` 28. -/
theorem heater_off_causes_witness :
    heaterOnDefault.modes.heater = MODE_AUTO ∧
    heaterOnDefault.actuators.heater.stateOn = true ∧
    (heaterOnDefault.applyAutoControl { temperatureC := F32.lit 30 }).actuators.heater.stateOn
      = false ∧
    ((F32.lit 30).isnan = true ∨
     (F32.lit 30).gt (F32.add (resolve heaterOnDefault.thresholds).tOpt T_HYST) = true ∨
     (F32.lit 30).gt (resolve heaterOnDefault.thresholds).tMax = true) :=
  have hoff : (heaterOnDefault.applyAutoControl { temperatureC := F32.lit 30 }).actuators.heater.stateOn
      = false := by
    rw [applyAutoControl_heater, heaterBlock_state _ _ _ (by rw [(fanBlock_frame _ _ _).1]; rfl)]
    simp [heaterNeed, F32.isnan, F32.lit, heaterOnDefault, resolve, pickF, T_OK_MIN, T_OK_MAX,
      F32.lt, F32.gt]
    norm_num
  ⟨rfl, rfl, hoff, heater_off_causes heaterOnDefault { temperatureC := F32.lit 30 } rfl rfl hoff⟩

/-- Instance of `applyManual_auto_noop`: a request to switch the Automatic heater off. -/
theorem applyManual_auto_noop_witness :
    heaterOnDefault.modeOf (some "heater") = some MODE_AUTO ∧
    heaterOnDefault.applyManual (some "heater") false { temperatureC := F32.lit 30 }
      = heaterOnDefault :=
  ⟨by decide, applyManual_auto_noop heaterOnDefault (some "heater") false
    { temperatureC := F32.lit 30 } (by decide)⟩

/-! ## Alarm level as a maximum of rule levels -/

/-- The "egg_incubation" branch as a composition of rule shapes. -/
theorem eggIncubationBlock_eq (r : EnvReading) (o : RuleOutput) :
    eggIncubationBlock r o =
      co2Rule r.co2ppm 1000 900
        (bandRule2 r.humidityPct (fun o => { o with increaseHumidity := true })
          (fun o => { o with decreaseHumidity := true }) 80 82 88 90
          (bandRule2 r.temperatureC (fun o => { o with increaseTemperature := true })
            (fun o => { o with decreaseTemperature := true }) 24 25 26 27 o)) := rfl

/-- The "adaptation_0_1" branch as a composition of rule shapes. -/
theorem adaptationBlock_eq (r : EnvReading) (o : RuleOutput) :
    adaptationBlock r o =
      co2Rule r.co2ppm 800 700
        (bandRule2 r.humidityPct (fun o => { o with increaseHumidity := true })
          (fun o => { o with decreaseHumidity := true }) 86 88 91 92
          (bandRule2 r.temperatureC (fun o => { o with increaseTemperature := true })
            (fun o => { o with decreaseTemperature := true }) 27 (55 / 2) (57 / 2) 29 o)) := rfl

/-- The "larva_1" branch as a composition of rule shapes. -/
theorem larva1Block_eq (r : EnvReading) (o : RuleOutput) :
    larva1Block r o =
      co2Rule r.co2ppm 900 800
        (bandRuleHi r.humidityPct (fun o => { o with muscardineRisk := true })
          (fun o => { o with increaseHumidity := true })
          (fun o => { o with decreaseHumidity := true }) 86 89 90
          (bandRule1 r.temperatureC (fun o => { o with increaseTemperature := true })
            (fun o => { o with decreaseTemperature := true }) (53 / 2) (55 / 2) o)) := rfl

/-- The "larva_2" branch as a composition of rule shapes. -/
theorem larva2Block_eq (r : EnvReading) (o : RuleOutput) :
    larva2Block r o =
      co2Rule r.co2ppm 1000 900
        (bandRuleHi r.humidityPct (fun o => o)
          (fun o => { o with increaseHumidity := true })
          (fun o => { o with decreaseHumidity := true }) 81 84 85
          (bandRule1 r.temperatureC (fun o => { o with increaseTemperature := true })
            (fun o => { o with decreaseTemperature := true }) (51 / 2) (53 / 2) o)) := rfl

/-- The "larva_3" branch as a composition of rule shapes. -/
theorem larva3Block_eq (r : EnvReading) (o : RuleOutput) :
    larva3Block r o =
      co2Rule r.co2ppm 1100 1000
        (bandRuleHi r.humidityPct (fun o => { o with muscardineRisk := true })
          (fun o => { o with increaseHumidity := true })
          (fun o => { o with decreaseHumidity := true }) 76 79 80
          (bandRule1 r.temperatureC (fun o => { o with increaseTemperature := true })
            (fun o => { o with decreaseTemperature := true }) (49 / 2) (51 / 2) o)) := rfl

/-- The "larva_4" branch as a composition of rule shapes. -/
theorem larva4Block_eq (r : EnvReading) (o : RuleOutput) :
    larva4Block r o =
      flacherieRule r
        (co2Rule r.co2ppm 1200 1100
          (upperRule r.humidityPct (fun o => { o with muscardineRisk := true })
            (fun o => { o with decreaseHumidity := true }) 74 75 o)) := rfl

/-- The "larva_5" branch as a composition of rule shapes. -/
theorem larva5Block_eq (r : EnvReading) (o : RuleOutput) :
    larva5Block r o =
      co2Rule r.co2ppm 1200 1100
        (upperRule r.humidityPct (fun o => { o with muscardineRisk := true })
          (fun o => { o with decreaseHumidity := true }) 69 70 o) := rfl

/-- The "cocoon" branch as a composition of rule shapes. -/
theorem cocoonBlock_eq (r : EnvReading) (o : RuleOutput) :
    cocoonBlock r o =
      co2Rule r.co2ppm 1000 900
        (bandRuleHi r.humidityPct (fun o => { o with cocoonQualityRisk := true })
          (fun o => { o with increaseHumidity := true })
          (fun o => { o with decreaseHumidity := true }) 63 68 70 o) := rfl

/-- The function `maxLevel` is the maximum of the enumerator values. -/
theorem toNat_maxLevel (a b : AlarmLevel) : (maxLevel a b).toNat = max a.toNat b.toNat := by
  cases a <;> cases b <;> rfl

/-- The level `ALARM_NORMAL` is 0. -/
theorem toNat_normal : ALARM_NORMAL.toNat = 0 := rfl

/-- Marking `ALARM_NORMAL` changes nothing. -/
theorem maxLevel_normal (a : AlarmLevel) : maxLevel a ALARM_NORMAL = a := by
  cases a <;> rfl

/-- Level after a two-tier rule. -/
theorem bandRule2_level (v : F32) (incr decr : RuleOutput → RuleOutput) (cl wl wh ch : ℚ)
    (o : RuleOutput) (hi : ∀ x, (incr x).level = x.level) (hd : ∀ x, (decr x).level = x.level) :
    (bandRule2 v incr decr cl wl wh ch o).level = maxLevel o.level (bandLevel2 v cl wl wh ch) := by
  simp only [bandRule2, bandLevel2, apply_ite RuleOutput.level, hi, hd, mark, ite_self]
  split_ifs <;> simp [maxLevel_normal]

/-- Level after a warning-only rule. -/
theorem bandRule1_level (v : F32) (incr decr : RuleOutput → RuleOutput) (wl wh : ℚ)
    (o : RuleOutput) (hi : ∀ x, (incr x).level = x.level) (hd : ∀ x, (decr x).level = x.level) :
    (bandRule1 v incr decr wl wh o).level = maxLevel o.level (bandLevel1 v wl wh) := by
  simp only [bandRule1, bandLevel1, apply_ite RuleOutput.level, hi, hd, mark, ite_self]
  split_ifs <;> simp [maxLevel_normal]

/-- Level after a rule with an upper critical bound. -/
theorem bandRuleHi_level (v : F32) (risk incr decr : RuleOutput → RuleOutput) (wl wh ch : ℚ)
    (o : RuleOutput) (hr : ∀ x, (risk x).level = x.level) (hi : ∀ x, (incr x).level = x.level)
    (hd : ∀ x, (decr x).level = x.level) :
    (bandRuleHi v risk incr decr wl wh ch o).level = maxLevel o.level (bandLevelHi v wl wh ch) := by
  simp only [bandRuleHi, bandLevelHi, apply_ite RuleOutput.level, hr, hi, hd, mark, ite_self]
  split_ifs <;> simp [maxLevel_normal]

/-- Level after an upper-side rule. -/
theorem upperRule_level (v : F32) (risk decr : RuleOutput → RuleOutput) (wh ch : ℚ)
    (o : RuleOutput) (hr : ∀ x, (risk x).level = x.level) (hd : ∀ x, (decr x).level = x.level) :
    (upperRule v risk decr wh ch o).level = maxLevel o.level (upperLevel v wh ch) := by
  simp only [upperRule, upperLevel, apply_ite RuleOutput.level, hr, hd, mark, ite_self]
  split_ifs <;> simp [maxLevel_normal]

/-- Level after a CO2 rule. -/
theorem co2Rule_level (co2 crit risk : ℤ) (o : RuleOutput) :
    (co2Rule co2 crit risk o).level = maxLevel o.level (co2Level co2 crit risk) := by
  simp only [co2Rule, co2Level, apply_ite RuleOutput.level, mark, ite_self]
  split_ifs <;> simp [maxLevel_normal]

/-- Level after the combined rule. -/
theorem flacherieRule_level (r : EnvReading) (o : RuleOutput) :
    (flacherieRule r o).level = maxLevel o.level (flacherieLevel r) := by
  simp only [flacherieRule, flacherieLevel, apply_ite RuleOutput.level, mark, ite_self]
  split_ifs <;> simp [maxLevel_normal]

/-- Level decomposition at stage "egg_incubation". -/
theorem stageBlock_level_egg (r : EnvReading) (o : RuleOutput) :
    (stageBlock "egg_incubation" r o).level.toNat =
      max (max (max (max o.level.toNat (tempLevel "egg_incubation" r.temperatureC).toNat)
        (humLevel "egg_incubation" r.humidityPct).toNat) (co2StageLevel "egg_incubation" r.co2ppm).toNat)
        (comboLevel "egg_incubation" r).toNat := by
  simp [stageBlock, tempLevel, humLevel, co2StageLevel, comboLevel, eggIncubationBlock_eq, bandRule2_level,
    bandRule1_level, bandRuleHi_level, upperRule_level, co2Rule_level, flacherieRule_level,
    toNat_maxLevel, toNat_normal]

/-- Level decomposition at stage "adaptation_0_1". -/
theorem stageBlock_level_adaptation (r : EnvReading) (o : RuleOutput) :
    (stageBlock "adaptation_0_1" r o).level.toNat =
      max (max (max (max o.level.toNat (tempLevel "adaptation_0_1" r.temperatureC).toNat)
        (humLevel "adaptation_0_1" r.humidityPct).toNat) (co2StageLevel "adaptation_0_1" r.co2ppm).toNat)
        (comboLevel "adaptation_0_1" r).toNat := by
  simp [stageBlock, tempLevel, humLevel, co2StageLevel, comboLevel, adaptationBlock_eq, bandRule2_level,
    bandRule1_level, bandRuleHi_level, upperRule_level, co2Rule_level, flacherieRule_level,
    toNat_maxLevel, toNat_normal]

/-- Level decomposition at stage "larva_1". -/
theorem stageBlock_level_larva1 (r : EnvReading) (o : RuleOutput) :
    (stageBlock "larva_1" r o).level.toNat =
      max (max (max (max o.level.toNat (tempLevel "larva_1" r.temperatureC).toNat)
        (humLevel "larva_1" r.humidityPct).toNat) (co2StageLevel "larva_1" r.co2ppm).toNat)
        (comboLevel "larva_1" r).toNat := by
  simp [stageBlock, tempLevel, humLevel, co2StageLevel, comboLevel, larva1Block_eq, bandRule2_level,
    bandRule1_level, bandRuleHi_level, upperRule_level, co2Rule_level, flacherieRule_level,
    toNat_maxLevel, toNat_normal]

/-- Level decomposition at stage "larva_2". -/
theorem stageBlock_level_larva2 (r : EnvReading) (o : RuleOutput) :
    (stageBlock "larva_2" r o).level.toNat =
      max (max (max (max o.level.toNat (tempLevel "larva_2" r.temperatureC).toNat)
        (humLevel "larva_2" r.humidityPct).toNat) (co2StageLevel "larva_2" r.co2ppm).toNat)
        (comboLevel "larva_2" r).toNat := by
  simp [stageBlock, tempLevel, humLevel, co2StageLevel, comboLevel, larva2Block_eq, bandRule2_level,
    bandRule1_level, bandRuleHi_level, upperRule_level, co2Rule_level, flacherieRule_level,
    toNat_maxLevel, toNat_normal]

/-- Level decomposition at stage "larva_3". -/
theorem stageBlock_level_larva3 (r : EnvReading) (o : RuleOutput) :
    (stageBlock "larva_3" r o).level.toNat =
      max (max (max (max o.level.toNat (tempLevel "larva_3" r.temperatureC).toNat)
        (humLevel "larva_3" r.humidityPct).toNat) (co2StageLevel "larva_3" r.co2ppm).toNat)
        (comboLevel "larva_3" r).toNat := by
  simp [stageBlock, tempLevel, humLevel, co2StageLevel, comboLevel, larva3Block_eq, bandRule2_level,
    bandRule1_level, bandRuleHi_level, upperRule_level, co2Rule_level, flacherieRule_level,
    toNat_maxLevel, toNat_normal]

/-- Level decomposition at stage "larva_4". -/
theorem stageBlock_level_larva4 (r : EnvReading) (o : RuleOutput) :
    (stageBlock "larva_4" r o).level.toNat =
      max (max (max (max o.level.toNat (tempLevel "larva_4" r.temperatureC).toNat)
        (humLevel "larva_4" r.humidityPct).toNat) (co2StageLevel "larva_4" r.co2ppm).toNat)
        (comboLevel "larva_4" r).toNat := by
  simp [stageBlock, tempLevel, humLevel, co2StageLevel, comboLevel, larva4Block_eq, bandRule2_level,
    bandRule1_level, bandRuleHi_level, upperRule_level, co2Rule_level, flacherieRule_level,
    toNat_maxLevel, toNat_normal]

/-- Level decomposition at stage "larva_5". -/
theorem stageBlock_level_larva5 (r : EnvReading) (o : RuleOutput) :
    (stageBlock "larva_5" r o).level.toNat =
      max (max (max (max o.level.toNat (tempLevel "larva_5" r.temperatureC).toNat)
        (humLevel "larva_5" r.humidityPct).toNat) (co2StageLevel "larva_5" r.co2ppm).toNat)
        (comboLevel "larva_5" r).toNat := by
  simp [stageBlock, tempLevel, humLevel, co2StageLevel, comboLevel, larva5Block_eq, bandRule2_level,
    bandRule1_level, bandRuleHi_level, upperRule_level, co2Rule_level, flacherieRule_level,
    toNat_maxLevel, toNat_normal]

/-- Level decomposition at stage "cocoon". -/
theorem stageBlock_level_cocoon (r : EnvReading) (o : RuleOutput) :
    (stageBlock "cocoon" r o).level.toNat =
      max (max (max (max o.level.toNat (tempLevel "cocoon" r.temperatureC).toNat)
        (humLevel "cocoon" r.humidityPct).toNat) (co2StageLevel "cocoon" r.co2ppm).toNat)
        (comboLevel "cocoon" r).toNat := by
  simp [stageBlock, tempLevel, humLevel, co2StageLevel, comboLevel, cocoonBlock_eq, bandRule2_level,
    bandRule1_level, bandRuleHi_level, upperRule_level, co2Rule_level, flacherieRule_level,
    toNat_maxLevel, toNat_normal]

/-- The level after the stage rules is the maximum of the incoming level and the
levels marked by the temperature, humidity, CO2 and combined rules of the stage. -/
theorem stageBlock_level (stage : String) (r : EnvReading) (o : RuleOutput) :
    (stageBlock stage r o).level.toNat =
      max (max (max (max o.level.toNat (tempLevel stage r.temperatureC).toNat)
        (humLevel stage r.humidityPct).toNat) (co2StageLevel stage r.co2ppm).toNat)
        (comboLevel stage r).toNat := by
  by_cases h1 : stage = "egg_incubation"
  · subst h1
    exact stageBlock_level_egg r o
  by_cases h2 : stage = "adaptation_0_1"
  · subst h2
    exact stageBlock_level_adaptation r o
  by_cases h3 : stage = "larva_1"
  · subst h3
    exact stageBlock_level_larva1 r o
  by_cases h4 : stage = "larva_2"
  · subst h4
    exact stageBlock_level_larva2 r o
  by_cases h5 : stage = "larva_3"
  · subst h5
    exact stageBlock_level_larva3 r o
  by_cases h6 : stage = "larva_4"
  · subst h6
    exact stageBlock_level_larva4 r o
  by_cases h7 : stage = "larva_5"
  · subst h7
    exact stageBlock_level_larva5 r o
  by_cases h8 : stage = "cocoon"
  · subst h8
    exact stageBlock_level_cocoon r o
  simp [stageBlock, tempLevel, humLevel, co2StageLevel, comboLevel, h1, h2, h3, h4, h5, h6, h7,
    h8, toNat_normal]

/-! ## Monotonicity of the alarm level -/

/-- Every level is at most `ALARM_CRITICAL`. -/
theorem toNat_le_three (a : AlarmLevel) : a.toNat ≤ 3 := by
  cases a <;> decide

/-- A two-tier rule marks no lower level further outside its inner band. -/
theorem bandLevel2_mono (v w : F32) (cl wl wh ch : ℚ) (h1 : cl ≤ wl) (h2 : wl ≤ wh)
    (h3 : wh ≤ ch) (hb : Band.furtherOut { lo := some wl, hi := some wh } v w = true) :
    (bandLevel2 v cl wl wh ch).toNat ≤ (bandLevel2 w cl wl wh ch).toNat := by
  cases v <;> cases w <;>
    simp_all [Band.furtherOut, bandLevel2, F32.lt, F32.gt, F32.le, F32.lit, F32.isnan]
  all_goals
    split_ifs <;>
      first
        | decide
        | (exfalso; simp only [not_or, not_lt] at *; (try casesm* _ ∨ _, _ ∧ _); all_goals linarith)

/-- A warning-only rule marks no lower level further outside its band. -/
theorem bandLevel1_mono (v w : F32) (wl wh : ℚ) (h2 : wl ≤ wh)
    (hb : Band.furtherOut { lo := some wl, hi := some wh } v w = true) :
    (bandLevel1 v wl wh).toNat ≤ (bandLevel1 w wl wh).toNat := by
  cases v <;> cases w <;>
    simp_all [Band.furtherOut, bandLevel1, F32.lt, F32.gt, F32.le, F32.lit, F32.isnan]
  all_goals
    split_ifs <;>
      first
        | decide
        | (exfalso; simp only [not_or, not_lt] at *; (try casesm* _ ∨ _, _ ∧ _); all_goals linarith)

/-- A rule with an upper critical bound marks no lower level further outside its band. -/
theorem bandLevelHi_mono (v w : F32) (wl wh ch : ℚ) (h2 : wl ≤ wh) (h3 : wh ≤ ch)
    (hb : Band.furtherOut { lo := some wl, hi := some wh } v w = true) :
    (bandLevelHi v wl wh ch).toNat ≤ (bandLevelHi w wl wh ch).toNat := by
  cases v <;> cases w <;>
    simp_all [Band.furtherOut, bandLevelHi, F32.lt, F32.gt, F32.le, F32.lit, F32.isnan]
  all_goals
    split_ifs <;>
      first
        | decide
        | (exfalso; simp only [not_or, not_lt] at *; (try casesm* _ ∨ _, _ ∧ _); all_goals linarith)

/-- An upper-side rule marks no lower level further above its bound. -/
theorem upperLevel_mono (v w : F32) (wh ch : ℚ)
    (hb : Band.furtherOut { hi := some wh } v w = true) :
    (upperLevel v wh ch).toNat ≤ (upperLevel w wh ch).toNat := by
  cases v <;> cases w <;>
    simp_all [Band.furtherOut, upperLevel, F32.lt, F32.gt, F32.le, F32.lit, F32.isnan]
  all_goals
    split_ifs <;>
      first
        | decide
        | (exfalso; simp only [not_or, not_lt] at *; (try casesm* _ ∨ _, _ ∧ _); all_goals linarith)

/-- A CO2 rule marks no lower level further above its risk threshold. -/
theorem co2Level_mono (v w crit risk : ℤ)
    (hb : co2FurtherOut (some risk) v w = true) :
    (co2Level v crit risk).toNat ≤ (co2Level w crit risk).toNat := by
  simp only [co2FurtherOut, Bool.and_eq_true, decide_eq_true_eq] at hb
  simp only [co2Level, decide_eq_true_eq]
  split_ifs <;> first | decide | (exfalso; omega)

/-- The temperature rule of a stage is monotone away from the stage's band. -/
theorem tempLevel_mono (stage : String) (v w : F32)
    (hb : (tempBand stage).furtherOut v w = true) :
    (tempLevel stage v).toNat ≤ (tempLevel stage w).toNat := by
  unfold tempBand at hb
  unfold tempLevel
  split_ifs at hb ⊢
  · exact bandLevel2_mono v w _ _ _ _ (by norm_num) (by norm_num) (by norm_num) hb
  · exact bandLevel2_mono v w _ _ _ _ (by norm_num) (by norm_num) (by norm_num) hb
  · exact bandLevel1_mono v w _ _ (by norm_num) hb
  · exact bandLevel1_mono v w _ _ (by norm_num) hb
  · exact bandLevel1_mono v w _ _ (by norm_num) hb
  · exact le_refl _

/-- The humidity rule of a stage is monotone away from the stage's band. -/
theorem humLevel_mono (stage : String) (v w : F32)
    (hb : (humBand stage).furtherOut v w = true) :
    (humLevel stage v).toNat ≤ (humLevel stage w).toNat := by
  unfold humBand at hb
  unfold humLevel
  split_ifs at hb ⊢
  · exact bandLevel2_mono v w _ _ _ _ (by norm_num) (by norm_num) (by norm_num) hb
  · exact bandLevel2_mono v w _ _ _ _ (by norm_num) (by norm_num) (by norm_num) hb
  · exact bandLevelHi_mono v w _ _ _ (by norm_num) (by norm_num) hb
  · exact bandLevelHi_mono v w _ _ _ (by norm_num) (by norm_num) hb
  · exact bandLevelHi_mono v w _ _ _ (by norm_num) (by norm_num) hb
  · exact upperLevel_mono v w _ _ hb
  · exact upperLevel_mono v w _ _ hb
  · exact bandLevelHi_mono v w _ _ _ (by norm_num) (by norm_num) hb
  · exact le_refl _

/-- The CO2 rule of a stage is monotone above the stage's normal range. -/
theorem co2StageLevel_mono (stage : String) (v w : ℤ)
    (hb : co2FurtherOut (co2Band stage) v w = true) :
    (co2StageLevel stage v).toNat ≤ (co2StageLevel stage w).toNat := by
  unfold co2Band at hb
  unfold co2StageLevel
  split_ifs at hb ⊢
  all_goals first
    | exact co2Level_mono v w _ _ hb
    | exact le_refl _

/-- The combined rule does not read the temperature. -/
theorem comboLevel_temp (stage : String) (r : EnvReading) (w : F32) :
    comboLevel stage { r with temperatureC := w } = comboLevel stage r := rfl

/-- From `v > a` and `v <= w` follows `w > a`. -/
theorem F32.gt_of_gt_of_le {v w a : F32} (h1 : v.gt a = true) (h2 : v.le w = true) :
    w.gt a = true := by
  cases v <;> cases w <;> cases a <;> simp_all [F32.gt, F32.lt, F32.le]
  linarith

/-- The level `ALARM_NORMAL` is the least level. -/
theorem toNat_normal_le (a : AlarmLevel) : ALARM_NORMAL.toNat ≤ a.toNat := Nat.zero_le _

/-- The combined rule is monotone in humidity above the band. -/
theorem comboLevel_mono_hum (stage : String) (r : EnvReading) (w : F32)
    (hb : (humBand stage).furtherOut r.humidityPct w = true) :
    (comboLevel stage r).toNat ≤ (comboLevel stage { r with humidityPct := w }).toNat := by
  unfold comboLevel
  split_ifs with h
  · subst h
    have hb2 : r.humidityPct.gt (F32.lit 74) = true ∧ r.humidityPct.le w = true := by
      simpa [humBand, Band.furtherOut] using hb
    unfold flacherieLevel
    by_cases hc : (hasCO2 r && hasH r && decide (r.co2ppm > 1200) &&
        r.humidityPct.gt (F32.lit 75)) = true
    · have hc2 : (hasCO2 { r with humidityPct := w } && hasH { r with humidityPct := w } &&
          decide (({ r with humidityPct := w } : EnvReading).co2ppm > 1200) &&
          ({ r with humidityPct := w } : EnvReading).humidityPct.gt (F32.lit 75)) = true := by
        simp only [Bool.and_eq_true, decide_eq_true_eq, hasCO2, hasH] at hc ⊢
        refine ⟨⟨⟨hc.1.1.1, ?_⟩, hc.1.2⟩, F32.gt_of_gt_of_le hc.2 hb2.2⟩
        simp [F32.isnan_eq_false_of_le_right hb2.2]
      rw [if_pos hc, if_pos hc2]
    · rw [if_neg hc]
      exact toNat_normal_le _
  · exact le_refl _

/-- The combined rule is monotone in CO2 above the normal range. -/
theorem comboLevel_mono_co2 (stage : String) (r : EnvReading) (w : ℤ)
    (hb : co2FurtherOut (co2Band stage) r.co2ppm w = true) :
    (comboLevel stage r).toNat ≤ (comboLevel stage { r with co2ppm := w }).toNat := by
  unfold comboLevel
  split_ifs with h
  · subst h
    have hb2 : r.co2ppm > 1100 ∧ r.co2ppm ≤ w := by
      simpa [co2Band, co2FurtherOut] using hb
    simp only [flacherieLevel, hasH, hasCO2, Bool.and_eq_true, decide_eq_true_eq]
    split_ifs with h1 h2
    · decide
    · exfalso
      apply h2
      refine ⟨⟨⟨?_, h1.1.1.2⟩, ?_⟩, h1.2⟩
      · omega
      · have := h1.1.2
        omega
    · decide
    · decide
  · exact le_refl _

/-- The rapid-change block does nothing outside the final instar. -/
theorem rapidBlock_of_ne (e : RuleEngine) (stage : String) (r : EnvReading) (nowMs : ℕ)
    (o : RuleOutput) (h : stage ≠ "larva_5") : rapidBlock e stage r nowMs o = o := by
  simp [rapidBlock, h]

/-- The final instar has no temperature band to be outside of. -/
theorem tempBand_ne_larva5 (stage : String) (v w : F32)
    (hb : (tempBand stage).furtherOut v w = true) : stage ≠ "larva_5" := by
  rintro rfl
  simp [tempBand, Band.furtherOut] at hb

/-- The level returned by `evaluate` is the maximum of the levels marked by the
rapid-change rule and the temperature, humidity, CO2 and combined rules of the stage. -/
theorem evaluate_level (e : RuleEngine) (stage : String) (r : EnvReading) (nowMs : ℕ) :
    (e.evaluate stage r nowMs).1.level.toNat =
      max (max (max (max (rapidBlock e stage r nowMs {}).level.toNat
        (tempLevel stage r.temperatureC).toNat)
        (humLevel stage r.humidityPct).toNat) (co2StageLevel stage r.co2ppm).toNat)
        (comboLevel stage r).toNat := by
  simp only [RuleEngine.evaluate, compound_level, stageBlock_level]

/-- A nested maximum is monotone in each argument. -/
theorem max5_mono {p p' a a' b b' c c' d d' : ℕ} (hp : p ≤ p') (ha : a ≤ a') (hb : b ≤ b')
    (hc : c ≤ c') (hd : d ≤ d') :
    max (max (max (max p a) b) c) d ≤ max (max (max (max p' a') b') c') d' := by
  omega

/-- C6: alarm level is monotone in distance from the band. For every known stage,
trend state, `nowMs` and reading, replacing the temperature, the humidity or the
CO2 value by one lying further outside the stage's normal band on the same side
(all other fields fixed) does not decrease the level returned by `evaluate`. -/
theorem level_monotone (e : RuleEngine) (stage : String) (r : EnvReading) (nowMs : ℕ)
    (_hs : stage ∈ knownStages) :
    (∀ w : F32, (tempBand stage).furtherOut r.temperatureC w = true →
      (e.evaluate stage r nowMs).1.level.toNat
        ≤ (e.evaluate stage { r with temperatureC := w } nowMs).1.level.toNat) ∧
    (∀ w : F32, (humBand stage).furtherOut r.humidityPct w = true →
      (e.evaluate stage r nowMs).1.level.toNat
        ≤ (e.evaluate stage { r with humidityPct := w } nowMs).1.level.toNat) ∧
    (∀ w : ℤ, co2FurtherOut (co2Band stage) r.co2ppm w = true →
      (e.evaluate stage r nowMs).1.level.toNat
        ≤ (e.evaluate stage { r with co2ppm := w } nowMs).1.level.toNat) := by
  refine ⟨fun w hb => ?_, fun w hb => ?_, fun w hb => ?_⟩
  · have hne := tempBand_ne_larva5 stage _ _ hb
    rw [evaluate_level, evaluate_level, rapidBlock_of_ne _ _ _ _ _ hne,
      rapidBlock_of_ne _ _ _ _ _ hne]
    exact max5_mono (le_refl _) (tempLevel_mono stage _ _ hb) (le_refl _) (le_refl _)
      (le_of_eq rfl)
  · rw [evaluate_level, evaluate_level]
    exact max5_mono (le_of_eq rfl) (le_refl _) (humLevel_mono stage _ _ hb) (le_refl _)
      (comboLevel_mono_hum stage r w hb)
  · rw [evaluate_level, evaluate_level]
    exact max5_mono (le_of_eq rfl) (le_refl _) (le_refl _) (co2StageLevel_mono stage _ _ hb)
      (comboLevel_mono_co2 stage r w hb)

/-- A two-tier rule marks no alarm exactly inside its inner band. -/
theorem bandLevel2_normal_iff (v : F32) (cl wl wh ch : ℚ) (h1 : cl ≤ wl) (h3 : wh ≤ ch) :
    bandLevel2 v cl wl wh ch = ALARM_NORMAL ↔
      Band.outside { lo := some wl, hi := some wh } v = false := by
  cases v <;> simp [bandLevel2, Band.outside, F32.lt, F32.gt, F32.lit, F32.isnan]
  split_ifs with ha hb
  · simp only [reduceCtorEq, false_iff, not_and, not_le]
    intro h
    rcases ha with ha | ha <;> linarith
  · simp only [reduceCtorEq, false_iff, not_and, not_le]
    intro h
    rcases hb with hb | hb <;> linarith
  · simp only [true_iff]
    push_neg at hb
    exact hb

/-- A warning-only rule marks no alarm exactly inside its band. -/
theorem bandLevel1_normal_iff (v : F32) (wl wh : ℚ) :
    bandLevel1 v wl wh = ALARM_NORMAL ↔
      Band.outside { lo := some wl, hi := some wh } v = false := by
  cases v <;> simp [bandLevel1, Band.outside, F32.lt, F32.gt, F32.lit, F32.isnan]

/-- A rule with an upper critical bound marks no alarm exactly inside its band. -/
theorem bandLevelHi_normal_iff (v : F32) (wl wh ch : ℚ) (h3 : wh ≤ ch) :
    bandLevelHi v wl wh ch = ALARM_NORMAL ↔
      Band.outside { lo := some wl, hi := some wh } v = false := by
  cases v <;> simp [bandLevelHi, Band.outside, F32.lt, F32.gt, F32.lit, F32.isnan]
  split_ifs with ha hb
  · simp only [reduceCtorEq, false_iff, not_and, not_le]
    intro h
    linarith
  · simp only [reduceCtorEq, false_iff, not_and, not_le]
    intro h
    rcases hb with hb | hb <;> linarith
  · simp only [true_iff]
    push_neg at hb
    exact hb

/-- An upper-side rule marks no alarm exactly at or below its bound. -/
theorem upperLevel_normal_iff (v : F32) (wh ch : ℚ) (h3 : wh ≤ ch) :
    upperLevel v wh ch = ALARM_NORMAL ↔ Band.outside { hi := some wh } v = false := by
  cases v <;> simp [upperLevel, Band.outside, F32.lt, F32.gt, F32.lit, F32.isnan]
  split_ifs with ha hb
  · simp only [reduceCtorEq, false_iff, not_le]
    linarith
  · simp only [reduceCtorEq, false_iff, not_le]
    exact hb
  · simp only [true_iff]
    push_neg at hb
    exact hb

/-- A CO2 rule marks no alarm exactly when the value is unknown or within range. -/
theorem co2Level_normal_iff (v crit risk : ℤ) (h : risk ≤ crit) :
    co2Level v crit risk = ALARM_NORMAL ↔ (v ≤ 0 ∨ v ≤ risk) := by
  simp only [co2Level, decide_eq_true_eq]
  split_ifs <;> simp <;> omega

/-- The temperature band of a stage is exactly where the stage's temperature rule
marks no alarm. -/
theorem tempLevel_normal_iff (stage : String) (v : F32) :
    tempLevel stage v = ALARM_NORMAL ↔ (tempBand stage).outside v = false := by
  unfold tempLevel tempBand
  split_ifs
  · exact bandLevel2_normal_iff v _ _ _ _ (by norm_num) (by norm_num)
  · exact bandLevel2_normal_iff v _ _ _ _ (by norm_num) (by norm_num)
  · exact bandLevel1_normal_iff v _ _
  · exact bandLevel1_normal_iff v _ _
  · exact bandLevel1_normal_iff v _ _
  · simp [Band.outside]

/-- The humidity band of a stage is exactly where the stage's humidity rule marks
no alarm. -/
theorem humLevel_normal_iff (stage : String) (v : F32) :
    humLevel stage v = ALARM_NORMAL ↔ (humBand stage).outside v = false := by
  unfold humLevel humBand
  split_ifs
  · exact bandLevel2_normal_iff v _ _ _ _ (by norm_num) (by norm_num)
  · exact bandLevel2_normal_iff v _ _ _ _ (by norm_num) (by norm_num)
  · exact bandLevelHi_normal_iff v _ _ _ (by norm_num)
  · exact bandLevelHi_normal_iff v _ _ _ (by norm_num)
  · exact bandLevelHi_normal_iff v _ _ _ (by norm_num)
  · exact upperLevel_normal_iff v _ _ (by norm_num)
  · exact upperLevel_normal_iff v _ _ (by norm_num)
  · exact bandLevelHi_normal_iff v _ _ _ (by norm_num)
  · simp [Band.outside]

/-- The normal CO2 range of a stage is exactly where the stage's CO2 rule marks no
alarm: the value is unknown or at most the upper end. -/
theorem co2StageLevel_normal_iff (stage : String) (v : ℤ) :
    co2StageLevel stage v = ALARM_NORMAL ↔
      (v ≤ 0 ∨ match co2Band stage with
        | some h => v ≤ h
        | none => True) := by
  unfold co2StageLevel co2Band
  split_ifs
  all_goals first
    | exact co2Level_normal_iff v _ _ (by norm_num)
    | simp

/-- Instance of `level_monotone`: at "egg_incubation" the temperature 24.5 is below
the band (warning) and 23 lies further below (critical). -/
theorem level_monotone_witness :
    "egg_incubation" ∈ knownStages ∧
    (tempBand "egg_incubation").furtherOut (F32.lit (49 / 2)) (F32.lit 23) = true ∧
    (RuleEngine.evaluate {} "egg_incubation" { temperatureC := F32.lit (49 / 2) } 0).1.level.toNat
      ≤ (RuleEngine.evaluate {} "egg_incubation"
          { ({ temperatureC := F32.lit (49 / 2) } : EnvReading) with
            temperatureC := F32.lit 23 } 0).1.level.toNat :=
  have hb : (tempBand "egg_incubation").furtherOut (F32.lit (49 / 2)) (F32.lit 23) = true := by
    simp [tempBand, Band.furtherOut, F32.lt, F32.le, F32.gt, F32.lit]
    norm_num
  ⟨by decide, hb,
    (level_monotone {} "egg_incubation" { temperatureC := F32.lit (49 / 2) } 0 (by decide)).1
      (F32.lit 23) hb⟩

/-! ## Manual commands, fan, lighting, thresholds and risk flags -/

/-- Matching a non-null literal means being that string. -/
theorem strEq_some_iff (a : Option String) (y : String) :
    strEq a (some y) = true ↔ a = some y := by
  cases a <;> simp [strEq]

/-- An identifier with a registered mode is one of the four known ones. -/
theorem modeOf_some_known (c : Controller) (name : String) (m : ControlMode)
    (h : c.modeOf (some name) = some m) : name ∈ knownActuators := by
  unfold Controller.modeOf at h
  simp only [strEq, decide_eq_true_eq] at h
  simp only [knownActuators, List.mem_cons, List.mem_singleton]
  split_ifs at h <;> simp_all

/-- C11: for each of the four actuator identifiers, when that actuator is in
`MODE_MANUAL`, `applyManual(id, s, r)` leaves the actuator's state equal to `s`,
appends exactly the audit record `(id, "manual", s, r)` if `s` differed from the
prior state and nothing otherwise, and leaves every other actuator and all modes
unchanged. -/
theorem applyManual_manual (c : Controller) (name : String) (s : Bool) (r : EnvReading)
    (h : c.modeOf (some name) = some MODE_MANUAL) :
    ((c.applyManual (some name) s r).relayOf (some name)).map RelayActuator.state = some s ∧
    (c.applyManual (some name) s r).audits =
      c.audits ++ (if (c.relayOf (some name)).map RelayActuator.state = some s then []
        else [{ actuator := name, modeStr := "manual", state := s, reading := r }]) ∧
    (∀ other : Option String, other ≠ some name →
      (c.applyManual (some name) s r).relayOf other = c.relayOf other) ∧
    (c.applyManual (some name) s r).modes = c.modes := by
  have hk := modeOf_some_known c name _ h
  simp only [knownActuators, List.mem_cons, List.mem_singleton, List.mem_nil_iff, or_false] at hk
  rcases hk with rfl | rfl | rfl | rfl
  · have hm : c.modes.fan = MODE_MANUAL := by simpa [Controller.modeOf, strEq] using h
    refine ⟨?_, ?_, ?_, ?_⟩
    · simp [Controller.applyManual, Controller.relayOf, strEq, hm, RelayActuator.state,
        RelayActuator.set, Controller.postActuatorAudit]
      split_ifs <;> simp_all
    · simp [Controller.applyManual, Controller.relayOf, strEq, hm, RelayActuator.state,
        RelayActuator.set, Controller.postActuatorAudit]
      split_ifs <;> simp_all
    · intro other ho
      cases other with
      | none => simp [Controller.relayOf, strEq]
      | some x =>
        have hx : x ≠ "ventilation" := fun hx => ho (by rw [hx])
        simp [Controller.applyManual, Controller.relayOf, strEq, hm, hx, RelayActuator.state,
          RelayActuator.set, Controller.postActuatorAudit]
        split_ifs <;> simp_all
    · simp [Controller.applyManual, strEq, hm, Controller.postActuatorAudit]
      split_ifs <;> rfl
  · have hm : c.modes.heater = MODE_MANUAL := by simpa [Controller.modeOf, strEq] using h
    refine ⟨?_, ?_, ?_, ?_⟩
    · simp [Controller.applyManual, Controller.relayOf, strEq, hm, RelayActuator.state,
        RelayActuator.set, Controller.postActuatorAudit]
      split_ifs <;> simp_all
    · simp [Controller.applyManual, Controller.relayOf, strEq, hm, RelayActuator.state,
        RelayActuator.set, Controller.postActuatorAudit]
      split_ifs <;> simp_all
    · intro other ho
      cases other with
      | none => simp [Controller.relayOf, strEq]
      | some x =>
        have hx : x ≠ "heater" := fun hx => ho (by rw [hx])
        simp [Controller.applyManual, Controller.relayOf, strEq, hm, hx, RelayActuator.state,
          RelayActuator.set, Controller.postActuatorAudit]
        split_ifs <;> simp_all
    · simp [Controller.applyManual, strEq, hm, Controller.postActuatorAudit]
      split_ifs <;> rfl
  · have hm : c.modes.humidifier = MODE_MANUAL := by simpa [Controller.modeOf, strEq] using h
    refine ⟨?_, ?_, ?_, ?_⟩
    · simp [Controller.applyManual, Controller.relayOf, strEq, hm, RelayActuator.state,
        RelayActuator.set, Controller.postActuatorAudit]
      split_ifs <;> simp_all
    · simp [Controller.applyManual, Controller.relayOf, strEq, hm, RelayActuator.state,
        RelayActuator.set, Controller.postActuatorAudit]
      split_ifs <;> simp_all
    · intro other ho
      cases other with
      | none => simp [Controller.relayOf, strEq]
      | some x =>
        have hx : x ≠ "humidifier" := fun hx => ho (by rw [hx])
        simp [Controller.applyManual, Controller.relayOf, strEq, hm, hx, RelayActuator.state,
          RelayActuator.set, Controller.postActuatorAudit]
        split_ifs <;> simp_all
    · simp [Controller.applyManual, strEq, hm, Controller.postActuatorAudit]
      split_ifs <;> rfl
  · have hm : c.modes.lighting = MODE_MANUAL := by simpa [Controller.modeOf, strEq] using h
    refine ⟨?_, ?_, ?_, ?_⟩
    · simp [Controller.applyManual, Controller.relayOf, strEq, hm, RelayActuator.state,
        RelayActuator.set, Controller.postActuatorAudit]
      split_ifs <;> simp_all
    · simp [Controller.applyManual, Controller.relayOf, strEq, hm, RelayActuator.state,
        RelayActuator.set, Controller.postActuatorAudit]
      split_ifs <;> simp_all
    · intro other ho
      cases other with
      | none => simp [Controller.relayOf, strEq]
      | some x =>
        have hx : x ≠ "lighting" := fun hx => ho (by rw [hx])
        simp [Controller.applyManual, Controller.relayOf, strEq, hm, hx, RelayActuator.state,
          RelayActuator.set, Controller.postActuatorAudit]
        split_ifs <;> simp_all
    · simp [Controller.applyManual, strEq, hm, Controller.postActuatorAudit]
      split_ifs <;> rfl

/-- C12: for every actuator identifier that is none of "ventilation", "heater",
"humidifier", "lighting" (a null identifier included), `setMode` and
`applyManual` return the controller unchanged: no mode, no actuator state and
no audit record changes. -/
theorem unknown_actuator_ignored (c : Controller) (actuatorId : Option String)
    (mode : ControlMode) (s : Bool) (r : EnvReading)
    (h : ∀ name ∈ knownActuators, actuatorId ≠ some name) :
    c.setMode actuatorId mode = c ∧ c.applyManual actuatorId s r = c := by
  have h1 : strEq actuatorId (some "ventilation") = false := by
    rw [Bool.eq_false_iff, Ne, strEq_some_iff]
    exact h _ (by simp [knownActuators])
  have h2 : strEq actuatorId (some "heater") = false := by
    rw [Bool.eq_false_iff, Ne, strEq_some_iff]
    exact h _ (by simp [knownActuators])
  have h3 : strEq actuatorId (some "humidifier") = false := by
    rw [Bool.eq_false_iff, Ne, strEq_some_iff]
    exact h _ (by simp [knownActuators])
  have h4 : strEq actuatorId (some "lighting") = false := by
    rw [Bool.eq_false_iff, Ne, strEq_some_iff]
    exact h _ (by simp [knownActuators])
  simp [Controller.setMode, Controller.applyManual, h1, h2, h3, h4]

/-- Instance of `unknown_actuator_ignored`: the null identifier. -/
theorem unknown_actuator_ignored_witness :
    (∀ name ∈ knownActuators, (none : Option String) ≠ some name) ∧
    heaterManual.setMode none MODE_MANUAL = heaterManual ∧
    heaterManual.applyManual none true {} = heaterManual :=
  ⟨by simp, unknown_actuator_ignored heaterManual none MODE_MANUAL true {} (by simp)⟩

/-- After the compound derivation a decrease flag comes with `increaseVentilation`. -/
theorem compound_spec (o : RuleOutput) (h : (compound o).decreaseTemperature = true ∨
    (compound o).decreaseHumidity = true) : (compound o).increaseVentilation = true := by
  unfold compound at h ⊢
  split_ifs with hc
  · rfl
  · rw [if_neg hc] at h
    simp only [Bool.or_eq_true] at hc
    exact absurd h hc

/-- C13: in every `RuleOutput` returned by `evaluate`, if `decreaseTemperature` or
`decreaseHumidity` is set then `increaseVentilation` is set, for every stage,
reading, trend state and `nowMs`. -/
theorem ventilation_follows_decrease (e : RuleEngine) (stage : String) (r : EnvReading)
    (nowMs : ℕ)
    (h : (e.evaluate stage r nowMs).1.decreaseTemperature = true ∨
      (e.evaluate stage r nowMs).1.decreaseHumidity = true) :
    (e.evaluate stage r nowMs).1.increaseVentilation = true :=
  compound_spec _ h

/-- C18: trend-state frame. After `evaluate(stage, r, nowMs)`, for every stage
(known or not), the trend state is `(r.temperatureC, nowMs)` if the temperature
is present and is the trend state before the call if the temperature is unknown. -/
theorem trend_state_frame (e : RuleEngine) (stage : String) (r : EnvReading) (nowMs : ℕ) :
    (r.temperatureC.isnan = false →
      (e.evaluate stage r nowMs).2 = { lastTempC := r.temperatureC, lastTempMs := nowMs }) ∧
    (r.temperatureC.isnan = true → (e.evaluate stage r nowMs).2 = e) := by
  constructor
  · intro h
    simp [RuleEngine.evaluate, trendUpdate, hasT, h]
  · intro h
    simp [RuleEngine.evaluate, trendUpdate, hasT, h]

/-- The fan of the controller after `applyAutoControl` is the fan after the fan block. -/
theorem applyAutoControl_fan (c : Controller) (r : EnvReading) :
    (c.applyAutoControl r).actuators.fan
      = (fanBlock (resolve c.thresholds) r c).actuators.fan := by
  unfold Controller.applyAutoControl
  rw [(lightingBlock_frame _ _).2.2.1, (humidifierBlock_frame _ _ _).2.2.1,
    (heaterBlock_frame _ _ _).2.2.1]

/-- A wrapped `int` lies in `INT_MIN .. INT_MAX`. -/
theorem wrapInt_range (x : ℤ) : INT_MIN ≤ wrapInt x ∧ wrapInt x ≤ INT_MAX := by
  unfold wrapInt INT_MIN INT_MAX
  omega

/-- A value in `INT_MIN .. INT_MAX` is left as it is. -/
theorem wrapInt_of_range (x : ℤ) (h1 : INT_MIN ≤ x) (h2 : x ≤ INT_MAX) : wrapInt x = x := by
  unfold wrapInt INT_MIN INT_MAX at *
  omega

/-- Halving an `int` toward zero stays within half the range. -/
theorem tdiv_two_bounds (x : ℤ) (h1 : INT_MIN ≤ x) (h2 : x ≤ INT_MAX) :
    -1073741824 ≤ Int.tdiv x 2 ∧ Int.tdiv x 2 ≤ 1073741823 := by
  unfold INT_MIN INT_MAX at *
  rcases le_or_lt 0 x with h | h
  · rw [Int.tdiv_eq_ediv h (by decide)]
    omega
  · have h3 : Int.tdiv x 2 = -Int.tdiv (-x) 2 := by
      rw [Int.neg_tdiv, neg_neg]
    rw [h3, Int.tdiv_eq_ediv (by omega) (by decide)]
    omega

/-- The resolved optimal CO2 is never below `-2^30`. -/
theorem resolve_co2Opt_ge (th : Option Thresholds) : -1073741824 ≤ (resolve th).co2Opt := by
  have hb : ∀ x, -1073741824 ≤ Int.tdiv (wrapInt x) 2 := fun x =>
    (tdiv_two_bounds _ (wrapInt_range x).1 (wrapInt_range x).2).1
  cases th with
  | none =>
    simp only [resolve, pickPos]
    exact hb _
  | some t =>
    simp only [resolve, pickPos]
    split_ifs <;> first | omega | exact hb _

/-- The value of `need` for the fan as one disjunction; the sum
`co2Opt + CO2_HYST` is the `int` the code computes. -/
theorem fanNeed_eq (k : Resolved) (r : EnvReading) :
    fanNeed k r =
      ((decide (r.co2ppm > 0) &&
          (decide (r.co2ppm > k.co2Max) || decide (r.co2ppm > wrapInt (k.co2Opt + CO2_HYST)))) ||
        (!r.temperatureC.isnan &&
          (r.temperatureC.gt k.tMax || r.temperatureC.gt (F32.add k.tOpt T_HYST))) ||
        (!r.humidityPct.isnan &&
          (r.humidityPct.gt k.hMax || r.humidityPct.gt (F32.add k.hOpt H_HYST)))) := by
  simp only [fanNeed]
  generalize r.temperatureC.isnan = a1
  generalize r.temperatureC.gt k.tMax = a2
  generalize r.temperatureC.gt (F32.add k.tOpt T_HYST) = a3
  generalize r.humidityPct.isnan = b1
  generalize r.humidityPct.gt k.hMax = b2
  generalize r.humidityPct.gt (F32.add k.hOpt H_HYST) = b3
  by_cases h0 : r.co2ppm > 0
  · by_cases h1 : r.co2ppm > k.co2Max
    · simp only [h0, h1, if_true, decide_True]
      cases a1 <;> cases a2 <;> cases a3 <;> cases b1 <;> cases b2 <;> cases b3 <;> rfl
    · by_cases h2 : r.co2ppm > wrapInt (k.co2Opt + CO2_HYST)
      · simp only [h0, h1, h2, if_true, if_false, decide_True, decide_False]
        cases a1 <;> cases a2 <;> cases a3 <;> cases b1 <;> cases b2 <;> cases b3 <;> rfl
      · simp only [h0, h1, h2, if_true, if_false, decide_True, decide_False, ite_self]
        cases a1 <;> cases a2 <;> cases a3 <;> cases b1 <;> cases b2 <;> cases b3 <;> rfl
  · simp only [h0, if_false, decide_False]
    cases a1 <;> cases a2 <;> cases a3 <;> cases b1 <;> cases b2 <;> cases b3 <;> rfl

/-- C14 fails when `co2Opt + CO2_HYST` exceeds the largest `int`. With the fan in
Automatic mode, thresholds that give only `co2Opt = 2147483647` (so `co2Max`
resolves to 1200) and the reading CO2 = 1000 with temperature and humidity
unknown, no disjunct of the claim holds: 1000 is not above 1200, 1000 is not above
2147483647 + 50, and the other two variables are absent. The `int` sum wraps to
-2147483599, the test `1000 > co2Opt + CO2_HYST` succeeds, and
`applyAutoControl` switches the fan on. -/
theorem fan_on_by_int_overflow :
    autoCo2OptIntMax.modes.fan = MODE_AUTO ∧
    (resolve autoCo2OptIntMax.thresholds).co2Max = 1200 ∧
    (resolve autoCo2OptIntMax.thresholds).co2Opt = 2147483647 ∧
    ¬ ((1000 : ℤ) > (resolve autoCo2OptIntMax.thresholds).co2Max) ∧
    ¬ ((1000 : ℤ) > (resolve autoCo2OptIntMax.thresholds).co2Opt + CO2_HYST) ∧
    ({ co2ppm := 1000 } : EnvReading).temperatureC.isnan = true ∧
    ({ co2ppm := 1000 } : EnvReading).humidityPct.isnan = true ∧
    wrapInt ((resolve autoCo2OptIntMax.thresholds).co2Opt + CO2_HYST) = -2147483599 ∧
    (autoCo2OptIntMax.applyAutoControl { co2ppm := 1000 }).actuators.fan.stateOn = true := by
  have h1 : (resolve autoCo2OptIntMax.thresholds).co2Max = 1200 := by
    simp [autoCo2OptIntMax, resolve, pickPos, CO2_OK_MAX]
  have h2 : (resolve autoCo2OptIntMax.thresholds).co2Opt = 2147483647 := by
    simp [autoCo2OptIntMax, resolve, pickPos]
  refine ⟨rfl, h1, h2, ?_, ?_, rfl, rfl, ?_, ?_⟩
  · rw [h1]
    decide
  · rw [h2]
    decide
  · rw [h2]
    decide
  · rw [applyAutoControl_fan, fanBlock_state _ _ _ rfl, fanNeed_eq, h1, h2]
    simp [CO2_HYST, wrapInt, INT_MIN, F32.isnan]

/-- C14 (amended): with the fan in Automatic mode and the resolved `co2Opt` small
enough that `co2Opt + CO2_HYST` does not exceed `INT_MAX`, after
`applyAutoControl` the fan's state equals the disjunction (CO2 present and
(CO2 > co2Max or CO2 > co2Opt + CO2_HYST)) or (temperature present and
(T > tMax or T > tOpt + T_HYST)) or (humidity present and (H > hMax or
H > hOpt + H_HYST)) over the resolved thresholds, the CO2 sum being the exact
integer sum; hence a CO2 value below `co2Opt - CO2_HYST` does not keep the fan
off when temperature or humidity demands it on. -/
theorem fan_state_auto (c : Controller) (r : EnvReading) (hm : c.modes.fan = MODE_AUTO)
    (hov : (resolve c.thresholds).co2Opt + CO2_HYST ≤ INT_MAX) :
    (c.applyAutoControl r).actuators.fan.stateOn =
      ((decide (r.co2ppm > 0) &&
          (decide (r.co2ppm > (resolve c.thresholds).co2Max) ||
            decide (r.co2ppm > (resolve c.thresholds).co2Opt + CO2_HYST))) ||
        (!r.temperatureC.isnan &&
          (r.temperatureC.gt (resolve c.thresholds).tMax ||
            r.temperatureC.gt (F32.add (resolve c.thresholds).tOpt T_HYST))) ||
        (!r.humidityPct.isnan &&
          (r.humidityPct.gt (resolve c.thresholds).hMax ||
            r.humidityPct.gt (F32.add (resolve c.thresholds).hOpt H_HYST)))) ∧
    (r.co2ppm < (resolve c.thresholds).co2Opt - CO2_HYST →
      ((!r.temperatureC.isnan &&
          (r.temperatureC.gt (resolve c.thresholds).tMax ||
            r.temperatureC.gt (F32.add (resolve c.thresholds).tOpt T_HYST))) ||
        (!r.humidityPct.isnan &&
          (r.humidityPct.gt (resolve c.thresholds).hMax ||
            r.humidityPct.gt (F32.add (resolve c.thresholds).hOpt H_HYST)))) = true →
      (c.applyAutoControl r).actuators.fan.stateOn = true) := by
  have h1 : (c.applyAutoControl r).actuators.fan.stateOn = fanNeed (resolve c.thresholds) r := by
    rw [applyAutoControl_fan, fanBlock_state _ _ _ hm]
  have hw : wrapInt ((resolve c.thresholds).co2Opt + CO2_HYST)
      = (resolve c.thresholds).co2Opt + CO2_HYST := by
    apply wrapInt_of_range _ _ hov
    have := resolve_co2Opt_ge c.thresholds
    unfold INT_MIN CO2_HYST
    omega
  rw [h1, fanNeed_eq, hw]
  refine ⟨rfl, fun _ hd => ?_⟩
  rw [Bool.or_assoc, hd, Bool.or_true]

/-- The lighting relay after `applyAutoControl` is the one after the lighting block. -/
theorem applyAutoControl_lighting_state (c : Controller) (r : EnvReading)
    (hm : c.modes.lighting = MODE_AUTO) :
    (c.applyAutoControl r).actuators.lighting.stateOn = lightingNeed r := by
  unfold Controller.applyAutoControl
  apply lightingBlock_state
  rw [(humidifierBlock_frame _ _ _).1, (heaterBlock_frame _ _ _).1, (fanBlock_frame _ _ _).1]
  exact hm

/-- C17: with lighting in Automatic mode, after `applyAutoControl` the lighting
relay is on exactly when the reading's lux is present and below 50; with lux
unknown it is off. -/
theorem lighting_state_auto (c : Controller) (r : EnvReading)
    (hm : c.modes.lighting = MODE_AUTO) :
    ((c.applyAutoControl r).actuators.lighting.stateOn = true ↔
      (r.lux.isnan = false ∧ r.lux.lt (F32.lit 50) = true)) ∧
    (r.lux.isnan = true → (c.applyAutoControl r).actuators.lighting.stateOn = false) := by
  rw [applyAutoControl_lighting_state c r hm]
  unfold lightingNeed
  constructor
  · simp
  · intro h
    simp [h]

/-- C15 (amended): heater hard limits. With the heater in Automatic mode, for every
threshold set and every reading with temperature present, after
`applyAutoControl` the heater is on whenever the temperature is below the
resolved `tMin`, and is off whenever the temperature is above the resolved `tMax`
and not below the resolved `tMin`. -/
theorem heater_hard_limits (c : Controller) (r : EnvReading)
    (hm : c.modes.heater = MODE_AUTO) (hT : r.temperatureC.isnan = false) :
    (r.temperatureC.lt (resolve c.thresholds).tMin = true →
      (c.applyAutoControl r).actuators.heater.stateOn = true) ∧
    (r.temperatureC.gt (resolve c.thresholds).tMax = true →
      r.temperatureC.lt (resolve c.thresholds).tMin = false →
      (c.applyAutoControl r).actuators.heater.stateOn = false) := by
  have hm1 : (fanBlock (resolve c.thresholds) r c).modes.heater = MODE_AUTO := by
    rw [(fanBlock_frame _ _ _).1, hm]
  rw [applyAutoControl_heater, heaterBlock_state _ _ _ hm1]
  unfold heaterNeed
  constructor
  · intro h
    simp [hT, h]
  · intro h1 h2
    simp [hT, h1, h2]

/-- The rapid-change block does not touch `flacherieRisk`. -/
theorem rapidBlock_flacherie (e : RuleEngine) (stage : String) (r : EnvReading) (nowMs : ℕ)
    (o : RuleOutput) : (rapidBlock e stage r nowMs o).flacherieRisk = o.flacherieRisk := by
  simp only [rapidBlock, mark, apply_ite RuleOutput.flacherieRisk, ite_self]

/-- The compound derivation does not touch `flacherieRisk`. -/
theorem compound_flacherie (o : RuleOutput) : (compound o).flacherieRisk = o.flacherieRisk := by
  unfold compound
  split_ifs <;> rfl

/-- The "larva_4" branch sets `flacherieRisk` exactly on its combined condition. -/
theorem larva4Block_flacherie (r : EnvReading) (o : RuleOutput) :
    (larva4Block r o).flacherieRisk =
      (o.flacherieRisk ||
        (hasCO2 r && hasH r && decide (r.co2ppm > 1200) && r.humidityPct.gt (F32.lit 75))) := by
  simp only [larva4Block, mark, apply_ite RuleOutput.flacherieRisk, ite_self]
  split_ifs with h
  · rw [h, Bool.or_true]
  · rw [Bool.not_eq_true] at h
    rw [h, Bool.or_false]

/-- Outside "larva_4" the stage rules do not touch `flacherieRisk`. -/
theorem stageBlock_flacherie_of_ne (stage : String) (r : EnvReading) (o : RuleOutput)
    (h : stage ≠ "larva_4") : (stageBlock stage r o).flacherieRisk = o.flacherieRisk := by
  simp only [stageBlock, eggIncubationBlock, adaptationBlock, larva1Block, larva2Block,
    larva3Block, larva5Block, cocoonBlock, mark, h, if_false,
    apply_ite RuleOutput.flacherieRisk, ite_self]

/-- C19: `evaluate` sets `flacherieRisk` exactly when the stage is "larva_4", CO2 is
present and above 1200, and humidity is present and above 75; for every other
stage or reading the flag is false. -/
theorem flacherie_iff (e : RuleEngine) (stage : String) (r : EnvReading) (nowMs : ℕ) :
    (e.evaluate stage r nowMs).1.flacherieRisk = true ↔
      (stage = "larva_4" ∧ (0 < r.co2ppm ∧ r.co2ppm > 1200) ∧
        (r.humidityPct.isnan = false ∧ r.humidityPct.gt (F32.lit 75) = true)) := by
  simp only [RuleEngine.evaluate, compound_flacherie]
  by_cases h4 : stage = "larva_4"
  · subst h4
    have hs : stageBlock "larva_4" r (rapidBlock e "larva_4" r nowMs {})
        = larva4Block r (rapidBlock e "larva_4" r nowMs {}) := by
      simp [stageBlock]
    rw [hs, larva4Block_flacherie, rapidBlock_flacherie]
    simp [hasCO2, hasH]
    tauto
  · rw [stageBlock_flacherie_of_ne _ _ _ h4, rapidBlock_flacherie]
    simp [h4]

/-- The "larva_2" branch never sets `muscardineRisk`. -/
theorem larva2_never_muscardine (e : RuleEngine) (r : EnvReading) (nowMs : ℕ) :
    (e.evaluate "larva_2" r nowMs).1.muscardineRisk = false := by
  have hs : ∀ o, stageBlock "larva_2" r o = larva2Block r o := by
    intro o
    simp [stageBlock]
  have hr : rapidBlock e "larva_2" r nowMs {} = {} := rapidBlock_of_ne _ _ _ _ _ (by decide)
  simp only [RuleEngine.evaluate, hs, hr, larva2Block, compound, mark,
    apply_ite RuleOutput.muscardineRisk, ite_self]

/-- C20 at stage "larva_2": humidity 86 is present and above the critical bound 85,
the level is `ALARM_CRITICAL`, and `muscardineRisk` is not set. -/
theorem larva2_no_muscardine :
    (F32.lit 86).isnan = false ∧ (F32.lit 86).gt (F32.lit 85) = true ∧
    (RuleEngine.evaluate {} "larva_2" { humidityPct := F32.lit 86 } 0).1.level = ALARM_CRITICAL ∧
    (RuleEngine.evaluate {} "larva_2" { humidityPct := F32.lit 86 } 0).1.muscardineRisk = false := by
  refine ⟨rfl, ?_, ?_, larva2_never_muscardine _ _ _⟩
  · simp [F32.gt, F32.lt, F32.lit]
    norm_num
  · simp [RuleEngine.evaluate, rapidBlock, stageBlock, larva2Block, hasT, hasH, hasCO2, compound,
      F32.isnan, F32.lit, F32.gt, F32.lt, mark, maxLevel, AlarmLevel.toNat]
    norm_num

/-- A float above a literal is a number. -/
theorem hasH_of_gt (r : EnvReading) (q : ℚ) (h : r.humidityPct.gt (F32.lit q) = true) :
    hasH r = true := by
  unfold hasH
  cases hh : r.humidityPct <;> simp_all [F32.gt, F32.lt, F32.lit, F32.isnan]

/-- Stages "larva_1" and "larva_3" set `muscardineRisk` above their critical
humidity bounds 90 and 80, and "cocoon" sets `cocoonQualityRisk` above 70. -/
theorem humidity_risk_flags (e : RuleEngine) (r : EnvReading) (nowMs : ℕ) :
    (r.humidityPct.gt (F32.lit 90) = true →
      (e.evaluate "larva_1" r nowMs).1.muscardineRisk = true) ∧
    (r.humidityPct.gt (F32.lit 80) = true →
      (e.evaluate "larva_3" r nowMs).1.muscardineRisk = true) ∧
    (r.humidityPct.gt (F32.lit 70) = true →
      (e.evaluate "cocoon" r nowMs).1.cocoonQualityRisk = true) := by
  refine ⟨fun h => ?_, fun h => ?_, fun h => ?_⟩
  · have hh := hasH_of_gt r _ h
    simp only [RuleEngine.evaluate, stageBlock, larva1Block, compound, mark, hh, h,
      apply_ite RuleOutput.muscardineRisk, ite_self, if_true]
    simp
  · have hh := hasH_of_gt r _ h
    simp only [RuleEngine.evaluate, stageBlock, larva3Block, compound, mark, hh, h,
      apply_ite RuleOutput.muscardineRisk, ite_self, if_true]
    simp
  · have hh := hasH_of_gt r _ h
    simp only [RuleEngine.evaluate, stageBlock, cocoonBlock, compound, mark, hh, h,
      apply_ite RuleOutput.cocoonQualityRisk, ite_self, if_true]
    simp

/-- Instance of `applyManual_manual`: switching the Manual heater on. -/
theorem applyManual_manual_witness :
    heaterManual.modeOf (some "heater") = some MODE_MANUAL ∧
    ((heaterManual.applyManual (some "heater") true { temperatureC := F32.lit 20 }).relayOf
        (some "heater")).map RelayActuator.state = some true ∧
    (heaterManual.applyManual (some "heater") true { temperatureC := F32.lit 20 }).audits =
      heaterManual.audits ++
        (if (heaterManual.relayOf (some "heater")).map RelayActuator.state = some true then []
        else [{ actuator := "heater", modeStr := "manual", state := true,
                reading := { temperatureC := F32.lit 20 } }]) ∧
    (∀ other : Option String, other ≠ some "heater" →
      (heaterManual.applyManual (some "heater") true { temperatureC := F32.lit 20 }).relayOf other
        = heaterManual.relayOf other) ∧
    (heaterManual.applyManual (some "heater") true { temperatureC := F32.lit 20 }).modes
      = heaterManual.modes :=
  ⟨by decide, applyManual_manual heaterManual "heater" true { temperatureC := F32.lit 20 }
    (by decide)⟩

/-- Instance of `ventilation_follows_decrease`: humidity 76 at "larva_4". -/
theorem ventilation_follows_decrease_witness :
    ((RuleEngine.evaluate {} "larva_4" { humidityPct := F32.lit 76 } 0).1.decreaseTemperature = true ∨
      (RuleEngine.evaluate {} "larva_4" { humidityPct := F32.lit 76 } 0).1.decreaseHumidity = true) ∧
    (RuleEngine.evaluate {} "larva_4" { humidityPct := F32.lit 76 } 0).1.increaseVentilation = true :=
  have h : (RuleEngine.evaluate {} "larva_4" { humidityPct := F32.lit 76 } 0).1.decreaseTemperature
        = true ∨
      (RuleEngine.evaluate {} "larva_4" { humidityPct := F32.lit 76 } 0).1.decreaseHumidity
        = true := by
    right
    simp [RuleEngine.evaluate, rapidBlock, stageBlock, larva4Block, hasT, hasH, hasCO2, compound,
      F32.isnan, F32.lit, F32.gt, F32.lt, mark]
    norm_num
  ⟨h, ventilation_follows_decrease {} "larva_4" { humidityPct := F32.lit 76 } 0 h⟩

/-- Instance of `fan_state_auto`: default thresholds (`co2Opt = 600`), temperature 30. -/
theorem fan_state_auto_witness :
    autoDefault.modes.fan = MODE_AUTO ∧
    (resolve autoDefault.thresholds).co2Opt + CO2_HYST ≤ INT_MAX ∧
    (autoDefault.applyAutoControl { temperatureC := F32.lit 30 }).actuators.fan.stateOn = true :=
  have hov : (resolve autoDefault.thresholds).co2Opt + CO2_HYST ≤ INT_MAX := by
    simp [autoDefault, resolve, pickPos, pickCo2Min, CO2_OK_MAX, CO2_HYST, INT_MAX, wrapInt, INT_MIN]
    decide
  have h := (fan_state_auto autoDefault { temperatureC := F32.lit 30 } rfl hov).1
  ⟨rfl, hov, by
    rw [h]
    simp [autoDefault, resolve, pickF, T_OK_MAX, F32.lit, F32.isnan, F32.gt, F32.lt]
    norm_num⟩

/-- Instance of `lighting_state_auto`: lux 10 switches the lighting on. -/
theorem lighting_state_auto_witness :
    autoDefault.modes.lighting = MODE_AUTO ∧
    (autoDefault.applyAutoControl { lux := F32.lit 10 }).actuators.lighting.stateOn = true :=
  ⟨rfl, ((lighting_state_auto autoDefault { lux := F32.lit 10 } rfl).1).mpr
    ⟨rfl, by simp [F32.lt, F32.lit]; norm_num⟩⟩

/-- Instance of `heater_hard_limits`: default thresholds, temperature 20 below `tMin`. -/
theorem heater_hard_limits_witness :
    autoDefault.modes.heater = MODE_AUTO ∧ (F32.lit 20).isnan = false ∧
    (F32.lit 20).lt (resolve autoDefault.thresholds).tMin = true ∧
    (autoDefault.applyAutoControl { temperatureC := F32.lit 20 }).actuators.heater.stateOn = true :=
  have hlt : (F32.lit 20).lt (resolve autoDefault.thresholds).tMin = true := by
    simp [autoDefault, resolve, pickF, T_OK_MIN, F32.lit, F32.lt]
    norm_num
  ⟨rfl, rfl, hlt,
    (heater_hard_limits autoDefault { temperatureC := F32.lit 20 } rfl rfl).1 hlt⟩

/-- C15 fails when the resolved `tMin` exceeds the resolved `tMax`: with only the
minimum 30 given (the maximum falls back to 28) and the heater in Automatic
mode, the reading 29 is above `tMax`, yet `applyAutoControl` switches the heater
on, because the test against `tMin` comes first. -/
theorem heater_on_above_max :
    autoMinOnly30.modes.heater = MODE_AUTO ∧ (F32.lit 29).isnan = false ∧
    (F32.lit 29).gt (resolve autoMinOnly30.thresholds).tMax = true ∧
    (autoMinOnly30.applyAutoControl { temperatureC := F32.lit 29 }).actuators.heater.stateOn
      = true := by
  refine ⟨rfl, rfl, ?_, ?_⟩
  · simp [autoMinOnly30, resolve, pickF, T_OK_MAX, F32.lit, F32.isnan, F32.gt, F32.lt]
    norm_num
  · rw [applyAutoControl_heater, heaterBlock_state _ _ _ (by rw [(fanBlock_frame _ _ _).1]; rfl)]
    simp [heaterNeed, autoMinOnly30, resolve, pickF, F32.lit, F32.isnan, F32.lt]
    norm_num

/-- Stages "larva_4" and "larva_5" set `muscardineRisk` above their critical humidity bounds. -/
theorem late_instar_muscardine (e : RuleEngine) (r : EnvReading) (nowMs : ℕ) :
    (r.humidityPct.gt (F32.lit 75) = true →
      (e.evaluate "larva_4" r nowMs).1.muscardineRisk = true) ∧
    (r.humidityPct.gt (F32.lit 70) = true →
      (e.evaluate "larva_5" r nowMs).1.muscardineRisk = true) := by
  refine ⟨fun h => ?_, fun h => ?_⟩
  · have hh := hasH_of_gt r _ h
    simp only [RuleEngine.evaluate, stageBlock, larva4Block, compound, mark, hh, h,
      apply_ite RuleOutput.muscardineRisk, ite_self, if_true]
    simp
  · have hh := hasH_of_gt r _ h
    simp only [RuleEngine.evaluate, stageBlock, larva5Block, compound, mark, hh, h,
      apply_ite RuleOutput.muscardineRisk, ite_self, if_true]
    simp

/-! ## Directional actions, stress level, Schmitt trigger, Automatic pass, level and flags -/

/-- A float below a literal is below every larger literal. -/
theorem F32.lt_lit_mono {v : F32} {a b : ℚ} (h : v.lt (F32.lit a) = true) (hab : a ≤ b) :
    v.lt (F32.lit b) = true := by
  cases v <;> simp_all [F32.lt, F32.lit]
  linarith

/-- A float above a literal is above every smaller literal. -/
theorem F32.gt_lit_mono {v : F32} {a b : ℚ} (h : v.gt (F32.lit a) = true) (hab : b ≤ a) :
    v.gt (F32.lit b) = true := by
  cases v <;> simp_all [F32.gt, F32.lt, F32.lit]
  linarith

/-- A float that compares below something is a number. -/
theorem F32.isnan_of_lt {v w : F32} (h : v.lt w = true) : v.isnan = false := by
  cases v <;> simp_all [F32.lt, F32.isnan]

/-- A float that compares above something is a number. -/
theorem F32.isnan_of_gt {v w : F32} (h : v.gt w = true) : v.isnan = false := by
  cases v <;> cases w <;> simp_all [F32.gt, F32.lt, F32.isnan]

/-- Directional actions at stage "egg_incubation" beyond its critical bounds and above its
CO2 risk threshold. -/
theorem egg_actions (e : RuleEngine) (r : EnvReading) (nowMs : ℕ) :
    (r.temperatureC.lt (F32.lit 24) = true →
      (e.evaluate "egg_incubation" r nowMs).1.increaseTemperature = true) ∧
    (r.temperatureC.gt (F32.lit 27) = true →
      (e.evaluate "egg_incubation" r nowMs).1.decreaseTemperature = true) ∧
    (r.humidityPct.lt (F32.lit 80) = true →
      (e.evaluate "egg_incubation" r nowMs).1.increaseHumidity = true) ∧
    (r.humidityPct.gt (F32.lit 90) = true →
      (e.evaluate "egg_incubation" r nowMs).1.decreaseHumidity = true) ∧
    (r.co2ppm > 900 →
      (e.evaluate "egg_incubation" r nowMs).1.increaseVentilation = true) := by
  refine ⟨?_, ?_, ?_, ?_, ?_⟩
  · intro h
    have hp : hasT r = true := by simp [hasT, F32.isnan_of_lt h]
    have hw : r.temperatureC.lt (F32.lit 25) = true := F32.lt_lit_mono h (by norm_num)
    simp only [RuleEngine.evaluate, stageBlock, eggIncubationBlock, compound, mark, hp, hw,
      apply_ite RuleOutput.increaseTemperature, ite_self, if_true]
  · intro h
    have hp : hasT r = true := by simp [hasT, F32.isnan_of_gt h]
    have hw : r.temperatureC.gt (F32.lit 26) = true := F32.gt_lit_mono h (by norm_num)
    simp only [RuleEngine.evaluate, stageBlock, eggIncubationBlock, compound, mark, hp, hw,
      apply_ite RuleOutput.decreaseTemperature, ite_self, if_true]
  · intro h
    have hp : hasH r = true := by simp [hasH, F32.isnan_of_lt h]
    have hw : r.humidityPct.lt (F32.lit 82) = true := F32.lt_lit_mono h (by norm_num)
    simp only [RuleEngine.evaluate, stageBlock, eggIncubationBlock, compound, mark, hp, hw,
      apply_ite RuleOutput.increaseHumidity, ite_self, if_true]
  · intro h
    have hp : hasH r = true := by simp [hasH, F32.isnan_of_gt h]
    have hw : r.humidityPct.gt (F32.lit 88) = true := F32.gt_lit_mono h (by norm_num)
    simp only [RuleEngine.evaluate, stageBlock, eggIncubationBlock, compound, mark, hp, hw,
      apply_ite RuleOutput.decreaseHumidity, ite_self, if_true]
  · intro h
    have hp : hasCO2 r = true := by
      simp only [hasCO2, decide_eq_true_eq]
      omega
    simp only [RuleEngine.evaluate, stageBlock, eggIncubationBlock, compound, mark, hp, h,
      apply_ite RuleOutput.increaseVentilation, ite_self, if_true]

/-- Directional actions at stage "adaptation_0_1" beyond its critical bounds and above its
CO2 risk threshold. -/
theorem adaptation_actions (e : RuleEngine) (r : EnvReading) (nowMs : ℕ) :
    (r.temperatureC.lt (F32.lit 27) = true →
      (e.evaluate "adaptation_0_1" r nowMs).1.increaseTemperature = true) ∧
    (r.temperatureC.gt (F32.lit 29) = true →
      (e.evaluate "adaptation_0_1" r nowMs).1.decreaseTemperature = true) ∧
    (r.humidityPct.lt (F32.lit 86) = true →
      (e.evaluate "adaptation_0_1" r nowMs).1.increaseHumidity = true) ∧
    (r.humidityPct.gt (F32.lit 92) = true →
      (e.evaluate "adaptation_0_1" r nowMs).1.decreaseHumidity = true) ∧
    (r.co2ppm > 700 →
      (e.evaluate "adaptation_0_1" r nowMs).1.increaseVentilation = true) := by
  refine ⟨?_, ?_, ?_, ?_, ?_⟩
  · intro h
    have hp : hasT r = true := by simp [hasT, F32.isnan_of_lt h]
    have hw : r.temperatureC.lt (F32.lit (55 / 2)) = true := F32.lt_lit_mono h (by norm_num)
    simp only [RuleEngine.evaluate, stageBlock, adaptationBlock, compound, mark, hp, hw,
      apply_ite RuleOutput.increaseTemperature, ite_self, if_true]
    all_goals simp
  · intro h
    have hp : hasT r = true := by simp [hasT, F32.isnan_of_gt h]
    have hw : r.temperatureC.gt (F32.lit (57 / 2)) = true := F32.gt_lit_mono h (by norm_num)
    simp only [RuleEngine.evaluate, stageBlock, adaptationBlock, compound, mark, hp, hw,
      apply_ite RuleOutput.decreaseTemperature, ite_self, if_true]
    all_goals simp
  · intro h
    have hp : hasH r = true := by simp [hasH, F32.isnan_of_lt h]
    have hw : r.humidityPct.lt (F32.lit 88) = true := F32.lt_lit_mono h (by norm_num)
    simp only [RuleEngine.evaluate, stageBlock, adaptationBlock, compound, mark, hp, hw,
      apply_ite RuleOutput.increaseHumidity, ite_self, if_true]
    all_goals simp
  · intro h
    have hp : hasH r = true := by simp [hasH, F32.isnan_of_gt h]
    have hw : r.humidityPct.gt (F32.lit 91) = true := F32.gt_lit_mono h (by norm_num)
    simp only [RuleEngine.evaluate, stageBlock, adaptationBlock, compound, mark, hp, hw,
      apply_ite RuleOutput.decreaseHumidity, ite_self, if_true]
    all_goals simp
  · intro h
    have hp : hasCO2 r = true := by
      simp only [hasCO2, decide_eq_true_eq]
      omega
    simp only [RuleEngine.evaluate, stageBlock, adaptationBlock, compound, mark, hp, h,
      apply_ite RuleOutput.increaseVentilation, ite_self, if_true]
    all_goals simp

/-- Directional actions at stage "larva_1" beyond its critical bounds and above its
CO2 risk threshold. -/
theorem larva1_actions (e : RuleEngine) (r : EnvReading) (nowMs : ℕ) :
    (r.humidityPct.gt (F32.lit 90) = true →
      (e.evaluate "larva_1" r nowMs).1.decreaseHumidity = true) ∧
    (r.co2ppm > 800 →
      (e.evaluate "larva_1" r nowMs).1.increaseVentilation = true) := by
  refine ⟨?_, ?_⟩
  · intro h
    have hp : hasH r = true := by simp [hasH, F32.isnan_of_gt h]
    have hw : r.humidityPct.gt (F32.lit 89) = true := F32.gt_lit_mono h (by norm_num)
    simp only [RuleEngine.evaluate, stageBlock, larva1Block, compound, mark, hp, hw,
      apply_ite RuleOutput.decreaseHumidity, ite_self, if_true]
    all_goals simp
  · intro h
    have hp : hasCO2 r = true := by
      simp only [hasCO2, decide_eq_true_eq]
      omega
    simp only [RuleEngine.evaluate, stageBlock, larva1Block, compound, mark, hp, h,
      apply_ite RuleOutput.increaseVentilation, ite_self, if_true]
    all_goals simp

/-- Directional actions at stage "larva_2" beyond its critical bounds and above its
CO2 risk threshold. -/
theorem larva2_actions (e : RuleEngine) (r : EnvReading) (nowMs : ℕ) :
    (r.humidityPct.gt (F32.lit 85) = true →
      (e.evaluate "larva_2" r nowMs).1.decreaseHumidity = true) ∧
    (r.co2ppm > 900 →
      (e.evaluate "larva_2" r nowMs).1.increaseVentilation = true) := by
  refine ⟨?_, ?_⟩
  · intro h
    have hp : hasH r = true := by simp [hasH, F32.isnan_of_gt h]
    have hw : r.humidityPct.gt (F32.lit 84) = true := F32.gt_lit_mono h (by norm_num)
    simp only [RuleEngine.evaluate, stageBlock, larva2Block, compound, mark, hp, hw,
      apply_ite RuleOutput.decreaseHumidity, ite_self, if_true]
    all_goals simp
  · intro h
    have hp : hasCO2 r = true := by
      simp only [hasCO2, decide_eq_true_eq]
      omega
    simp only [RuleEngine.evaluate, stageBlock, larva2Block, compound, mark, hp, h,
      apply_ite RuleOutput.increaseVentilation, ite_self, if_true]
    all_goals simp

/-- Directional actions at stage "larva_3" beyond its critical bounds and above its
CO2 risk threshold. -/
theorem larva3_actions (e : RuleEngine) (r : EnvReading) (nowMs : ℕ) :
    (r.humidityPct.gt (F32.lit 80) = true →
      (e.evaluate "larva_3" r nowMs).1.decreaseHumidity = true) ∧
    (r.co2ppm > 1000 →
      (e.evaluate "larva_3" r nowMs).1.increaseVentilation = true) := by
  refine ⟨?_, ?_⟩
  · intro h
    have hp : hasH r = true := by simp [hasH, F32.isnan_of_gt h]
    have hw : r.humidityPct.gt (F32.lit 79) = true := F32.gt_lit_mono h (by norm_num)
    simp only [RuleEngine.evaluate, stageBlock, larva3Block, compound, mark, hp, hw,
      apply_ite RuleOutput.decreaseHumidity, ite_self, if_true]
    all_goals simp
  · intro h
    have hp : hasCO2 r = true := by
      simp only [hasCO2, decide_eq_true_eq]
      omega
    simp only [RuleEngine.evaluate, stageBlock, larva3Block, compound, mark, hp, h,
      apply_ite RuleOutput.increaseVentilation, ite_self, if_true]
    all_goals simp

/-- Directional actions at stage "larva_4" beyond its critical bounds and above its
CO2 risk threshold. -/
theorem larva4_actions (e : RuleEngine) (r : EnvReading) (nowMs : ℕ) :
    (r.humidityPct.gt (F32.lit 75) = true →
      (e.evaluate "larva_4" r nowMs).1.decreaseHumidity = true) ∧
    (r.co2ppm > 1100 →
      (e.evaluate "larva_4" r nowMs).1.increaseVentilation = true) := by
  refine ⟨?_, ?_⟩
  · intro h
    have hp : hasH r = true := by simp [hasH, F32.isnan_of_gt h]
    have hw : r.humidityPct.gt (F32.lit 74) = true := F32.gt_lit_mono h (by norm_num)
    simp only [RuleEngine.evaluate, stageBlock, larva4Block, compound, mark, hp, hw,
      apply_ite RuleOutput.decreaseHumidity, ite_self, if_true]
    all_goals simp
  · intro h
    have hp : hasCO2 r = true := by
      simp only [hasCO2, decide_eq_true_eq]
      omega
    simp only [RuleEngine.evaluate, stageBlock, larva4Block, compound, mark, hp, h,
      apply_ite RuleOutput.increaseVentilation, ite_self, if_true]
    all_goals simp

/-- Directional actions at stage "larva_5" beyond its critical bounds and above its
CO2 risk threshold. -/
theorem larva5_actions (e : RuleEngine) (r : EnvReading) (nowMs : ℕ) :
    (r.humidityPct.gt (F32.lit 70) = true →
      (e.evaluate "larva_5" r nowMs).1.decreaseHumidity = true) ∧
    (r.co2ppm > 1100 →
      (e.evaluate "larva_5" r nowMs).1.increaseVentilation = true) := by
  refine ⟨?_, ?_⟩
  · intro h
    have hp : hasH r = true := by simp [hasH, F32.isnan_of_gt h]
    have hw : r.humidityPct.gt (F32.lit 69) = true := F32.gt_lit_mono h (by norm_num)
    simp only [RuleEngine.evaluate, stageBlock, larva5Block, compound, mark, hp, hw,
      apply_ite RuleOutput.decreaseHumidity, ite_self, if_true]
    all_goals simp
  · intro h
    have hp : hasCO2 r = true := by
      simp only [hasCO2, decide_eq_true_eq]
      omega
    simp only [RuleEngine.evaluate, stageBlock, larva5Block, compound, mark, hp, h,
      apply_ite RuleOutput.increaseVentilation, ite_self, if_true]
    all_goals simp

/-- Directional actions at stage "cocoon" beyond its critical bounds and above its
CO2 risk threshold. -/
theorem cocoon_actions (e : RuleEngine) (r : EnvReading) (nowMs : ℕ) :
    (r.humidityPct.gt (F32.lit 70) = true →
      (e.evaluate "cocoon" r nowMs).1.decreaseHumidity = true) ∧
    (r.co2ppm > 900 →
      (e.evaluate "cocoon" r nowMs).1.increaseVentilation = true) := by
  refine ⟨?_, ?_⟩
  · intro h
    have hp : hasH r = true := by simp [hasH, F32.isnan_of_gt h]
    have hw : r.humidityPct.gt (F32.lit 68) = true := F32.gt_lit_mono h (by norm_num)
    simp only [RuleEngine.evaluate, stageBlock, cocoonBlock, compound, mark, hp, hw,
      apply_ite RuleOutput.decreaseHumidity, ite_self, if_true]
    all_goals simp
  · intro h
    have hp : hasCO2 r = true := by
      simp only [hasCO2, decide_eq_true_eq]
      omega
    simp only [RuleEngine.evaluate, stageBlock, cocoonBlock, compound, mark, hp, h,
      apply_ite RuleOutput.increaseVentilation, ite_self, if_true]
    all_goals simp

/-- A two-tier rule marks `ALARM_CRITICAL` exactly outside its outer band. -/
theorem bandLevel2_critical_iff (v : F32) (cl wl wh ch : ℚ) :
    bandLevel2 v cl wl wh ch = ALARM_CRITICAL ↔
      Band.outside { lo := some cl, hi := some ch } v = true := by
  cases v with
  | nan => simp [bandLevel2, Band.outside, F32.lt, F32.gt, F32.lit, F32.isnan]
  | ninf => simp [bandLevel2, Band.outside, F32.lt, F32.gt, F32.lit, F32.isnan]
  | pinf => simp [bandLevel2, Band.outside, F32.lt, F32.gt, F32.lit, F32.isnan]
  | fin q =>
    simp only [bandLevel2, Band.outside, F32.lt, F32.gt, F32.lit, F32.isnan, Bool.not_false,
      if_true, Bool.or_eq_true, decide_eq_true_eq]
    split_ifs with h1 h2 <;> simp [h1]

/-- A warning-only rule never marks `ALARM_CRITICAL`. -/
theorem bandLevel1_ne_critical (v : F32) (wl wh : ℚ) :
    bandLevel1 v wl wh ≠ ALARM_CRITICAL := by
  unfold bandLevel1
  split_ifs <;> simp

/-- A rule with an upper critical bound marks `ALARM_CRITICAL` exactly above it. -/
theorem bandLevelHi_critical_iff (v : F32) (wl wh ch : ℚ) :
    bandLevelHi v wl wh ch = ALARM_CRITICAL ↔ Band.outside { hi := some ch } v = true := by
  cases v <;> simp [bandLevelHi, Band.outside, F32.lt, F32.gt, F32.lit, F32.isnan]
  split_ifs <;> simp_all

/-- An upper-side rule marks `ALARM_CRITICAL` exactly above its critical bound. -/
theorem upperLevel_critical_iff (v : F32) (wh ch : ℚ) :
    upperLevel v wh ch = ALARM_CRITICAL ↔ Band.outside { hi := some ch } v = true := by
  cases v <;> simp [upperLevel, Band.outside, F32.lt, F32.gt, F32.lit, F32.isnan]
  split_ifs <;> simp_all

/-- The critical temperature band of a stage is exactly where the stage's
temperature rule stays below `ALARM_CRITICAL`. -/
theorem tempLevel_critical_iff (stage : String) (v : F32) :
    tempLevel stage v = ALARM_CRITICAL ↔ (tempCritBand stage).outside v = true := by
  unfold tempLevel tempCritBand
  split_ifs
  · exact bandLevel2_critical_iff v _ _ _ _
  · exact bandLevel2_critical_iff v _ _ _ _
  · simp [Band.outside, bandLevel1_ne_critical]
  · simp [Band.outside, bandLevel1_ne_critical]
  · simp [Band.outside, bandLevel1_ne_critical]
  · simp [Band.outside]

/-- The critical humidity band of a stage is exactly where the stage's humidity
rule stays below `ALARM_CRITICAL`. -/
theorem humLevel_critical_iff (stage : String) (v : F32) :
    humLevel stage v = ALARM_CRITICAL ↔ (humCritBand stage).outside v = true := by
  unfold humLevel humCritBand
  split_ifs
  · exact bandLevel2_critical_iff v _ _ _ _
  · exact bandLevel2_critical_iff v _ _ _ _
  · exact bandLevelHi_critical_iff v _ _ _
  · exact bandLevelHi_critical_iff v _ _ _
  · exact bandLevelHi_critical_iff v _ _ _
  · exact upperLevel_critical_iff v _ _
  · exact upperLevel_critical_iff v _ _
  · exact bandLevelHi_critical_iff v _ _ _
  · simp [Band.outside]

/-- C21: for every known stage and reading, whenever a present variable crosses
the stage's critical band the matching directional action is set: temperature
below/above the critical band sets `increaseTemperature`/`decreaseTemperature`,
humidity below/above sets `increaseHumidity`/`decreaseHumidity`, and CO2 above
the stage's risk threshold (hence also above the critical threshold) sets
`increaseVentilation`. -/
theorem critical_sets_action (e : RuleEngine) (stage : String) (r : EnvReading) (nowMs : ℕ)
    (hs : stage ∈ knownStages) :
    (∀ lo, (tempCritBand stage).lo = some lo → r.temperatureC.lt (F32.lit lo) = true →
      (e.evaluate stage r nowMs).1.increaseTemperature = true) ∧
    (∀ hi, (tempCritBand stage).hi = some hi → r.temperatureC.gt (F32.lit hi) = true →
      (e.evaluate stage r nowMs).1.decreaseTemperature = true) ∧
    (∀ lo, (humCritBand stage).lo = some lo → r.humidityPct.lt (F32.lit lo) = true →
      (e.evaluate stage r nowMs).1.increaseHumidity = true) ∧
    (∀ hi, (humCritBand stage).hi = some hi → r.humidityPct.gt (F32.lit hi) = true →
      (e.evaluate stage r nowMs).1.decreaseHumidity = true) ∧
    (∀ h, co2Band stage = some h → r.co2ppm > h →
      (e.evaluate stage r nowMs).1.increaseVentilation = true) := by
  simp only [knownStages, List.mem_cons, List.mem_singleton, List.mem_nil_iff, or_false] at hs
  rcases hs with rfl | rfl | rfl | rfl | rfl | rfl | rfl | rfl
  · obtain ⟨aT1, aT2, aH1, aH2, aC⟩ := egg_actions e r nowMs
    refine ⟨fun x hx => ?_, fun x hx => ?_, fun x hx => ?_, fun x hx => ?_, fun x hx => ?_⟩
    all_goals
      simp [tempCritBand, humCritBand, co2Band] at hx
      try (subst hx; assumption)
  · obtain ⟨aT1, aT2, aH1, aH2, aC⟩ := adaptation_actions e r nowMs
    refine ⟨fun x hx => ?_, fun x hx => ?_, fun x hx => ?_, fun x hx => ?_, fun x hx => ?_⟩
    all_goals
      simp [tempCritBand, humCritBand, co2Band] at hx
      try (subst hx; assumption)
  · obtain ⟨aH2, aC⟩ := larva1_actions e r nowMs
    refine ⟨fun x hx => ?_, fun x hx => ?_, fun x hx => ?_, fun x hx => ?_, fun x hx => ?_⟩
    all_goals
      simp [tempCritBand, humCritBand, co2Band] at hx
      try (subst hx; assumption)
  · obtain ⟨aH2, aC⟩ := larva2_actions e r nowMs
    refine ⟨fun x hx => ?_, fun x hx => ?_, fun x hx => ?_, fun x hx => ?_, fun x hx => ?_⟩
    all_goals
      simp [tempCritBand, humCritBand, co2Band] at hx
      try (subst hx; assumption)
  · obtain ⟨aH2, aC⟩ := larva3_actions e r nowMs
    refine ⟨fun x hx => ?_, fun x hx => ?_, fun x hx => ?_, fun x hx => ?_, fun x hx => ?_⟩
    all_goals
      simp [tempCritBand, humCritBand, co2Band] at hx
      try (subst hx; assumption)
  · obtain ⟨aH2, aC⟩ := larva4_actions e r nowMs
    refine ⟨fun x hx => ?_, fun x hx => ?_, fun x hx => ?_, fun x hx => ?_, fun x hx => ?_⟩
    all_goals
      simp [tempCritBand, humCritBand, co2Band] at hx
      try (subst hx; assumption)
  · obtain ⟨aH2, aC⟩ := larva5_actions e r nowMs
    refine ⟨fun x hx => ?_, fun x hx => ?_, fun x hx => ?_, fun x hx => ?_, fun x hx => ?_⟩
    all_goals
      simp [tempCritBand, humCritBand, co2Band] at hx
      try (subst hx; assumption)
  · obtain ⟨aH2, aC⟩ := cocoon_actions e r nowMs
    refine ⟨fun x hx => ?_, fun x hx => ?_, fun x hx => ?_, fun x hx => ?_, fun x hx => ?_⟩
    all_goals
      simp [tempCritBand, humCritBand, co2Band] at hx
      try (subst hx; assumption)

/-- C22: `toStressLevel` maps `ALARM_CRITICAL` to "high", `ALARM_RISK` and
`ALARM_WARNING` to "medium" and `ALARM_NORMAL` to "low", and is monotone from the
alarm order to the order low < medium < high. -/
theorem toStressLevel_monotone :
    RuleEngine.toStressLevel ALARM_CRITICAL = "high" ∧
    RuleEngine.toStressLevel ALARM_RISK = "medium" ∧
    RuleEngine.toStressLevel ALARM_WARNING = "medium" ∧
    RuleEngine.toStressLevel ALARM_NORMAL = "low" ∧
    ∀ a b : AlarmLevel, a.toNat ≤ b.toNat →
      stressRank (RuleEngine.toStressLevel a) ≤ stressRank (RuleEngine.toStressLevel b) := by
  refine ⟨by decide, by decide, by decide, by decide, fun a b h => ?_⟩
  cases a <;> cases b <;> first | decide | (exfalso; revert h; decide)

/-- C23: the humidifier decision is the heater decision with parameters
substituted. For every prior state, value and bounds, the heater's `need` is the
Schmitt trigger on (temperature, tMin, tOpt, tMax, T_HYST) and the humidifier's
`need` is the same function on (humidity, hMin, hOpt, hMax, H_HYST), the
unknown-value case included. -/
theorem humidifier_is_heater_rule (k : Resolved) (r : EnvReading) (wasOn : Bool) :
    heaterNeed k r wasOn
      = schmittTrigger r.temperatureC k.tMin k.tOpt k.tMax T_HYST wasOn ∧
    humidifierNeed k r wasOn
      = schmittTrigger r.humidityPct k.hMin k.hOpt k.hMax H_HYST wasOn := by
  constructor
  · unfold heaterNeed schmittTrigger
    cases wasOn <;> cases r.temperatureC.isnan <;> cases r.temperatureC.lt k.tMin <;>
      cases r.temperatureC.gt k.tMax <;>
      cases r.temperatureC.lt (F32.sub k.tOpt T_HYST) <;>
      cases r.temperatureC.gt (F32.add k.tOpt T_HYST) <;> rfl
  · unfold humidifierNeed schmittTrigger
    cases wasOn <;> cases r.humidityPct.isnan <;> cases r.humidityPct.lt k.hMin <;>
      cases r.humidityPct.gt k.hMax <;>
      cases r.humidityPct.lt (F32.sub k.hOpt H_HYST) <;>
      cases r.humidityPct.gt (F32.add k.hOpt H_HYST) <;> rfl

/-- A mode other than Automatic is Manual, and the fan block then keeps the fan. -/
theorem fanBlock_manual (k : Resolved) (r : EnvReading) (c : Controller)
    (h : c.modes.fan = MODE_MANUAL) : fanBlock k r c = c := by
  simp [fanBlock, h]

/-- The heater block keeps a Manual heater. -/
theorem heaterBlock_manual (k : Resolved) (r : EnvReading) (c : Controller)
    (h : c.modes.heater = MODE_MANUAL) : heaterBlock k r c = c := by
  simp [heaterBlock, h]

/-- The humidifier block keeps a Manual humidifier. -/
theorem humidifierBlock_manual (k : Resolved) (r : EnvReading) (c : Controller)
    (h : c.modes.humidifier = MODE_MANUAL) : humidifierBlock k r c = c := by
  simp [humidifierBlock, h]

/-- The lighting block keeps a Manual lighting relay. -/
theorem lightingBlock_manual (r : EnvReading) (c : Controller)
    (h : c.modes.lighting = MODE_MANUAL) : lightingBlock r c = c := by
  simp [lightingBlock, h]

/-- The audit records posted by the fan block. -/
theorem fanBlock_audits (k : Resolved) (r : EnvReading) (c : Controller) :
    (fanBlock k r c).audits = c.audits ++
      autoAudit "ventilation" c.modes.fan c.actuators.fan (fanBlock k r c).actuators.fan r := by
  unfold fanBlock autoAudit
  split_ifs <;>
    simp_all [Controller.postActuatorAudit, RelayActuator.set, RelayActuator.state]

/-- The audit records posted by the heater block. -/
theorem heaterBlock_audits (k : Resolved) (r : EnvReading) (c : Controller) :
    (heaterBlock k r c).audits = c.audits ++
      autoAudit "heater" c.modes.heater c.actuators.heater
        (heaterBlock k r c).actuators.heater r := by
  unfold heaterBlock autoAudit
  split_ifs <;>
    simp_all [Controller.postActuatorAudit, RelayActuator.set, RelayActuator.state]

/-- The audit records posted by the humidifier block. -/
theorem humidifierBlock_audits (k : Resolved) (r : EnvReading) (c : Controller) :
    (humidifierBlock k r c).audits = c.audits ++
      autoAudit "humidifier" c.modes.humidifier c.actuators.humidifier
        (humidifierBlock k r c).actuators.humidifier r := by
  unfold humidifierBlock autoAudit
  split_ifs <;>
    simp_all [Controller.postActuatorAudit, RelayActuator.set, RelayActuator.state]

/-- The audit records posted by the lighting block. -/
theorem lightingBlock_audits (r : EnvReading) (c : Controller) :
    (lightingBlock r c).audits = c.audits ++
      autoAudit "lighting" c.modes.lighting c.actuators.lighting
        (lightingBlock r c).actuators.lighting r := by
  unfold lightingBlock autoAudit
  split_ifs <;>
    simp_all [Controller.postActuatorAudit, RelayActuator.set, RelayActuator.state]

/-- C24: `applyAutoControl` touches only Automatic-mode actuators. No mode changes;
each actuator in `MODE_MANUAL` keeps its relay; and the audit log grows by, for
each actuator in fan, heater, humidifier, lighting order, exactly the record
`(name, "auto", new state, reading)` if the actuator is Automatic and its state
changed and by nothing otherwise. -/
theorem applyAutoControl_frame (c : Controller) (r : EnvReading) :
    (c.applyAutoControl r).modes = c.modes ∧
    (c.modes.fan = MODE_MANUAL → (c.applyAutoControl r).actuators.fan = c.actuators.fan) ∧
    (c.modes.heater = MODE_MANUAL →
      (c.applyAutoControl r).actuators.heater = c.actuators.heater) ∧
    (c.modes.humidifier = MODE_MANUAL →
      (c.applyAutoControl r).actuators.humidifier = c.actuators.humidifier) ∧
    (c.modes.lighting = MODE_MANUAL →
      (c.applyAutoControl r).actuators.lighting = c.actuators.lighting) ∧
    (c.applyAutoControl r).audits = c.audits ++
      (autoAudit "ventilation" c.modes.fan c.actuators.fan
          (c.applyAutoControl r).actuators.fan r ++
        autoAudit "heater" c.modes.heater c.actuators.heater
          (c.applyAutoControl r).actuators.heater r ++
        autoAudit "humidifier" c.modes.humidifier c.actuators.humidifier
          (c.applyAutoControl r).actuators.humidifier r ++
        autoAudit "lighting" c.modes.lighting c.actuators.lighting
          (c.applyAutoControl r).actuators.lighting r) := by
  obtain ⟨f1, _, f3, f4, f5⟩ := fanBlock_frame (resolve c.thresholds) r c
  obtain ⟨g1, _, g3, g4, g5⟩ := heaterBlock_frame (resolve c.thresholds) r
    (fanBlock (resolve c.thresholds) r c)
  obtain ⟨u1, _, u3, u4, u5⟩ := humidifierBlock_frame (resolve c.thresholds) r
    (heaterBlock (resolve c.thresholds) r (fanBlock (resolve c.thresholds) r c))
  obtain ⟨l1, _, l3, l4, l5⟩ := lightingBlock_frame r
    (humidifierBlock (resolve c.thresholds) r
      (heaterBlock (resolve c.thresholds) r (fanBlock (resolve c.thresholds) r c)))
  have a1 := fanBlock_audits (resolve c.thresholds) r c
  have a2 := heaterBlock_audits (resolve c.thresholds) r (fanBlock (resolve c.thresholds) r c)
  have a3 := humidifierBlock_audits (resolve c.thresholds) r
    (heaterBlock (resolve c.thresholds) r (fanBlock (resolve c.thresholds) r c))
  have a4 := lightingBlock_audits r
    (humidifierBlock (resolve c.thresholds) r
      (heaterBlock (resolve c.thresholds) r (fanBlock (resolve c.thresholds) r c)))
  unfold Controller.applyAutoControl
  set k := resolve c.thresholds
  set c1 := fanBlock k r c
  set c2 := heaterBlock k r c1
  set c3 := humidifierBlock k r c2
  set c4 := lightingBlock r c3
  refine ⟨by rw [l1, u1, g1, f1], ?_, ?_, ?_, ?_, ?_⟩
  · intro h
    rw [l3, u3, g3]
    exact congrArg (fun x => x.actuators.fan) (fanBlock_manual k r c h)
  · intro h
    rw [l4, u4]
    have : c1.modes.heater = MODE_MANUAL := by rw [f1]; exact h
    rw [show c2 = c1 from heaterBlock_manual k r c1 this, f3]
  · intro h
    rw [l5]
    have : c2.modes.humidifier = MODE_MANUAL := by rw [g1, f1]; exact h
    rw [show c3 = c2 from humidifierBlock_manual k r c2 this, g4, f4]
  · intro h
    have : c3.modes.lighting = MODE_MANUAL := by rw [u1, g1, f1]; exact h
    rw [show c4 = c3 from lightingBlock_manual r c3 this, u5, g5, f5]
  · rw [a4, a3, a2, a1, u1, g1, f1, u5, g5, f5, g4, f4, f3, l3, u3, g3, l4, u4, l5]
    simp only [List.append_assoc]

/-- A step that either changes nothing or ends alarmed with a flag set keeps level
and flags in agreement. -/
theorem agrees_of_step {o p : RuleOutput}
    (h : o.level = ALARM_NORMAL ↔ o.anyFlag = false)
    (hs : p = o ∨ (p.level ≠ ALARM_NORMAL ∧ p.anyFlag = true)) :
    p.level = ALARM_NORMAL ↔ p.anyFlag = false := by
  rcases hs with rfl | ⟨h1, h2⟩
  · exact h
  · simp [h1, h2]

/-- Marking a level other than `ALARM_NORMAL` leaves an alarmed level. -/
theorem maxLevel_ne_normal (a b : AlarmLevel) (h : b ≠ ALARM_NORMAL) :
    maxLevel a b ≠ ALARM_NORMAL := by
  cases a <;> cases b <;> simp_all [maxLevel, AlarmLevel.toNat]

/-- A two-tier rule either changes nothing or ends alarmed with a flag set. -/
theorem bandRule2_step (v : F32) (incr decr : RuleOutput → RuleOutput) (cl wl wh ch : ℚ)
    (o : RuleOutput) (h1 : cl ≤ wl) (h3 : wh ≤ ch)
    (hil : ∀ x, (incr x).level = x.level) (hdl : ∀ x, (decr x).level = x.level)
    (hia : ∀ x, (incr x).anyFlag = true) (hda : ∀ x, (decr x).anyFlag = true) :
    bandRule2 v incr decr cl wl wh ch o = o ∨
      ((bandRule2 v incr decr cl wl wh ch o).level ≠ ALARM_NORMAL ∧
        (bandRule2 v incr decr cl wl wh ch o).anyFlag = true) := by
  by_cases hf : Band.outside { lo := some wl, hi := some wh } v = true
  · right
    constructor
    · rw [bandRule2_level _ _ _ _ _ _ _ _ hil hdl]
      apply maxLevel_ne_normal
      rw [Ne, bandLevel2_normal_iff v cl wl wh ch h1 h3, hf]
      simp
    · cases v <;> simp_all [bandRule2, Band.outside, F32.lt, F32.gt, F32.lit, F32.isnan]
      all_goals split_ifs <;> simp_all
  · left
    cases v <;> simp_all [bandRule2, Band.outside, F32.lt, F32.gt, F32.lit, F32.isnan]
    all_goals
      first
        | rfl
        | (split_ifs <;>
            first
              | rfl
              | (exfalso; simp only [not_or, not_lt] at *; (try casesm* _ ∨ _, _ ∧ _);
                  all_goals linarith))

/-- A warning-only rule either changes nothing or ends alarmed with a flag set. -/
theorem bandRule1_step (v : F32) (incr decr : RuleOutput → RuleOutput) (wl wh : ℚ)
    (o : RuleOutput)
    (hil : ∀ x, (incr x).level = x.level) (hdl : ∀ x, (decr x).level = x.level)
    (hia : ∀ x, (incr x).anyFlag = true) (hda : ∀ x, (decr x).anyFlag = true) :
    bandRule1 v incr decr wl wh o = o ∨
      ((bandRule1 v incr decr wl wh o).level ≠ ALARM_NORMAL ∧
        (bandRule1 v incr decr wl wh o).anyFlag = true) := by
  by_cases hf : Band.outside { lo := some wl, hi := some wh } v = true
  · right
    constructor
    · rw [bandRule1_level _ _ _ _ _ _ hil hdl]
      apply maxLevel_ne_normal
      rw [Ne, bandLevel1_normal_iff v wl wh, hf]
      simp
    · cases v <;> simp_all [bandRule1, Band.outside, F32.lt, F32.gt, F32.lit, F32.isnan]
      all_goals split_ifs <;> simp_all
  · left
    cases v <;> simp_all [bandRule1, Band.outside, F32.lt, F32.gt, F32.lit, F32.isnan]
    all_goals
      first
        | rfl
        | (split_ifs <;>
            first
              | rfl
              | (exfalso; simp only [not_or, not_lt] at *; (try casesm* _ ∨ _, _ ∧ _);
                  all_goals linarith))

/-- A rule with an upper critical bound either changes nothing or ends alarmed with
a flag set. -/
theorem bandRuleHi_step (v : F32) (risk incr decr : RuleOutput → RuleOutput) (wl wh ch : ℚ)
    (o : RuleOutput) (h3 : wh ≤ ch) (hrl : ∀ x, (risk x).level = x.level)
    (hil : ∀ x, (incr x).level = x.level) (hdl : ∀ x, (decr x).level = x.level)
    (hia : ∀ x, (incr x).anyFlag = true) (hda : ∀ x, (decr x).anyFlag = true) :
    bandRuleHi v risk incr decr wl wh ch o = o ∨
      ((bandRuleHi v risk incr decr wl wh ch o).level ≠ ALARM_NORMAL ∧
        (bandRuleHi v risk incr decr wl wh ch o).anyFlag = true) := by
  by_cases hf : Band.outside { lo := some wl, hi := some wh } v = true
  · right
    constructor
    · rw [bandRuleHi_level _ _ _ _ _ _ _ _ hrl hil hdl]
      apply maxLevel_ne_normal
      rw [Ne, bandLevelHi_normal_iff v wl wh ch h3, hf]
      simp
    · cases v <;> simp_all [bandRuleHi, Band.outside, F32.lt, F32.gt, F32.lit, F32.isnan]
      all_goals split_ifs <;> simp_all
  · left
    cases v <;> simp_all [bandRuleHi, Band.outside, F32.lt, F32.gt, F32.lit, F32.isnan]
    all_goals
      first
        | rfl
        | (split_ifs <;>
            first
              | rfl
              | (exfalso; simp only [not_or, not_lt] at *; (try casesm* _ ∨ _, _ ∧ _);
                  all_goals linarith))

/-- An upper-side rule either changes nothing or ends alarmed with a flag set. -/
theorem upperRule_step (v : F32) (risk decr : RuleOutput → RuleOutput) (wh ch : ℚ)
    (o : RuleOutput) (h3 : wh ≤ ch) (hrl : ∀ x, (risk x).level = x.level)
    (hdl : ∀ x, (decr x).level = x.level) (hda : ∀ x, (decr x).anyFlag = true) :
    upperRule v risk decr wh ch o = o ∨
      ((upperRule v risk decr wh ch o).level ≠ ALARM_NORMAL ∧
        (upperRule v risk decr wh ch o).anyFlag = true) := by
  by_cases hf : Band.outside { hi := some wh } v = true
  · right
    constructor
    · rw [upperRule_level _ _ _ _ _ _ hrl hdl]
      apply maxLevel_ne_normal
      rw [Ne, upperLevel_normal_iff v wh ch h3, hf]
      simp
    · cases v <;> simp_all [upperRule, Band.outside, F32.lt, F32.gt, F32.lit, F32.isnan]
  · left
    cases v <;> simp_all [upperRule, Band.outside, F32.lt, F32.gt, F32.lit, F32.isnan]
    all_goals
      first
        | rfl
        | (split_ifs <;>
            first
              | rfl
              | (exfalso; simp only [not_or, not_lt] at *; linarith))

/-- A CO2 rule either changes nothing or ends alarmed with a flag set. -/
theorem co2Rule_step (co2 crit risk : ℤ) (o : RuleOutput) (h : risk ≤ crit) :
    co2Rule co2 crit risk o = o ∨
      ((co2Rule co2 crit risk o).level ≠ ALARM_NORMAL ∧
        (co2Rule co2 crit risk o).anyFlag = true) := by
  by_cases hf : co2 > 0 ∧ co2 > risk
  · right
    constructor
    · rw [co2Rule_level]
      apply maxLevel_ne_normal
      rw [Ne, co2Level_normal_iff co2 crit risk h]
      omega
    · simp only [co2Rule, decide_eq_true_eq, if_pos hf.1, if_pos hf.2]
      simp [RuleOutput.anyFlag]
  · left
    simp only [co2Rule, decide_eq_true_eq]
    split_ifs <;> first | rfl | (exfalso; omega)

/-- The combined rule either changes nothing or ends alarmed with a flag set. -/
theorem flacherieRule_step (r : EnvReading) (o : RuleOutput) :
    flacherieRule r o = o ∨
      ((flacherieRule r o).level ≠ ALARM_NORMAL ∧ (flacherieRule r o).anyFlag = true) := by
  unfold flacherieRule
  split_ifs
  · right
    simp [mark, maxLevel_critical_right, RuleOutput.anyFlag]
  · left
    rfl

/-- The rapid-change block either changes nothing or ends alarmed with a flag set. -/
theorem rapidBlock_step (e : RuleEngine) (stage : String) (r : EnvReading) (nowMs : ℕ)
    (o : RuleOutput) :
    rapidBlock e stage r nowMs o = o ∨
      ((rapidBlock e stage r nowMs o).level ≠ ALARM_NORMAL ∧
        (rapidBlock e stage r nowMs o).anyFlag = true) := by
  unfold rapidBlock
  split_ifs
  · right
    simp [mark, maxLevel_critical_right, RuleOutput.anyFlag]
  · left
    rfl
  · left
    rfl
  · left
    rfl

/-- The compound derivation keeps level and flags in agreement. -/
theorem compound_agrees (o : RuleOutput)
    (h : o.level = ALARM_NORMAL ↔ o.anyFlag = false) :
    (compound o).level = ALARM_NORMAL ↔ (compound o).anyFlag = false := by
  unfold compound
  split_ifs with hc
  · have ha : o.anyFlag = true := by
      simp only [Bool.or_eq_true] at hc
      rcases hc with hc | hc <;> simp [RuleOutput.anyFlag, hc]
    have hl : o.level ≠ ALARM_NORMAL := fun hl => by
      rw [h.mp hl] at ha
      exact Bool.noConfusion ha
    simp [hl, RuleOutput.anyFlag]
  · exact h

/-- The "egg_incubation" branch keeps level and flags in agreement. -/
theorem eggIncubationBlock_agrees (r : EnvReading) (o : RuleOutput)
    (h : o.level = ALARM_NORMAL ↔ o.anyFlag = false) :
    (eggIncubationBlock r o).level = ALARM_NORMAL ↔ (eggIncubationBlock r o).anyFlag = false := by
  rw [eggIncubationBlock_eq]
  refine agrees_of_step ?_ (co2Rule_step _ _ _ _ (by norm_num))
  refine agrees_of_step ?_ (bandRule2_step _ _ _ _ _ _ _ _ (by norm_num) (by norm_num) (fun _ => rfl) (fun _ => rfl)
    (fun _ => by simp [RuleOutput.anyFlag]) (fun _ => by simp [RuleOutput.anyFlag]))
  refine agrees_of_step h (bandRule2_step _ _ _ _ _ _ _ _ (by norm_num) (by norm_num) (fun _ => rfl) (fun _ => rfl)
    (fun _ => by simp [RuleOutput.anyFlag]) (fun _ => by simp [RuleOutput.anyFlag]))

/-- The "adaptation_0_1" branch keeps level and flags in agreement. -/
theorem adaptationBlock_agrees (r : EnvReading) (o : RuleOutput)
    (h : o.level = ALARM_NORMAL ↔ o.anyFlag = false) :
    (adaptationBlock r o).level = ALARM_NORMAL ↔ (adaptationBlock r o).anyFlag = false := by
  rw [adaptationBlock_eq]
  refine agrees_of_step ?_ (co2Rule_step _ _ _ _ (by norm_num))
  refine agrees_of_step ?_ (bandRule2_step _ _ _ _ _ _ _ _ (by norm_num) (by norm_num) (fun _ => rfl) (fun _ => rfl)
    (fun _ => by simp [RuleOutput.anyFlag]) (fun _ => by simp [RuleOutput.anyFlag]))
  refine agrees_of_step h (bandRule2_step _ _ _ _ _ _ _ _ (by norm_num) (by norm_num) (fun _ => rfl) (fun _ => rfl)
    (fun _ => by simp [RuleOutput.anyFlag]) (fun _ => by simp [RuleOutput.anyFlag]))

/-- The "larva_1" branch keeps level and flags in agreement. -/
theorem larva1Block_agrees (r : EnvReading) (o : RuleOutput)
    (h : o.level = ALARM_NORMAL ↔ o.anyFlag = false) :
    (larva1Block r o).level = ALARM_NORMAL ↔ (larva1Block r o).anyFlag = false := by
  rw [larva1Block_eq]
  refine agrees_of_step ?_ (co2Rule_step _ _ _ _ (by norm_num))
  refine agrees_of_step ?_ (bandRuleHi_step _ _ _ _ _ _ _ _ (by norm_num) (fun _ => rfl) (fun _ => rfl) (fun _ => rfl)
    (fun _ => by simp [RuleOutput.anyFlag]) (fun _ => by simp [RuleOutput.anyFlag]))
  refine agrees_of_step h (bandRule1_step _ _ _ _ _ _ (fun _ => rfl) (fun _ => rfl)
    (fun _ => by simp [RuleOutput.anyFlag]) (fun _ => by simp [RuleOutput.anyFlag]))

/-- The "larva_2" branch keeps level and flags in agreement. -/
theorem larva2Block_agrees (r : EnvReading) (o : RuleOutput)
    (h : o.level = ALARM_NORMAL ↔ o.anyFlag = false) :
    (larva2Block r o).level = ALARM_NORMAL ↔ (larva2Block r o).anyFlag = false := by
  rw [larva2Block_eq]
  refine agrees_of_step ?_ (co2Rule_step _ _ _ _ (by norm_num))
  refine agrees_of_step ?_ (bandRuleHi_step _ _ _ _ _ _ _ _ (by norm_num) (fun _ => rfl) (fun _ => rfl) (fun _ => rfl)
    (fun _ => by simp [RuleOutput.anyFlag]) (fun _ => by simp [RuleOutput.anyFlag]))
  refine agrees_of_step h (bandRule1_step _ _ _ _ _ _ (fun _ => rfl) (fun _ => rfl)
    (fun _ => by simp [RuleOutput.anyFlag]) (fun _ => by simp [RuleOutput.anyFlag]))

/-- The "larva_3" branch keeps level and flags in agreement. -/
theorem larva3Block_agrees (r : EnvReading) (o : RuleOutput)
    (h : o.level = ALARM_NORMAL ↔ o.anyFlag = false) :
    (larva3Block r o).level = ALARM_NORMAL ↔ (larva3Block r o).anyFlag = false := by
  rw [larva3Block_eq]
  refine agrees_of_step ?_ (co2Rule_step _ _ _ _ (by norm_num))
  refine agrees_of_step ?_ (bandRuleHi_step _ _ _ _ _ _ _ _ (by norm_num) (fun _ => rfl) (fun _ => rfl) (fun _ => rfl)
    (fun _ => by simp [RuleOutput.anyFlag]) (fun _ => by simp [RuleOutput.anyFlag]))
  refine agrees_of_step h (bandRule1_step _ _ _ _ _ _ (fun _ => rfl) (fun _ => rfl)
    (fun _ => by simp [RuleOutput.anyFlag]) (fun _ => by simp [RuleOutput.anyFlag]))

/-- The "larva_4" branch keeps level and flags in agreement. -/
theorem larva4Block_agrees (r : EnvReading) (o : RuleOutput)
    (h : o.level = ALARM_NORMAL ↔ o.anyFlag = false) :
    (larva4Block r o).level = ALARM_NORMAL ↔ (larva4Block r o).anyFlag = false := by
  rw [larva4Block_eq]
  refine agrees_of_step ?_ (flacherieRule_step _ _)
  refine agrees_of_step ?_ (co2Rule_step _ _ _ _ (by norm_num))
  refine agrees_of_step h (upperRule_step _ _ _ _ _ _ (by norm_num) (fun _ => rfl) (fun _ => rfl)
    (fun _ => by simp [RuleOutput.anyFlag]))

/-- The "larva_5" branch keeps level and flags in agreement. -/
theorem larva5Block_agrees (r : EnvReading) (o : RuleOutput)
    (h : o.level = ALARM_NORMAL ↔ o.anyFlag = false) :
    (larva5Block r o).level = ALARM_NORMAL ↔ (larva5Block r o).anyFlag = false := by
  rw [larva5Block_eq]
  refine agrees_of_step ?_ (co2Rule_step _ _ _ _ (by norm_num))
  refine agrees_of_step h (upperRule_step _ _ _ _ _ _ (by norm_num) (fun _ => rfl) (fun _ => rfl)
    (fun _ => by simp [RuleOutput.anyFlag]))

/-- The "cocoon" branch keeps level and flags in agreement. -/
theorem cocoonBlock_agrees (r : EnvReading) (o : RuleOutput)
    (h : o.level = ALARM_NORMAL ↔ o.anyFlag = false) :
    (cocoonBlock r o).level = ALARM_NORMAL ↔ (cocoonBlock r o).anyFlag = false := by
  rw [cocoonBlock_eq]
  refine agrees_of_step ?_ (co2Rule_step _ _ _ _ (by norm_num))
  refine agrees_of_step h (bandRuleHi_step _ _ _ _ _ _ _ _ (by norm_num) (fun _ => rfl) (fun _ => rfl) (fun _ => rfl)
    (fun _ => by simp [RuleOutput.anyFlag]) (fun _ => by simp [RuleOutput.anyFlag]))

/-- The stage rules keep level and flags in agreement. -/
theorem stageBlock_agrees (stage : String) (r : EnvReading) (o : RuleOutput)
    (h : o.level = ALARM_NORMAL ↔ o.anyFlag = false) :
    (stageBlock stage r o).level = ALARM_NORMAL ↔ (stageBlock stage r o).anyFlag = false := by
  unfold stageBlock
  split_ifs
  · exact eggIncubationBlock_agrees r o h
  · exact adaptationBlock_agrees r o h
  · exact larva1Block_agrees r o h
  · exact larva2Block_agrees r o h
  · exact larva3Block_agrees r o h
  · exact larva4Block_agrees r o h
  · exact larva5Block_agrees r o h
  · exact cocoonBlock_agrees r o h
  · exact h

/-- C25: level and flags agree. For every stage, reading, trend state and `nowMs`,
`evaluate` returns level `ALARM_NORMAL` if and only if all five action flags and
all four risk flags (`rapidTempChange` included) are false. -/
theorem level_normal_iff_no_flag (e : RuleEngine) (stage : String) (r : EnvReading)
    (nowMs : ℕ) :
    (e.evaluate stage r nowMs).1.level = ALARM_NORMAL ↔
      (e.evaluate stage r nowMs).1.anyFlag = false := by
  have h0 : ({} : RuleOutput).level = ALARM_NORMAL ↔ ({} : RuleOutput).anyFlag = false := by
    simp [RuleOutput.anyFlag]
  exact compound_agrees _
    (stageBlock_agrees stage r _ (agrees_of_step h0 (rapidBlock_step e stage r nowMs {})))

/-- Instance of `critical_sets_action`: temperature 23 at "egg_incubation" is below
the critical bound 24. -/
theorem critical_sets_action_witness :
    "egg_incubation" ∈ knownStages ∧
    (tempCritBand "egg_incubation").lo = some 24 ∧
    (F32.lit 23).lt (F32.lit 24) = true ∧
    (RuleEngine.evaluate {} "egg_incubation" { temperatureC := F32.lit 23 } 0).1.increaseTemperature
      = true :=
  have hb : (tempCritBand "egg_incubation").lo = some 24 := by simp [tempCritBand]
  have hlt : (F32.lit 23).lt (F32.lit 24) = true := by
    simp [F32.lt, F32.lit]
    norm_num
  ⟨by decide, hb, hlt,
    (critical_sets_action {} "egg_incubation" { temperatureC := F32.lit 23 } 0 (by decide)).1
      24 hb hlt⟩

end KozaTakip
